import Mathlib

/-!
# HX711 weight sensor drivers (Raspberry Pi 4 kernel modules)

A shallow embedding of `hx711_driver.c` (namespace `Driver1`) and
`hx711_driver2.c` (namespace `Driver2`), and theorems about them.

Conventions of the embedding.

* Every C function becomes a Lean function on an explicit `State`, which holds
  the module's global variables together with the part of the kernel the module
  talks to (GPIO accesses, the timer, owned pins, /proc entries).
* What the hardware and the kernel answer is an input, collected in `Env`:
  the level a pin shows at each `gpio_get_value`, the return code of
  `gpio_request`, the constant `HZ`, the width of `long`, and how far the tick
  counter `jiffies` has advanced each time the module reads it.
* `jiffies + HZ` is an `unsigned long` sum: it wraps at `2 ^ BITS_PER_LONG`.
* `unsigned long` values are natural numbers.  In `ReadCount` the variable
  `Count` starts at 0 and is shifted left 24 times, so it stays below `2 ^ 24`
  and never wraps at any width of `long` from 32 bits on.  The casts and the
  signed arithmetic of `convert_to_grams` wrap explicitly.
* The two `while`/`for` loops are recursive functions.  `wait_loop` carries a
  fuel argument; `ReadCount` calls it with `MAX_WAIT_COUNT + 1`, which is enough
  for the loop to leave through its own condition (`wait_loop_high_d1`,
  `wait_loop_low_d1` and `stuck_or_ready` below show the exit for every
  behaviour of the line).
* `printk` only appends to the kernel log, which the drivers never read back;
  it is left out.
-/

namespace HX711

/-! ## Kernel and hardware model shared by the two modules -/

/-- One access of a module to the GPIO layer, or a busy-wait. -/
inductive GpioEvent where
  | set_value (gpio : Nat) (value : Nat)
  | get_value (gpio : Nat) (level : Bool)
  | direction_input (gpio : Nat)
  | direction_output (gpio : Nat) (value : Nat)
  | udelay (usecs : Nat)
  deriving DecidableEq

/-- The pin an event is on, if it is a GPIO access. -/
def GpioEvent.pin? : GpioEvent → Option Nat
  | .set_value gpio _ => some gpio
  | .get_value gpio _ => some gpio
  | .direction_input gpio => some gpio
  | .direction_output gpio _ => some gpio
  | .udelay _ => none

/-- Answers of the hardware and the kernel, inputs of the model. -/
structure Env where
  /-- The level of pin `gpio` at the `n`-th `gpio_get_value` of the module. -/
  level : Nat → Nat → Bool
  /-- The return code of `gpio_request` for a pin. -/
  gpio_request_rc : Nat → Int
  /-- Timer ticks per second. -/
  HZ : Nat
  /-- The width of `long` and `unsigned long` (32 on arm, 64 on arm64). -/
  BITS_PER_LONG : Nat
  /-- The number of ticks by which the counter `jiffies` has advanced since it
  was last observed, at a read the module makes when its trace has `n` events:
  the time that its busy-waits, and whatever else ran meanwhile, have taken. -/
  elapsed : Nat → Nat

/-- The globals of one module and the kernel objects it uses. -/
structure State where
  /-- `static unsigned long auto_tare_offset`. -/
  auto_tare_offset : Nat
  /-- `static int weight_grams`. -/
  weight_grams : Int
  /-- `static struct timer_list weight_timer`: its expiry when pending. -/
  weight_timer : Option Nat
  /-- The kernel tick counter `jiffies`, an `unsigned long`: its value when it
  was last observed (at module load, at a timer expiry, at a read by the
  module). -/
  jiffies : Nat
  /-- Pins obtained with `gpio_request` and not yet freed. -/
  owned : List Nat
  /-- Names registered under /proc. -/
  procfs : List String
  /-- How many `gpio_get_value` calls the module has made. -/
  reads : Nat
  /-- Every GPIO access and delay so far, oldest first. -/
  trace : List GpioEvent

/-- The state right after the module image is loaded: the static initialisers
of the C file (`auto_tare_offset = 0`, `weight_grams = 0`, a timer that is not
pending), at kernel time `jiffies` with `procfs` already registered. -/
def State.loaded (jiffies : Nat) (procfs : List String) : State :=
  { auto_tare_offset := 0, weight_grams := 0, weight_timer := none,
    jiffies := jiffies, owned := [], procfs := procfs, reads := 0, trace := [] }

/-- Kernel `gpio_set_value(gpio, value)`. -/
def gpio_set_value (gpio value : Nat) (s : State) : State :=
  { s with trace := s.trace ++ [GpioEvent.set_value gpio value] }

/-- Kernel `gpio_get_value(gpio)`: the level and the state after the read. -/
def gpio_get_value (env : Env) (gpio : Nat) (s : State) : Bool × State :=
  (env.level gpio s.reads,
   { s with reads := s.reads + 1,
            trace := s.trace ++ [GpioEvent.get_value gpio (env.level gpio s.reads)] })

/-- Kernel `udelay(usecs)`. -/
def udelay (usecs : Nat) (s : State) : State :=
  { s with trace := s.trace ++ [GpioEvent.udelay usecs] }

/-- Kernel `gpio_request(gpio, label)`: the return code; the pin is owned when
the code is not negative. -/
def gpio_request (env : Env) (gpio : Nat) (s : State) : Int × State :=
  (env.gpio_request_rc gpio,
   if env.gpio_request_rc gpio < 0 then s else { s with owned := gpio :: s.owned })

/-- Kernel `gpio_free(gpio)`. -/
def gpio_free (gpio : Nat) (s : State) : State :=
  { s with owned := s.owned.erase gpio }

/-- Kernel `gpio_direction_input(gpio)`. -/
def gpio_direction_input (gpio : Nat) (s : State) : State :=
  { s with trace := s.trace ++ [GpioEvent.direction_input gpio] }

/-- Kernel `gpio_direction_output(gpio, value)`. -/
def gpio_direction_output (gpio value : Nat) (s : State) : State :=
  { s with trace := s.trace ++ [GpioEvent.direction_output gpio value] }

/-- A read of the volatile kernel counter `jiffies`: the value last observed plus
the ticks that have elapsed since, in `unsigned long` arithmetic.  The value read
is the new last observation. -/
def read_jiffies (env : Env) (s : State) : Nat × State :=
  ((s.jiffies + env.elapsed s.trace.length) % 2 ^ env.BITS_PER_LONG,
   { s with jiffies := (s.jiffies + env.elapsed s.trace.length) % 2 ^ env.BITS_PER_LONG })

/-- Kernel `mod_timer(&weight_timer, expires)`. -/
def mod_timer (expires : Nat) (s : State) : State :=
  { s with weight_timer := some expires }

/-- Kernel `del_timer(&weight_timer)`. -/
def del_timer (s : State) : State :=
  { s with weight_timer := none }

/-- Kernel `proc_create(name, ...)`. -/
def proc_create (name : String) (s : State) : State :=
  { s with procfs := name :: s.procfs }

/-- Kernel `remove_proc_entry(name, NULL)`. -/
def remove_proc_entry (name : String) (s : State) : State :=
  { s with procfs := s.procfs.erase name }

/-- The C cast `(long)x` of an `unsigned long` on a machine whose `long` has
`w` bits: the two's-complement reading of the same bits. -/
def to_long (w : Nat) (x : Nat) : Int :=
  if x % 2 ^ w < 2 ^ (w - 1) then ((x % 2 ^ w : Nat) : Int)
  else ((x % 2 ^ w : Nat) : Int) - 2 ^ w

/-- A mathematical integer stored in a signed `w`-bit variable (kernel C is
built with wrapping signed arithmetic). -/
def wrap_signed (w : Nat) (z : Int) : Int :=
  (z + 2 ^ (w - 1)) % 2 ^ w - 2 ^ (w - 1)

/-! ## `hx711_driver.c` -/

namespace Driver1

def ADDO_PIN : Nat := 2
def ADSK_PIN : Nat := 3
def SCALE_FACTOR : Int := 421
def MAX_WAIT_COUNT : Nat := 1000000

/-- The loop `while (gpio_get_value(ADDO_PIN) && wait_count < MAX_WAIT_COUNT)
{ wait_count++; udelay(1); }`, one test of the condition per unit of fuel.
Returns `wait_count` at the exit. -/
def wait_loop (env : Env) : Nat → Nat → State → Nat × State
  | 0, wait_count, s => (wait_count, s)
  | fuel + 1, wait_count, s =>
    let r := gpio_get_value env ADDO_PIN s
    if r.1 && decide (wait_count < MAX_WAIT_COUNT) then
      wait_loop env fuel (wait_count + 1) (udelay 1 r.2)
    else (wait_count, r.2)

/-- The loop `for (i = 0; i < 24; i++) { ... }` with `n` iterations left. -/
def read_bits (env : Env) : Nat → Nat → State → Nat × State
  | 0, Count, s => (Count, s)
  | n + 1, Count, s =>
    let s1 := gpio_set_value ADSK_PIN 1 s
    let s2 := udelay 1 s1
    let Count1 := Count <<< 1
    let s3 := gpio_set_value ADSK_PIN 0 s2
    let s4 := udelay 1 s3
    let r := gpio_get_value env ADDO_PIN s4
    read_bits env n (if r.1 then Count1 + 1 else Count1) r.2

/-- `static unsigned long ReadCount(void)`. -/
def ReadCount (env : Env) (s : State) : Nat × State :=
  let s1 := gpio_set_value ADSK_PIN 0 s
  let w := wait_loop env (MAX_WAIT_COUNT + 1) 0 s1
  if w.1 ≥ MAX_WAIT_COUNT then (0xFFFFFFFF, w.2)
  else
    let b := read_bits env 24 0 w.2
    let s2 := gpio_set_value ADSK_PIN 1 b.2
    let s3 := udelay 1 s2
    let Count := b.1 ^^^ 0x800000
    let s4 := gpio_set_value ADSK_PIN 0 s3
    (Count, s4)

/-- The body of `convert_to_grams` with the constant `SCALE_FACTOR` and the global
`auto_tare_offset` as arguments: `weight = (long)count - (long)offset;
weight = weight / scale; return (int)weight;`. -/
def convert (w : Nat) (scale : Int) (offset count : Nat) : Int :=
  let weight := wrap_signed w (to_long w count - to_long w offset)
  let weight1 := wrap_signed w (Int.tdiv weight scale)
  wrap_signed 32 weight1

/-- `static int convert_to_grams(unsigned long count)`. -/
def convert_to_grams (env : Env) (s : State) (count : Nat) : Int :=
  convert env.BITS_PER_LONG SCALE_FACTOR s.auto_tare_offset count

/-- `static void weight_timer_callback(struct timer_list *t)`. -/
def weight_timer_callback (env : Env) (s : State) : State :=
  let r := ReadCount env s
  if r.1 = 0xFFFFFFFF then r.2
  else
    let s1 := { r.2 with weight_grams := convert_to_grams env r.2 r.1 }
    let j := read_jiffies env s1
    mod_timer ((j.1 + env.HZ) % 2 ^ env.BITS_PER_LONG) j.2

/-- `static int weight_proc_show(...)`: the number it prints. -/
def weight_proc_show (s : State) : Int := s.weight_grams

/-- `static int __init hx711_init(void)`: the return value and the state. -/
def hx711_init (env : Env) (s : State) : Int × State :=
  let q1 := gpio_request env ADDO_PIN s
  if q1.1 < 0 then (-1, q1.2)
  else
    let q2 := gpio_request env ADSK_PIN q1.2
    if q2.1 < 0 then (-1, q2.2)
    else
      let s1 := gpio_direction_input ADDO_PIN q2.2
      let s2 := gpio_direction_output ADSK_PIN 0 s1
      let r := ReadCount env s2
      let s3 := { r.2 with auto_tare_offset := r.1 }
      let j := read_jiffies env s3
      let s4 := mod_timer ((j.1 + env.HZ) % 2 ^ env.BITS_PER_LONG) j.2
      let s5 := proc_create "weight1" s4
      (0, s5)

/-- `static void __exit hx711_exit(void)`. -/
def hx711_exit (s : State) : State :=
  let s1 := del_timer s
  let s2 := gpio_free ADDO_PIN s1
  let s3 := gpio_free ADSK_PIN s2
  remove_proc_entry "weight1" s3

/-- What the kernel does when the timer expires (kernel code, not the
module's): the timer stops being pending, the counter `jiffies` has reached the
expiry, and the callback runs.  Nothing happens while the timer is not
pending. -/
def timer_fire (env : Env) (s : State) : State :=
  match s.weight_timer with
  | none => s
  | some expires =>
    weight_timer_callback env
      { s with weight_timer := none, jiffies := expires }

/-- The next `n` expiries of the timer, one after the other. -/
def run_ticks (env : Env) : Nat → State → State
  | 0, s => s
  | n + 1, s => run_ticks env n (timer_fire env s)

end Driver1

/-! ## `hx711_driver2.c` -/

namespace Driver2

def ADDO_PIN : Nat := 17
def ADSK_PIN : Nat := 27
def SCALE_FACTOR : Int := 426
def MAX_WAIT_COUNT : Nat := 1000000

/-- The loop `while (gpio_get_value(ADDO_PIN) && wait_count < MAX_WAIT_COUNT)
{ wait_count++; udelay(1); }`, one test of the condition per unit of fuel.
Returns `wait_count` at the exit. -/
def wait_loop (env : Env) : Nat → Nat → State → Nat × State
  | 0, wait_count, s => (wait_count, s)
  | fuel + 1, wait_count, s =>
    let r := gpio_get_value env ADDO_PIN s
    if r.1 && decide (wait_count < MAX_WAIT_COUNT) then
      wait_loop env fuel (wait_count + 1) (udelay 1 r.2)
    else (wait_count, r.2)

/-- The loop `for (i = 0; i < 24; i++) { ... }` with `n` iterations left. -/
def read_bits (env : Env) : Nat → Nat → State → Nat × State
  | 0, Count, s => (Count, s)
  | n + 1, Count, s =>
    let s1 := gpio_set_value ADSK_PIN 1 s
    let s2 := udelay 1 s1
    let Count1 := Count <<< 1
    let s3 := gpio_set_value ADSK_PIN 0 s2
    let s4 := udelay 1 s3
    let r := gpio_get_value env ADDO_PIN s4
    read_bits env n (if r.1 then Count1 + 1 else Count1) r.2

/-- `static unsigned long ReadCount(void)`. -/
def ReadCount (env : Env) (s : State) : Nat × State :=
  let s1 := gpio_set_value ADSK_PIN 0 s
  let w := wait_loop env (MAX_WAIT_COUNT + 1) 0 s1
  if w.1 ≥ MAX_WAIT_COUNT then (0xFFFFFFFF, w.2)
  else
    let b := read_bits env 24 0 w.2
    let s2 := gpio_set_value ADSK_PIN 1 b.2
    let s3 := udelay 1 s2
    let Count := b.1 ^^^ 0x800000
    let s4 := gpio_set_value ADSK_PIN 0 s3
    (Count, s4)

/-- The body of `convert_to_grams` with the constant `SCALE_FACTOR` and the global
`auto_tare_offset` as arguments: `weight = (long)count - (long)offset;
weight = weight / scale; return (int)weight;`. -/
def convert (w : Nat) (scale : Int) (offset count : Nat) : Int :=
  let weight := wrap_signed w (to_long w count - to_long w offset)
  let weight1 := wrap_signed w (Int.tdiv weight scale)
  wrap_signed 32 weight1

/-- `static int convert_to_grams(unsigned long count)`. -/
def convert_to_grams (env : Env) (s : State) (count : Nat) : Int :=
  convert env.BITS_PER_LONG SCALE_FACTOR s.auto_tare_offset count

/-- `static void weight_timer_callback(struct timer_list *t)`. -/
def weight_timer_callback (env : Env) (s : State) : State :=
  let r := ReadCount env s
  if r.1 = 0xFFFFFFFF then r.2
  else
    let s1 := { r.2 with weight_grams := convert_to_grams env r.2 r.1 }
    let j := read_jiffies env s1
    mod_timer ((j.1 + env.HZ) % 2 ^ env.BITS_PER_LONG) j.2

/-- `static int weight_proc_show(...)`: the number it prints. -/
def weight_proc_show (s : State) : Int := s.weight_grams

/-- `static int __init hx711_init(void)`: the return value and the state. -/
def hx711_init (env : Env) (s : State) : Int × State :=
  let q1 := gpio_request env ADDO_PIN s
  if q1.1 < 0 then (-1, q1.2)
  else
    let q2 := gpio_request env ADSK_PIN q1.2
    if q2.1 < 0 then (-1, q2.2)
    else
      let s1 := gpio_direction_input ADDO_PIN q2.2
      let s2 := gpio_direction_output ADSK_PIN 0 s1
      let r := ReadCount env s2
      let s3 := { r.2 with auto_tare_offset := r.1 }
      let j := read_jiffies env s3
      let s4 := mod_timer ((j.1 + env.HZ) % 2 ^ env.BITS_PER_LONG) j.2
      let s5 := proc_create "weight2" s4
      (0, s5)

/-- `static void __exit hx711_exit(void)`. -/
def hx711_exit (s : State) : State :=
  let s1 := del_timer s
  let s2 := gpio_free ADDO_PIN s1
  let s3 := gpio_free ADSK_PIN s2
  remove_proc_entry "weight1" s3

/-- What the kernel does when the timer expires (kernel code, not the
module's): the timer stops being pending, the counter `jiffies` has reached the
expiry, and the callback runs.  Nothing happens while the timer is not
pending. -/
def timer_fire (env : Env) (s : State) : State :=
  match s.weight_timer with
  | none => s
  | some expires =>
    weight_timer_callback env
      { s with weight_timer := none, jiffies := expires }

/-- The next `n` expiries of the timer, one after the other. -/
def run_ticks (env : Env) : Nat → State → State
  | 0, s => s
  | n + 1, s => run_ticks env n (timer_fire env s)

end Driver2

/-! ## Vocabulary of the statements -/

/-- The events of `k` polls of the data pin that read high, each followed by
the one-microsecond wait of the loop body. -/
def poll_events (addo : Nat) : Nat → List GpioEvent
  | 0 => []
  | k + 1 => GpioEvent.get_value addo true :: GpioEvent.udelay 1 :: poll_events addo k

/-- The events of `n` data clock cycles, the first of which samples the data
line at read number `start`. -/
def bit_events (addo adsk : Nat) (line : Nat → Bool) : Nat → Nat → List GpioEvent
  | 0, _ => []
  | n + 1, start =>
    GpioEvent.set_value adsk 1 :: GpioEvent.udelay 1 :: GpioEvent.set_value adsk 0 ::
      GpioEvent.udelay 1 :: GpioEvent.get_value addo (line start) ::
      bit_events addo adsk line n (start + 1)

/-- The events of an acquisition whose first `bound` polls all read high;
`last` is the level of the poll made with `wait_count = bound`. -/
def timeout_events (addo adsk bound : Nat) (last : Bool) : List GpioEvent :=
  GpioEvent.set_value adsk 0 :: (poll_events addo bound ++ [GpioEvent.get_value addo last])

/-- The events of an acquisition that starts at read number `reads` and sees
the data line low for the first time at its poll number `k` (counted from 0). -/
def success_events (addo adsk : Nat) (line : Nat → Bool) (reads k : Nat) : List GpioEvent :=
  GpioEvent.set_value adsk 0 :: (poll_events addo k ++ (GpioEvent.get_value addo false ::
    (bit_events addo adsk line 24 (reads + k + 1) ++
      [GpioEvent.set_value adsk 1, GpioEvent.udelay 1, GpioEvent.set_value adsk 0])))

/-- The number whose bit of weight `2 ^ i` is `b i`, for `i < n`. -/
def bits_value (b : Nat → Bool) (n : Nat) : Nat :=
  ∑ i in Finset.range n, if b i then 2 ^ i else 0

/-- The values written to pin `adsk` with `gpio_set_value`, in order. -/
def clock_writes (adsk : Nat) : List GpioEvent → List Nat
  | [] => []
  | GpioEvent.set_value gpio value :: es =>
    if gpio = adsk then value :: clock_writes adsk es else clock_writes adsk es
  | _ :: es => clock_writes adsk es

/-- The number of `gpio_get_value` calls in a trace. -/
def read_count : List GpioEvent → Nat
  | [] => 0
  | GpioEvent.get_value _ _ :: es => read_count es + 1
  | _ :: es => read_count es

/-- The clock writes of `n` pulses: high then low, `n` times. -/
def pulses : Nat → List Nat
  | 0 => []
  | n + 1 => 1 :: 0 :: pulses n

/-- The events a call added to the trace: those of `s1` after those of `s0`. -/
def events_since (s0 s1 : State) : List GpioEvent :=
  s1.trace.drop s0.trace.length

/-- Polled from the current read on, the data line on `addo` reads high `k`
times and then low: the chip signals "data ready" at poll number `k`. -/
def ready_at (env : Env) (addo : Nat) (s : State) (k : Nat) : Prop :=
  (∀ j, j < k → env.level addo (s.reads + j) = true) ∧ env.level addo (s.reads + k) = false

instance (env : Env) (addo : Nat) (s : State) (k : Nat) : Decidable (ready_at env addo s k) :=
  inferInstanceAs (Decidable (_ ∧ _))

/-- Polled from the current read on, the data line on `addo` reads high at each
of the next `bound` reads. -/
def stuck_high (env : Env) (addo : Nat) (s : State) (bound : Nat) : Prop :=
  ∀ j, j < bound → env.level addo (s.reads + j) = true

/-- The number of the first of the reads `start, ..., start + bound - 1` at
which `line` is low, counted from `start`; `none` when all of them are high. -/
def first_low (line : Nat → Bool) : Nat → Nat → Option Nat
  | 0, _ => none
  | bound + 1, start =>
    if line start then (first_low line bound (start + 1)).map (fun k => k + 1) else some 0

/-- The 24 levels the chip puts on the data line for the accumulator `u`,
most significant bit first, after one low level that signals "data ready". -/
def frame (u : Nat) : List Bool :=
  false :: (List.range 24).map (fun i => Nat.testBit u (23 - i))

/-- A simulated environment: every pin shows the listed levels, one per read,
and `dflt` afterwards; `gpio_request` succeeds; `HZ = 100`; no tick elapses
between two observations of `jiffies`. -/
def env_of_levels (levels : List Bool) (dflt : Bool) (bits_per_long : Nat) : Env :=
  { level := fun _ n => levels.getD n dflt, gpio_request_rc := fun _ => 0,
    HZ := 100, BITS_PER_LONG := bits_per_long, elapsed := fun _ => 0 }

/-- A state in the middle of operation: tare offset 4660, last reading 7 grams,
the timer pending for tick 150 at kernel time 50. -/
def State.sampling : State :=
  { auto_tare_offset := 4660, weight_grams := 7, weight_timer := some 150,
    jiffies := 50, owned := [], procfs := [], reads := 0, trace := [] }

/-- From read number `start` on, the data line on `addo` reads high `k` times,
then low, and then carries the 24 bits of the accumulator `u`, most significant
bit first. -/
def delivers (env : Env) (addo start k u : Nat) : Prop :=
  (∀ j, j < k → env.level addo (start + j) = true)
  ∧ env.level addo (start + k) = false
  ∧ ∀ i, i < 24 → env.level addo (start + k + 1 + i) = Nat.testBit u (23 - i)

instance (env : Env) (addo start k u : Nat) : Decidable (delivers env addo start k u) :=
  inferInstanceAs (Decidable (_ ∧ _ ∧ _))

/-- The value of the 24-bit pattern `p` read as a two's-complement number. -/
def signed24 (p : Nat) : Int :=
  if p % 2 ^ 24 < 2 ^ 23 then ((p % 2 ^ 24 : Nat) : Int) else ((p % 2 ^ 24 : Nat) : Int) - 2 ^ 24

/-- An event of a channel with data pin `addo` and clock pin `adsk` stays on the
channel's lines: a read is of `addo`, a write is to `adsk`, and the direction of
no pin is changed. -/
def on_lines (addo adsk : Nat) : GpioEvent → Bool
  | GpioEvent.set_value gpio _ => gpio == adsk
  | GpioEvent.get_value gpio _ => gpio == addo
  | GpioEvent.direction_input _ => false
  | GpioEvent.direction_output _ _ => false
  | GpioEvent.udelay _ => true

/-- The most recent successful sample in a list of tick outcomes, oldest first;
`none` stands for a tick that timed out. -/
def last_success : List (Option Nat) → Option Nat
  | [] => none
  | a :: rest =>
    match last_success rest with
    | some r => some r
    | none => a

namespace Driver1

/-- The raw sample an acquisition started in state `s` obtains: `none` when the
data line stays high for the whole wait bound, the count `ReadCount` returns
otherwise. -/
def acquired (env : Env) (s : State) : Option Nat :=
  match first_low (env.level ADDO_PIN) MAX_WAIT_COUNT s.reads with
  | none => none
  | some _ => some (ReadCount env s).1

/-- The outcomes of the ticks that `run_ticks env n s` executes, oldest first. -/
def tick_samples (env : Env) : Nat → State → List (Option Nat)
  | 0, _ => []
  | n + 1, s =>
    match s.weight_timer with
    | none => tick_samples env n s
    | some expires =>
      acquired env { s with weight_timer := none, jiffies := expires } ::
        tick_samples env n (timer_fire env s)

end Driver1

namespace Driver2

/-- The raw sample an acquisition started in state `s` obtains: `none` when the
data line stays high for the whole wait bound, the count `ReadCount` returns
otherwise. -/
def acquired (env : Env) (s : State) : Option Nat :=
  match first_low (env.level ADDO_PIN) MAX_WAIT_COUNT s.reads with
  | none => none
  | some _ => some (ReadCount env s).1

/-- The outcomes of the ticks that `run_ticks env n s` executes, oldest first. -/
def tick_samples (env : Env) : Nat → State → List (Option Nat)
  | 0, _ => []
  | n + 1, s =>
    match s.weight_timer with
    | none => tick_samples env n s
    | some expires =>
      acquired env { s with weight_timer := none, jiffies := expires } ::
        tick_samples env n (timer_fire env s)

end Driver2

/-! ## One algorithm with the per-channel constants as parameters

The spec asks for one parametrized channel in place of the two copies.  The
definitions below are the functions of `hx711_driver.c` with its three
per-channel constants read from a `Channel`; the two drivers are compared with
them. -/

/-- The constants that differ between the two drivers. -/
structure Channel where
  /-- The data pin. -/
  ADDO_PIN : Nat
  /-- The clock pin. -/
  ADSK_PIN : Nat
  /-- The scale factor. -/
  SCALE_FACTOR : Int

namespace Channel

/-- The wait bound, the same in both drivers. -/
def MAX_WAIT_COUNT : Nat := 1000000

/-- The wait loop of `ReadCount` on the data pin of `c`. -/
def wait_loop (c : Channel) (env : Env) : Nat → Nat → State → Nat × State
  | 0, wait_count, s => (wait_count, s)
  | fuel + 1, wait_count, s =>
    let r := gpio_get_value env c.ADDO_PIN s
    if r.1 && decide (wait_count < MAX_WAIT_COUNT) then
      wait_loop c env fuel (wait_count + 1) (udelay 1 r.2)
    else (wait_count, r.2)

/-- The bit loop of `ReadCount` on the pins of `c`. -/
def read_bits (c : Channel) (env : Env) : Nat → Nat → State → Nat × State
  | 0, Count, s => (Count, s)
  | n + 1, Count, s =>
    let s1 := gpio_set_value c.ADSK_PIN 1 s
    let s2 := udelay 1 s1
    let Count1 := Count <<< 1
    let s3 := gpio_set_value c.ADSK_PIN 0 s2
    let s4 := udelay 1 s3
    let r := gpio_get_value env c.ADDO_PIN s4
    read_bits c env n (if r.1 then Count1 + 1 else Count1) r.2

/-- The function `ReadCount` on the pins of `c`. -/
def ReadCount (c : Channel) (env : Env) (s : State) : Nat × State :=
  let s1 := gpio_set_value c.ADSK_PIN 0 s
  let w := wait_loop c env (MAX_WAIT_COUNT + 1) 0 s1
  if w.1 ≥ MAX_WAIT_COUNT then (0xFFFFFFFF, w.2)
  else
    let b := read_bits c env 24 0 w.2
    let s2 := gpio_set_value c.ADSK_PIN 1 b.2
    let s3 := udelay 1 s2
    let Count := b.1 ^^^ 0x800000
    let s4 := gpio_set_value c.ADSK_PIN 0 s3
    (Count, s4)

/-- The function `convert_to_grams` with the scale factor of `c`. -/
def convert_to_grams (c : Channel) (env : Env) (s : State) (count : Nat) : Int :=
  let weight := wrap_signed env.BITS_PER_LONG
    (to_long env.BITS_PER_LONG count - to_long env.BITS_PER_LONG s.auto_tare_offset)
  let weight1 := wrap_signed env.BITS_PER_LONG (Int.tdiv weight c.SCALE_FACTOR)
  wrap_signed 32 weight1

/-- The function `weight_timer_callback` on the constants of `c`. -/
def weight_timer_callback (c : Channel) (env : Env) (s : State) : State :=
  let r := ReadCount c env s
  if r.1 = 0xFFFFFFFF then r.2
  else
    let s1 := { r.2 with weight_grams := convert_to_grams c env r.2 r.1 }
    let j := read_jiffies env s1
    mod_timer ((j.1 + env.HZ) % 2 ^ env.BITS_PER_LONG) j.2

end Channel

/-- The constants of `hx711_driver.c`. -/
def channel1 : Channel := { ADDO_PIN := 2, ADSK_PIN := 3, SCALE_FACTOR := 421 }

/-- The constants of `hx711_driver2.c`. -/
def channel2 : Channel := { ADDO_PIN := 17, ADSK_PIN := 27, SCALE_FACTOR := 426 }

/-- The substitution of pins that turns driver 1 into driver 2: data pin
2 to 17, clock pin 3 to 27. -/
def subst_pin (gpio : Nat) : Nat :=
  if gpio = 2 then 17 else if gpio = 3 then 27 else gpio

/-- The pin substitution applied to an event. -/
def GpioEvent.subst : GpioEvent → GpioEvent
  | GpioEvent.set_value gpio value => GpioEvent.set_value (subst_pin gpio) value
  | GpioEvent.get_value gpio level => GpioEvent.get_value (subst_pin gpio) level
  | GpioEvent.direction_input gpio => GpioEvent.direction_input (subst_pin gpio)
  | GpioEvent.direction_output gpio value => GpioEvent.direction_output (subst_pin gpio) value
  | GpioEvent.udelay usecs => GpioEvent.udelay usecs

/-- The scale substitution that turns driver 1 into driver 2: 421 to 426. -/
def subst_scale (scale : Int) : Int :=
  if scale = 421 then 426 else scale

/-- The constants of a channel after the substitution. -/
def subst_channel (c : Channel) : Channel :=
  { ADDO_PIN := subst_pin c.ADDO_PIN, ADSK_PIN := subst_pin c.ADSK_PIN,
    SCALE_FACTOR := subst_scale c.SCALE_FACTOR }

/-- A simulated environment: every pin reads high at the first `n` reads and low
from then on; `gpio_request` succeeds; `HZ = 100`; `long` has 64 bits. -/
def env_low_after (n : Nat) : Env :=
  { level := fun _ r => decide (r < n), gpio_request_rc := fun _ => 0,
    HZ := 100, BITS_PER_LONG := 64, elapsed := fun _ => 0 }

/-- The value of the variable `long weight` of `convert_to_grams` when it
reaches `return (int)weight`, before the narrowing cast. -/
def weight_long (w : Nat) (scale : Int) (offset count : Nat) : Int :=
  wrap_signed w (Int.tdiv (wrap_signed w (to_long w count - to_long w offset)) scale)

/-- A simulated environment as `env_of_levels`, in which `ticks` ticks elapse
before each read of `jiffies`. -/
def env_with_clock (levels : List Bool) (dflt : Bool) (bits_per_long ticks : Nat) : Env :=
  { level := fun _ n => levels.getD n dflt, gpio_request_rc := fun _ => 0,
    HZ := 100, BITS_PER_LONG := bits_per_long, elapsed := fun _ => ticks }

/-- The state `State.sampling` with the tick counter 50 ticks before it wraps on
a 64-bit kernel. -/
def State.near_wrap : State :=
  { State.sampling with jiffies := 2 ^ 64 - 50 }

/-- A simulated environment in which the chip answers too late for the tare:
every pin reads high at the first 1000001 reads and then carries the frame of
the accumulator `u`; `gpio_request` succeeds; `HZ = 100`. -/
def env_after_failed_tare (u bits_per_long : Nat) : Env :=
  { level := fun _ n => if n < 1000001 then true else (frame u).getD (n - 1000001) true,
    gpio_request_rc := fun _ => 0, HZ := 100, BITS_PER_LONG := bits_per_long,
    elapsed := fun _ => 0 }

/-! ## The wait loop and the bit loop, for every behaviour of the line -/

theorem bits_value_eq_sum (b : Nat → Bool) (n : Nat) :
    bits_value b n = ∑ i in Finset.range n, (b i).toNat * 2 ^ i := by
  unfold bits_value
  apply Finset.sum_congr rfl
  intro i _
  cases b i <;> simp

theorem bits_value_congr (a b : Nat → Bool) (n : Nat) (h : ∀ i, i < n → a i = b i) :
    bits_value a n = bits_value b n := by
  unfold bits_value
  apply Finset.sum_congr rfl
  intro i hi
  rw [h i (Finset.mem_range.mp hi)]

/-- The bit of weight `2 ^ i` is the sample number `23 - i`. -/
theorem bits_value_samples (line b : Nat → Bool) (base : Nat)
    (h : ∀ i, i < 24 → line (base + i) = b (23 - i)) :
    bits_value (fun i => line (base + (23 - i))) 24 = ∑ i in Finset.range 24, (b i).toNat * 2 ^ i := by
  rw [← bits_value_eq_sum]
  apply bits_value_congr
  intro i hi
  have := h (23 - i) (by omega)
  have e : 23 - (23 - i) = i := by omega
  simpa [e] using this

theorem bits_value_all_low (b : Nat → Bool) (n : Nat) (h : ∀ i, i < n → b i = false) :
    ∑ i in Finset.range n, (b i).toNat * 2 ^ i = 0 := by
  apply Finset.sum_eq_zero
  intro i hi
  simp [h i (Finset.mem_range.mp hi)]

theorem bits_value_all_high (b : Nat → Bool) (h : ∀ i, i < 24 → b i = true) :
    ∑ i in Finset.range 24, (b i).toNat * 2 ^ i = 0xFFFFFF := by
  have : ∑ i in Finset.range 24, (b i).toNat * 2 ^ i = ∑ i in Finset.range 24, 2 ^ i := by
    apply Finset.sum_congr rfl
    intro i hi
    simp [h i (Finset.mem_range.mp hi)]
  rw [this]
  decide

/-! ## Facts about traces -/

theorem events_since_append (s0 s1 : State) (es : List GpioEvent)
    (h : s1.trace = s0.trace ++ es) : events_since s0 s1 = es := by
  simp [events_since, h]

theorem clock_writes_append (adsk : Nat) (xs ys : List GpioEvent) :
    clock_writes adsk (xs ++ ys) = clock_writes adsk xs ++ clock_writes adsk ys := by
  induction xs with
  | nil => rfl
  | cons e es ih =>
    cases e <;> simp [clock_writes, ih]
    split <;> simp

theorem read_count_append (xs ys : List GpioEvent) :
    read_count (xs ++ ys) = read_count xs + read_count ys := by
  induction xs with
  | nil => simp [read_count]
  | cons e es ih =>
    cases e <;> simp [read_count, ih]
    omega

theorem mem_clock_writes (adsk v : Nat) (es : List GpioEvent) :
    GpioEvent.set_value adsk v ∈ es ↔ v ∈ clock_writes adsk es := by
  induction es with
  | nil => simp [clock_writes]
  | cons e es ih =>
    cases e with
    | set_value gpio value =>
      by_cases hg : gpio = adsk
      · subst hg
        simp [clock_writes, ih, eq_comm]
      · have hg' : ¬ adsk = gpio := fun h => hg h.symm
        simp [clock_writes, ih, hg, hg']
    | get_value gpio level => simp [clock_writes, ih]
    | direction_input gpio => simp [clock_writes, ih]
    | direction_output gpio value => simp [clock_writes, ih]
    | udelay usecs => simp [clock_writes, ih]

theorem clock_writes_poll_events (addo adsk k : Nat) :
    clock_writes adsk (poll_events addo k) = [] := by
  induction k with
  | zero => rfl
  | succ k ih => simp [poll_events, clock_writes, ih]

theorem read_count_poll_events (addo k : Nat) : read_count (poll_events addo k) = k := by
  induction k with
  | zero => rfl
  | succ k ih => simp [poll_events, read_count, ih]

theorem clock_writes_bit_events (addo adsk : Nat) (line : Nat → Bool) :
    ∀ (n start : Nat), clock_writes adsk (bit_events addo adsk line n start) = pulses n := by
  intro n
  induction n with
  | zero => intro _; rfl
  | succ n ih => intro start; simp [bit_events, clock_writes, pulses, ih]

theorem read_count_bit_events (addo adsk : Nat) (line : Nat → Bool) :
    ∀ (n start : Nat), read_count (bit_events addo adsk line n start) = n := by
  intro n
  induction n with
  | zero => intro _; rfl
  | succ n ih => intro start; simp [bit_events, read_count, ih]

theorem clock_writes_timeout_events (addo adsk bound : Nat) (last : Bool) :
    clock_writes adsk (timeout_events addo adsk bound last) = [0] := by
  simp [timeout_events, clock_writes, clock_writes_append, clock_writes_poll_events]

theorem read_count_timeout_events (addo adsk bound : Nat) (last : Bool) :
    read_count (timeout_events addo adsk bound last) = bound + 1 := by
  simp [timeout_events, read_count, read_count_append, read_count_poll_events]

theorem clock_writes_success_events (addo adsk : Nat) (line : Nat → Bool) (reads k : Nat) :
    clock_writes adsk (success_events addo adsk line reads k) = 0 :: pulses 25 := by
  simp [success_events, clock_writes, clock_writes_append, clock_writes_poll_events,
    clock_writes_bit_events, pulses]

theorem read_count_success_events (addo adsk : Nat) (line : Nat → Bool) (reads k : Nat) :
    read_count (success_events addo adsk line reads k) = (k + 1) + 24 := by
  simp [success_events, read_count, read_count_append, read_count_poll_events,
    read_count_bit_events]

/-! ## Machine integers -/

theorem two_pow_31_le (w : Nat) (hw : 32 ≤ w) : (2 : Nat) ^ 31 ≤ 2 ^ (w - 1) :=
  Nat.pow_le_pow_right (by decide) (by omega)

theorem two_pow_pred_double (w : Nat) (hw : 1 ≤ w) : (2 : Nat) ^ w = 2 * 2 ^ (w - 1) := by
  obtain ⟨v, rfl⟩ : ∃ v, w = v + 1 := ⟨w - 1, by omega⟩
  simp [pow_succ, Nat.mul_comm]

/-- The cast `(long)x` keeps a value below `2 ^ (w - 1)`. -/
theorem to_long_of_lt (w x : Nat) (hw : 1 ≤ w) (hx : x < 2 ^ (w - 1)) :
    to_long w x = (x : Int) := by
  have h2 := two_pow_pred_double w hw
  have hmod : x % 2 ^ w = x := Nat.mod_eq_of_lt (by omega)
  simp [to_long, hmod, hx]

/-- A value in the range of a signed `w`-bit variable is stored unchanged. -/
theorem wrap_signed_of_range (w : Nat) (z : Int) (hw : 1 ≤ w)
    (hlo : -(2 ^ (w - 1) : Int) ≤ z) (hhi : z < (2 ^ (w - 1) : Int)) :
    wrap_signed w z = z := by
  have h2 : (2 : Int) ^ w = 2 * 2 ^ (w - 1) := by
    exact_mod_cast two_pow_pred_double w hw
  unfold wrap_signed
  rw [Int.emod_eq_of_lt (by omega) (by omega)]
  omega

/-- Truncating division does not increase the magnitude. -/
theorem natAbs_tdiv_le (a b : Int) : (Int.tdiv a b).natAbs ≤ a.natAbs := by
  rw [Int.natAbs_tdiv]
  exact Nat.div_le_self _ _

/-- A truncated quotient of a dividend of magnitude below `2 ^ 31` fits an `int`. -/
theorem tdiv_fits_int (a b : Int) (h1 : -(2 ^ 31 : Int) < a) (h2 : a < (2 ^ 31 : Int)) :
    -(2 ^ 31 : Int) ≤ Int.tdiv a b ∧ Int.tdiv a b < (2 ^ 31 : Int) := by
  have hq := natAbs_tdiv_le a b
  constructor <;> omega

/-- The casts and the wrapping arithmetic of `convert_to_grams` change nothing
when the count and the offset fit a `long` and the quotient fits an `int`. -/
theorem convert_body_general (w : Nat) (scale : Int) (offset count : Nat) (hw : 32 ≤ w)
    (hcount : count < 2 ^ (w - 1)) (hoffset : offset < 2 ^ (w - 1))
    (hfit : -(2 ^ 31 : Int) ≤ Int.tdiv ((count : Int) - (offset : Int)) scale
      ∧ Int.tdiv ((count : Int) - (offset : Int)) scale < (2 ^ 31 : Int)) :
    wrap_signed 32 (wrap_signed w (Int.tdiv
        (wrap_signed w (to_long w count - to_long w offset)) scale))
      = Int.tdiv ((count : Int) - (offset : Int)) scale := by
  have hp := two_pow_31_le w hw
  have hpz : (2 : Int) ^ 31 ≤ 2 ^ (w - 1) := by exact_mod_cast hp
  have hcz : (count : Int) < 2 ^ (w - 1) := by exact_mod_cast hcount
  have hoz : (offset : Int) < 2 ^ (w - 1) := by exact_mod_cast hoffset
  rw [to_long_of_lt w count (by omega) hcount, to_long_of_lt w offset (by omega) hoffset]
  rw [wrap_signed_of_range w ((count : Int) - (offset : Int)) (by omega) (by omega) (by omega)]
  rw [wrap_signed_of_range w (Int.tdiv ((count : Int) - (offset : Int)) scale) (by omega)
    (by omega) (by omega)]
  exact wrap_signed_of_range 32 _ (by omega) (by simpa using hfit.1) (by simpa using hfit.2)

/-- The three roundings of `convert_to_grams` are exact when both counts are
below `2 ^ 31`. -/
theorem convert_body_exact (w : Nat) (scale : Int) (offset count : Nat) (hw : 32 ≤ w)
    (hcount : count < 2 ^ 31) (hoffset : offset < 2 ^ 31) :
    wrap_signed 32 (wrap_signed w (Int.tdiv
        (wrap_signed w (to_long w count - to_long w offset)) scale))
      = Int.tdiv ((count : Int) - (offset : Int)) scale := by
  have hp := two_pow_31_le w hw
  exact convert_body_general w scale offset count hw (by omega) (by omega)
    (tdiv_fits_int _ _ (by omega) (by omega))

/-- The magnitude of a truncated quotient is the floor of the quotient of the
magnitudes. -/
theorem tdiv_magnitude (a b : Int) (hb : b ≠ 0) :
    b.natAbs * (Int.tdiv a b).natAbs ≤ a.natAbs
    ∧ a.natAbs < b.natAbs * ((Int.tdiv a b).natAbs + 1) := by
  have hpos : 0 < b.natAbs := Int.natAbs_pos.mpr hb
  rw [Int.natAbs_tdiv]
  constructor
  · exact Nat.mul_div_le _ _
  · exact Nat.lt_mul_div_succ _ hpos

/-! ## The two outcomes of an acquisition -/

theorem bits_value_lt (b : Nat → Bool) (n : Nat) : bits_value b n < 2 ^ n := by
  induction n with
  | zero => simp [bits_value]
  | succ n ih =>
    have hs : bits_value b (n + 1) = bits_value b n + (if b n then 2 ^ n else 0) := by
      unfold bits_value
      rw [Finset.sum_range_succ]
    have hp : (2 : Nat) ^ (n + 1) = 2 * 2 ^ n := by rw [pow_succ, Nat.mul_comm]
    rw [hs, hp]
    split <;> omega

/-- A successful acquisition returns a value below `2 ^ 24`. -/
theorem xor_sign_bit_lt (b : Nat → Bool) : bits_value b 24 ^^^ 0x800000 < 2 ^ 24 :=
  Nat.xor_lt_two_pow (bits_value_lt b 24) (by decide)

/-- Either the next `bound` reads are all high, or the line is low for the first
time at some read `k < bound`. -/
theorem stuck_or_ready (env : Env) (addo : Nat) (s : State) (bound : Nat) :
    stuck_high env addo s bound ∨ ∃ k, k < bound ∧ ready_at env addo s k := by
  induction bound with
  | zero => exact Or.inl (fun j hj => absurd hj (Nat.not_lt_zero j))
  | succ n ih =>
    rcases ih with hst | ⟨k, hk, hr⟩
    · by_cases hn : env.level addo (s.reads + n) = true
      · left
        intro j hj
        rcases Nat.lt_succ_iff_lt_or_eq.mp hj with h | h
        · exact hst j h
        · rw [h]; exact hn
      · right
        exact ⟨n, Nat.lt_succ_self n, hst, by simpa using hn⟩
    · right
      exact ⟨k, Nat.lt_succ_of_lt hk, hr⟩

/-- The two outcomes exclude each other. -/
theorem not_stuck_of_ready (env : Env) (addo : Nat) (s : State) (bound k : Nat)
    (hk : k < bound) (hr : ready_at env addo s k) : ¬ stuck_high env addo s bound := by
  intro hst
  have := hst k hk
  rw [hr.2] at this
  exact Bool.noConfusion this

/-! ## Which pins an acquisition touches -/

theorem on_lines_poll_events (addo adsk k : Nat) :
    ∀ e, e ∈ poll_events addo k → on_lines addo adsk e = true := by
  induction k with
  | zero => intro e he; simp [poll_events] at he
  | succ k ih =>
    intro e he
    simp only [poll_events, List.mem_cons] at he
    rcases he with rfl | rfl | he
    · simp [on_lines]
    · simp [on_lines]
    · exact ih e he

theorem on_lines_bit_events (addo adsk : Nat) (line : Nat → Bool) :
    ∀ (n start : Nat) (e : GpioEvent), e ∈ bit_events addo adsk line n start →
      on_lines addo adsk e = true := by
  intro n
  induction n with
  | zero => intro start e he; simp [bit_events] at he
  | succ n ih =>
    intro start e he
    simp only [bit_events, List.mem_cons] at he
    rcases he with rfl | rfl | rfl | rfl | rfl | he
    · simp [on_lines]
    · simp [on_lines]
    · simp [on_lines]
    · simp [on_lines]
    · simp [on_lines]
    · exact ih (start + 1) e he

theorem on_lines_timeout_events (addo adsk bound : Nat) (last : Bool) :
    ∀ e, e ∈ timeout_events addo adsk bound last → on_lines addo adsk e = true := by
  intro e he
  simp only [timeout_events, List.mem_cons, List.mem_append, List.not_mem_nil, or_false] at he
  rcases he with rfl | he | rfl
  · simp [on_lines]
  · exact on_lines_poll_events addo adsk bound e he
  · simp [on_lines]

theorem on_lines_success_events (addo adsk : Nat) (line : Nat → Bool) (reads k : Nat) :
    ∀ e, e ∈ success_events addo adsk line reads k → on_lines addo adsk e = true := by
  intro e he
  simp only [success_events, List.mem_cons, List.mem_append, List.not_mem_nil, or_false] at he
  rcases he with rfl | he | rfl | he | rfl | rfl | rfl
  · simp [on_lines]
  · exact on_lines_poll_events addo adsk k e he
  · simp [on_lines]
  · exact on_lines_bit_events addo adsk line 24 (reads + k + 1) e he
  · simp [on_lines]
  · simp [on_lines]
  · simp [on_lines]

/-- What `on_lines` says about the pin of an event. -/
theorem on_lines_pin (addo adsk : Nat) (e : GpioEvent) (h : on_lines addo adsk e = true) :
    (∀ p l, e = GpioEvent.get_value p l → p = addo)
    ∧ (∀ p v, e = GpioEvent.set_value p v → p = adsk)
    ∧ (∀ p, e.pin? = some p → p = addo ∨ p = adsk) := by
  cases e with
  | set_value gpio value =>
    have hg : gpio = adsk := by simpa [on_lines] using h
    refine ⟨?_, ?_, ?_⟩
    · intro p l he
      cases he
    · intro p v he
      cases he
      exact hg
    · intro p hp
      simp only [GpioEvent.pin?, Option.some.injEq] at hp
      right
      rw [← hp]
      exact hg
  | get_value gpio level =>
    have hg : gpio = addo := by simpa [on_lines] using h
    refine ⟨?_, ?_, ?_⟩
    · intro p l he
      cases he
      exact hg
    · intro p v he
      cases he
    · intro p hp
      simp only [GpioEvent.pin?, Option.some.injEq] at hp
      left
      rw [← hp]
      exact hg
  | direction_input gpio => simp [on_lines] at h
  | direction_output gpio value => simp [on_lines] at h
  | udelay usecs =>
    refine ⟨?_, ?_, ?_⟩
    · intro p l he
      cases he
    · intro p v he
      cases he
    · intro p hp
      simp [GpioEvent.pin?] at hp

theorem getLast?_pulses_cons (n : Nat) : (0 :: pulses n).getLast? = some 0 := by
  induction n with
  | zero => rfl
  | succ n ih =>
    simp only [pulses]
    rw [List.getLast?_cons_cons, List.getLast?_cons_cons]
    exact ih

/-! ## The search for the first low level -/

theorem first_low_high (line : Nat → Bool) :
    ∀ (bound start : Nat), (∀ j, j < bound → line (start + j) = true) →
      first_low line bound start = none := by
  intro bound
  induction bound with
  | zero => intro start _; rfl
  | succ n ih =>
    intro start h
    have h0 : line start = true := by simpa using h 0 (Nat.succ_pos n)
    have hrest : ∀ j, j < n → line (start + 1 + j) = true := by
      intro j hj
      have := h (j + 1) (Nat.succ_lt_succ hj)
      simpa [Nat.add_assoc, Nat.add_comm 1 j] using this
    simp [first_low, h0, ih (start + 1) hrest]

theorem first_low_low (line : Nat → Bool) :
    ∀ (k bound start : Nat), k < bound → (∀ j, j < k → line (start + j) = true) →
      line (start + k) = false → first_low line bound start = some k := by
  intro k
  induction k with
  | zero =>
    intro bound start hk _ hlow
    obtain ⟨n, rfl⟩ : ∃ n, bound = n + 1 := ⟨bound - 1, by omega⟩
    have h0 : line start = false := by simpa using hlow
    simp [first_low, h0]
  | succ k ih =>
    intro bound start hk hhigh hlow
    obtain ⟨n, rfl⟩ : ∃ n, bound = n + 1 := ⟨bound - 1, by omega⟩
    have h0 : line start = true := by simpa using hhigh 0 (Nat.succ_pos k)
    have hrest : ∀ j, j < k → line (start + 1 + j) = true := by
      intro j hj
      have := hhigh (j + 1) (Nat.succ_lt_succ hj)
      simpa [Nat.add_assoc, Nat.add_comm 1 j] using this
    have hlow' : line (start + 1 + k) = false := by
      simpa [Nat.add_assoc, Nat.add_comm 1 k] using hlow
    simp [first_low, h0, ih n (start + 1) (by omega) hrest hlow']

/-! ## Renaming the pins of a trace -/

theorem map_subst_poll_events (addo k : Nat) :
    (poll_events addo k).map GpioEvent.subst = poll_events (subst_pin addo) k := by
  induction k with
  | zero => rfl
  | succ k ih => simp [poll_events, GpioEvent.subst, ih]

theorem map_subst_bit_events (addo adsk : Nat) (line : Nat → Bool) :
    ∀ (n start : Nat), (bit_events addo adsk line n start).map GpioEvent.subst
      = bit_events (subst_pin addo) (subst_pin adsk) line n start := by
  intro n
  induction n with
  | zero => intro _; rfl
  | succ n ih => intro start; simp [bit_events, GpioEvent.subst, ih]

theorem map_subst_timeout_events (addo adsk bound : Nat) (last : Bool) :
    (timeout_events addo adsk bound last).map GpioEvent.subst
      = timeout_events (subst_pin addo) (subst_pin adsk) bound last := by
  simp [timeout_events, GpioEvent.subst, map_subst_poll_events]

theorem map_subst_success_events (addo adsk : Nat) (line : Nat → Bool) (reads k : Nat) :
    (success_events addo adsk line reads k).map GpioEvent.subst
      = success_events (subst_pin addo) (subst_pin adsk) line reads k := by
  simp [success_events, GpioEvent.subst, map_subst_poll_events, map_subst_bit_events]

/-! ## Offset binary and two's complement -/

/-- Setting a bit that is clear adds its weight. -/
theorem xor_two_pow_of_lt (x n : Nat) (h : x < 2 ^ n) : x ^^^ 2 ^ n = 2 ^ n + x := by
  apply Nat.eq_of_testBit_eq
  intro i
  rw [Nat.testBit_xor, Nat.testBit_two_pow]
  rcases Nat.lt_trichotomy i n with hi | hi | hi
  · have hne : ¬ n = i := by omega
    rw [Nat.testBit_two_pow_add_gt hi x]
    simp [hne]
  · subst hi
    rw [Nat.testBit_two_pow_add_eq, Nat.testBit_lt_two_pow h]
    simp
  · have hne : ¬ n = i := by omega
    have hx : x < 2 ^ i := lt_of_lt_of_le h (Nat.pow_le_pow_right (by decide) (by omega))
    have hsum : 2 ^ n + x < 2 ^ i := by
      have h1 : 2 ^ (n + 1) ≤ 2 ^ i := Nat.pow_le_pow_right (by decide) (by omega)
      have h2 : (2 : Nat) ^ (n + 1) = 2 * 2 ^ n := by rw [pow_succ, Nat.mul_comm]
      omega
    rw [Nat.testBit_lt_two_pow hx, Nat.testBit_lt_two_pow hsum]
    simp [hne]

/-- Clearing a bit that is set subtracts its weight. -/
theorem xor_two_pow_of_ge (y n : Nat) (h : y < 2 ^ n) : (2 ^ n + y) ^^^ 2 ^ n = y := by
  rw [← xor_two_pow_of_lt y n h, Nat.xor_assoc, Nat.xor_self, Nat.xor_zero]

/-- Flipping bit 23 of a 24-bit pattern adds `2 ^ 23` to its two's-complement
value. -/
theorem xor_sign_bit_eq (u : Nat) (hu : u < 2 ^ 24) :
    ((u ^^^ 0x800000 : Nat) : Int) = signed24 u + 2 ^ 23 := by
  have h23 : (0x800000 : Nat) = 2 ^ 23 := by decide
  have hmod : u % 2 ^ 24 = u := Nat.mod_eq_of_lt hu
  unfold signed24
  rw [hmod, h23]
  by_cases hlt : u < 2 ^ 23
  · rw [if_pos hlt, xor_two_pow_of_lt u 23 hlt]
    push_cast
    ring
  · rw [if_neg hlt]
    obtain ⟨y, rfl⟩ : ∃ y, u = 2 ^ 23 + y := ⟨u - 2 ^ 23, by omega⟩
    have hy : y < 2 ^ 23 := by omega
    rw [xor_two_pow_of_ge y 23 hy]
    push_cast
    ring

/-- The two's-complement value of a 24-bit pattern is a 24-bit signed number. -/
theorem signed24_range (u : Nat) :
    -(2 ^ 23 : Int) ≤ signed24 u ∧ signed24 u ≤ 2 ^ 23 - 1 := by
  have hlt : u % 2 ^ 24 < 2 ^ 24 := Nat.mod_lt _ (by decide)
  unfold signed24
  split <;> constructor <;> omega

/-- The bits of a number, read back, give the number modulo `2 ^ n`. -/
theorem bits_value_testBit (u n : Nat) :
    bits_value (fun i => Nat.testBit u i) n = u % 2 ^ n := by
  induction n with
  | zero => simp [bits_value, Nat.mod_one]
  | succ n ih =>
    have hs : bits_value (fun i => Nat.testBit u i) (n + 1)
        = bits_value (fun i => Nat.testBit u i) n + (if Nat.testBit u n then 2 ^ n else 0) := by
      unfold bits_value
      rw [Finset.sum_range_succ]
    rw [hs, ih, Nat.mod_pow_succ, Nat.testBit_to_div_mod]
    rcases Nat.mod_two_eq_zero_or_one (u / 2 ^ n) with h | h <;> simp [h]

/-! ## The narrowing cast of the conversion -/

/-- The `long` quotient of two counts below `2 ^ 31` is the exact truncated
quotient and fits an `int`. -/
theorem weight_long_exact (w : Nat) (scale : Int) (offset count : Nat) (hw : 32 ≤ w)
    (hcount : count < 2 ^ 31) (hoffset : offset < 2 ^ 31) :
    weight_long w scale offset count = Int.tdiv ((count : Int) - (offset : Int)) scale
    ∧ -(2 ^ 31 : Int) ≤ weight_long w scale offset count
    ∧ weight_long w scale offset count < (2 ^ 31 : Int)
    ∧ wrap_signed 32 (weight_long w scale offset count) = weight_long w scale offset count := by
  have hp := two_pow_31_le w hw
  have hpz : (2 : Int) ^ 31 ≤ 2 ^ (w - 1) := by exact_mod_cast hp
  have hfit := tdiv_fits_int ((count : Int) - (offset : Int)) scale (by omega) (by omega)
  have hq : weight_long w scale offset count
      = Int.tdiv ((count : Int) - (offset : Int)) scale := by
    unfold weight_long
    rw [to_long_of_lt w count (by omega) (by omega), to_long_of_lt w offset (by omega) (by omega)]
    rw [wrap_signed_of_range w ((count : Int) - (offset : Int)) (by omega) (by omega) (by omega)]
    exact wrap_signed_of_range w _ (by omega) (by omega) (by omega)
  refine ⟨hq, by rw [hq]; exact hfit.1, by rw [hq]; exact hfit.2, ?_⟩
  rw [hq]
  exact wrap_signed_of_range 32 _ (by omega) (by simpa using hfit.1) (by simpa using hfit.2)

/-- The magnitude of the quotient of a difference of two 24-bit counts. -/
theorem tdiv_counts_bound (offset count d : Nat)
    (hcount : count < 2 ^ 24) (hoffset : offset < 2 ^ 24) :
    (Int.tdiv ((count : Int) - (offset : Int)) (d : Int)).natAbs ≤ (2 ^ 24 - 1) / d := by
  rw [Int.natAbs_tdiv]
  have hn : ((count : Int) - (offset : Int)).natAbs ≤ 2 ^ 24 - 1 := by omega
  have hdn : ((d : Int)).natAbs = d := Int.natAbs_ofNat d
  rw [hdn]
  exact Nat.div_le_div_right hn

namespace Driver1

theorem wait_loop_high_d1 (env : Env) :
    ∀ (d fuel wait_count : Nat) (s : State), d < fuel → wait_count + d = MAX_WAIT_COUNT →
      (∀ j, j < d → env.level ADDO_PIN (s.reads + j) = true) →
      wait_loop env fuel wait_count s =
        (MAX_WAIT_COUNT,
         { s with reads := s.reads + d + 1,
                  trace := s.trace ++ (poll_events ADDO_PIN d ++
                    [GpioEvent.get_value ADDO_PIN (env.level ADDO_PIN (s.reads + d))]) }) := by
  intro d
  induction d with
  | zero =>
    intro fuel wc s hf hwc _
    obtain ⟨f, rfl⟩ : ∃ f, fuel = f + 1 := ⟨fuel - 1, by omega⟩
    have hwc' : wc = MAX_WAIT_COUNT := by omega
    subst hwc'
    simp [wait_loop, gpio_get_value, poll_events]
  | succ d ih =>
    intro fuel wc s hf hwc hhigh
    obtain ⟨f, rfl⟩ : ∃ f, fuel = f + 1 := ⟨fuel - 1, by omega⟩
    have h0 : env.level ADDO_PIN s.reads = true := by simpa using hhigh 0 (by omega)
    have hlt : wc < MAX_WAIT_COUNT := by omega
    have hrec := ih f (wc + 1) (udelay 1 (gpio_get_value env ADDO_PIN s).2) (by omega) (by omega)
      (by
        intro j hj
        have := hhigh (j + 1) (by omega)
        simpa [udelay, gpio_get_value, Nat.add_assoc, Nat.add_comm 1 j] using this)
    simp only [wait_loop, h0, hlt, decide_True, Bool.and_self, if_true, gpio_get_value] at hrec ⊢
    rw [hrec]
    simp [udelay, poll_events, h0, Nat.add_assoc, Nat.add_comm 1 d]

theorem wait_loop_low_d1 (env : Env) :
    ∀ (k fuel wait_count : Nat) (s : State), k < fuel → wait_count + k < MAX_WAIT_COUNT →
      (∀ j, j < k → env.level ADDO_PIN (s.reads + j) = true) →
      env.level ADDO_PIN (s.reads + k) = false →
      wait_loop env fuel wait_count s =
        (wait_count + k,
         { s with reads := s.reads + k + 1,
                  trace := s.trace ++ (poll_events ADDO_PIN k ++
                    [GpioEvent.get_value ADDO_PIN false]) }) := by
  intro k
  induction k with
  | zero =>
    intro fuel wc s hf _ _ hlow
    obtain ⟨f, rfl⟩ : ∃ f, fuel = f + 1 := ⟨fuel - 1, by omega⟩
    have h0 : env.level ADDO_PIN s.reads = false := by simpa using hlow
    simp [wait_loop, gpio_get_value, poll_events, h0]
  | succ k ih =>
    intro fuel wc s hf hwc hhigh hlow
    obtain ⟨f, rfl⟩ : ∃ f, fuel = f + 1 := ⟨fuel - 1, by omega⟩
    have h0 : env.level ADDO_PIN s.reads = true := by simpa using hhigh 0 (by omega)
    have hlt : wc < MAX_WAIT_COUNT := by omega
    have hrec := ih f (wc + 1) (udelay 1 (gpio_get_value env ADDO_PIN s).2) (by omega) (by omega)
      (by
        intro j hj
        have := hhigh (j + 1) (by omega)
        simpa [udelay, gpio_get_value, Nat.add_assoc, Nat.add_comm 1 j] using this)
      (by simpa [udelay, gpio_get_value, Nat.add_assoc, Nat.add_comm 1 k] using hlow)
    simp only [wait_loop, h0, hlt, decide_True, Bool.and_self, if_true, gpio_get_value] at hrec ⊢
    rw [hrec]
    simp [udelay, poll_events, h0, Nat.add_assoc, Nat.add_comm 1 k]

theorem read_bits_eq_d1 (env : Env) :
    ∀ (n Count : Nat) (s : State),
      read_bits env n Count s =
        (Count * 2 ^ n + bits_value (fun i => env.level ADDO_PIN (s.reads + (n - 1 - i))) n,
         { s with reads := s.reads + n,
                  trace := s.trace ++
                    bit_events ADDO_PIN ADSK_PIN (env.level ADDO_PIN) n s.reads }) := by
  intro n
  induction n with
  | zero =>
    intro Count s
    simp [read_bits, bits_value, bit_events]
  | succ n ih =>
    intro Count s
    simp only [read_bits]
    rw [ih]
    have hsum : bits_value (fun i => env.level ADDO_PIN (s.reads + (n + 1 - 1 - i))) (n + 1)
        = bits_value (fun i => env.level ADDO_PIN (s.reads + 1 + (n - 1 - i))) n
          + (if env.level ADDO_PIN s.reads then 2 ^ n else 0) := by
      unfold bits_value
      rw [Finset.sum_range_succ]
      congr 1
      · apply Finset.sum_congr rfl
        intro i hi
        have hi' : i < n := Finset.mem_range.mp hi
        have e : s.reads + (n + 1 - 1 - i) = s.reads + 1 + (n - 1 - i) := by omega
        simp only [e]
      · simp
    simp only [gpio_get_value, gpio_set_value, udelay, Prod.mk.injEq]
    constructor
    · rw [hsum, Nat.shiftLeft_eq]
      by_cases hb : env.level ADDO_PIN s.reads = true
      · simp [hb]; ring
      · simp [hb]; ring
    · simp [bit_events, Nat.add_assoc, Nat.add_comm 1 n]

/-- The whole outcome of `ReadCount` when the first `MAX_WAIT_COUNT` polls read
high. -/
theorem ReadCount_timeout_d1 (env : Env) (s : State)
    (hhigh : ∀ j, j < MAX_WAIT_COUNT → env.level ADDO_PIN (s.reads + j) = true) :
    ReadCount env s =
      (0xFFFFFFFF,
       { s with reads := s.reads + MAX_WAIT_COUNT + 1,
                trace := s.trace ++ timeout_events ADDO_PIN ADSK_PIN MAX_WAIT_COUNT
                  (env.level ADDO_PIN (s.reads + MAX_WAIT_COUNT)) }) := by
  have hw := wait_loop_high_d1 env MAX_WAIT_COUNT (MAX_WAIT_COUNT + 1) 0
    (gpio_set_value ADSK_PIN 0 s) (by omega) (by omega) (by simpa [gpio_set_value] using hhigh)
  simp only [ReadCount, hw]
  simp [gpio_set_value, timeout_events]

/-- The whole outcome of `ReadCount` when the data line reads low for the first
time at poll `k < MAX_WAIT_COUNT`. -/
theorem ReadCount_ready_d1 (env : Env) (s : State) (k : Nat) (hk : k < MAX_WAIT_COUNT)
    (hhigh : ∀ j, j < k → env.level ADDO_PIN (s.reads + j) = true)
    (hlow : env.level ADDO_PIN (s.reads + k) = false) :
    ReadCount env s =
      (bits_value (fun i => env.level ADDO_PIN (s.reads + k + 1 + (23 - i))) 24 ^^^ 0x800000,
       { s with reads := s.reads + k + 25,
                trace := s.trace ++
                  success_events ADDO_PIN ADSK_PIN (env.level ADDO_PIN) s.reads k }) := by
  have hw := wait_loop_low_d1 env k (MAX_WAIT_COUNT + 1) 0
    (gpio_set_value ADSK_PIN 0 s) (by omega) (by omega) (by simpa [gpio_set_value] using hhigh)
    (by simpa [gpio_set_value] using hlow)
  have hnot : ¬ (0 + k ≥ MAX_WAIT_COUNT) := by omega
  simp only [ReadCount, hw, hnot, if_false, read_bits_eq_d1]
  simp [gpio_set_value, udelay, success_events, Nat.add_assoc]

/-- The value `ReadCount` returns for 24 sampled levels `b 23, ..., b 0`. -/
theorem ReadCount_value_d1 (env : Env) (s : State) (k : Nat) (b : Nat → Bool)
    (hk : k < MAX_WAIT_COUNT) (hready : ready_at env ADDO_PIN s k)
    (hb : ∀ i, i < 24 → env.level ADDO_PIN (s.reads + k + 1 + i) = b (23 - i)) :
    (ReadCount env s).1 = (∑ i in Finset.range 24, (b i).toNat * 2 ^ i) ^^^ 0x800000
    ∧ ((∀ i, i < 24 → b i = false) → (ReadCount env s).1 = 0x800000)
    ∧ ((∀ i, i < 24 → b i = true) → (ReadCount env s).1 = 0x7FFFFF) := by
  have hv : (ReadCount env s).1 =
      (∑ i in Finset.range 24, (b i).toNat * 2 ^ i) ^^^ 0x800000 := by
    rw [ReadCount_ready_d1 env s k hk hready.1 hready.2]
    simp only []
    rw [bits_value_samples (env.level ADDO_PIN) b (s.reads + k + 1) hb]
  refine ⟨hv, ?_, ?_⟩
  · intro h0
    rw [hv, bits_value_all_low b 24 h0]
    decide
  · intro h1
    rw [hv, bits_value_all_high b h1]
    decide

/-- What a timed-out `ReadCount` returns and does on the pins. -/
theorem ReadCount_timeout_facts_d1 (env : Env) (s : State)
    (hhigh : stuck_high env ADDO_PIN s MAX_WAIT_COUNT) :
    (ReadCount env s).1 = 0xFFFFFFFF
    ∧ events_since s (ReadCount env s).2 =
        timeout_events ADDO_PIN ADSK_PIN MAX_WAIT_COUNT
          (env.level ADDO_PIN (s.reads + MAX_WAIT_COUNT))
    ∧ clock_writes ADSK_PIN (events_since s (ReadCount env s).2) = [0]
    ∧ (∀ v, GpioEvent.set_value ADSK_PIN v ∈ events_since s (ReadCount env s).2 → v = 0)
    ∧ read_count (events_since s (ReadCount env s).2) = MAX_WAIT_COUNT + 1 := by
  have hev : events_since s (ReadCount env s).2 =
      timeout_events ADDO_PIN ADSK_PIN MAX_WAIT_COUNT
        (env.level ADDO_PIN (s.reads + MAX_WAIT_COUNT)) := by
    apply events_since_append
    rw [ReadCount_timeout_d1 env s hhigh]
  refine ⟨by rw [ReadCount_timeout_d1 env s hhigh], hev, ?_, ?_, ?_⟩
  · rw [hev, clock_writes_timeout_events]
  · intro v hv
    rw [hev, mem_clock_writes, clock_writes_timeout_events] at hv
    simpa using hv
  · rw [hev, read_count_timeout_events]

/-- The function `convert` is truncating division whenever the count and the
offset fit a `long` and the quotient fits an `int`. -/
theorem convert_general_d1 (w : Nat) (scale : Int) (offset count : Nat) (hw : 32 ≤ w)
    (hcount : count < 2 ^ (w - 1)) (hoffset : offset < 2 ^ (w - 1))
    (hfit : -(2 ^ 31 : Int) ≤ Int.tdiv ((count : Int) - (offset : Int)) scale
      ∧ Int.tdiv ((count : Int) - (offset : Int)) scale < (2 ^ 31 : Int)) :
    convert w scale offset count = Int.tdiv ((count : Int) - (offset : Int)) scale := by
  unfold convert
  exact convert_body_general w scale offset count hw hcount hoffset hfit

/-- The function `convert` is truncating division on counts below `2 ^ 31`. -/
theorem convert_exact_d1 (w : Nat) (scale : Int) (offset count : Nat) (hw : 32 ≤ w)
    (hcount : count < 2 ^ 31) (hoffset : offset < 2 ^ 31) :
    convert w scale offset count = Int.tdiv ((count : Int) - (offset : Int)) scale := by
  unfold convert
  exact convert_body_exact w scale offset count hw hcount hoffset

/-- A successful `ReadCount` returns less than `2 ^ 24`, so not `0xFFFFFFFF`. -/
theorem ReadCount_ready_lt_d1 (env : Env) (s : State) (k : Nat) (hk : k < MAX_WAIT_COUNT)
    (hready : ready_at env ADDO_PIN s k) : (ReadCount env s).1 < 2 ^ 24 := by
  rw [ReadCount_ready_d1 env s k hk hready.1 hready.2]
  exact xor_sign_bit_lt _

/-- `ReadCount` changes nothing but the trace and the read counter. -/
theorem ReadCount_frame_d1 (env : Env) (s : State) :
    (ReadCount env s).2.auto_tare_offset = s.auto_tare_offset
    ∧ (ReadCount env s).2.weight_grams = s.weight_grams
    ∧ (ReadCount env s).2.weight_timer = s.weight_timer
    ∧ (ReadCount env s).2.jiffies = s.jiffies
    ∧ (ReadCount env s).2.owned = s.owned
    ∧ (ReadCount env s).2.procfs = s.procfs := by
  rcases stuck_or_ready env ADDO_PIN s MAX_WAIT_COUNT with hst | ⟨k, hk, hr⟩
  · rw [ReadCount_timeout_d1 env s hst]
    simp
  · rw [ReadCount_ready_d1 env s k hk hr.1 hr.2]
    simp

/-- The trace after `ReadCount` depends on the state only through the trace and
the read counter before it. -/
theorem ReadCount_trace_d1 (env : Env) (s1 s2 : State) (h : s1.reads = s2.reads)
    (ht : s1.trace = s2.trace) :
    (ReadCount env s1).2.trace = (ReadCount env s2).2.trace := by
  rcases stuck_or_ready env ADDO_PIN s1 MAX_WAIT_COUNT with hst | ⟨k, hk, hr⟩
  · have hst2 : stuck_high env ADDO_PIN s2 MAX_WAIT_COUNT := by
      intro j hj
      rw [← h]
      exact hst j hj
    rw [ReadCount_timeout_d1 env s1 hst, ReadCount_timeout_d1 env s2 hst2]
    simp [h, ht]
  · have hr2 : ready_at env ADDO_PIN s2 k := by
      unfold ready_at
      rw [← h]
      exact hr
    rw [ReadCount_ready_d1 env s1 k hk hr.1 hr.2, ReadCount_ready_d1 env s2 k hk hr2.1 hr2.2]
    simp [h, ht]

/-- `ReadCount` only appends to the trace. -/
theorem ReadCount_trace_append_d1 (env : Env) (s : State) :
    (ReadCount env s).2.trace = s.trace ++ events_since s (ReadCount env s).2 := by
  rcases stuck_or_ready env ADDO_PIN s MAX_WAIT_COUNT with hst | ⟨k, hk, hr⟩
  · rw [ReadCount_timeout_d1 env s hst]
    simp [events_since]
  · rw [ReadCount_ready_d1 env s k hk hr.1 hr.2]
    simp [events_since]

/-- A tick whose acquisition succeeds. -/
theorem callback_success_d1 (env : Env) (s : State) (k : Nat) (hk : k < MAX_WAIT_COUNT)
    (hready : ready_at env ADDO_PIN s k) :
    weight_timer_callback env s =
      { (ReadCount env s).2 with
          weight_grams := convert_to_grams env s (ReadCount env s).1,
          jiffies := (s.jiffies + env.elapsed (ReadCount env s).2.trace.length)
            % 2 ^ env.BITS_PER_LONG,
          weight_timer := some (((s.jiffies + env.elapsed (ReadCount env s).2.trace.length)
            % 2 ^ env.BITS_PER_LONG + env.HZ) % 2 ^ env.BITS_PER_LONG) } := by
  have hlt := ReadCount_ready_lt_d1 env s k hk hready
  have hne : ¬ (ReadCount env s).1 = 0xFFFFFFFF := by
    intro h
    rw [h] at hlt
    exact absurd hlt (by decide)
  have hf := ReadCount_frame_d1 env s
  simp only [weight_timer_callback, hne, if_false, mod_timer, read_jiffies, convert_to_grams,
    hf.1, hf.2.2.2.1]

/-- A tick whose acquisition times out. -/
theorem callback_timeout_d1 (env : Env) (s : State)
    (hhigh : stuck_high env ADDO_PIN s MAX_WAIT_COUNT) :
    weight_timer_callback env s = (ReadCount env s).2 := by
  have h := (ReadCount_timeout_d1 env s hhigh)
  simp only [weight_timer_callback, h, if_true]

/-- The value `ReadCount` returns depends on the state only through the read
counter. -/
theorem ReadCount_value_reads_d1 (env : Env) (s1 s2 : State) (h : s1.reads = s2.reads) :
    (ReadCount env s1).1 = (ReadCount env s2).1 := by
  rcases stuck_or_ready env ADDO_PIN s1 MAX_WAIT_COUNT with hst | ⟨k, hk, hr⟩
  · have hst2 : stuck_high env ADDO_PIN s2 MAX_WAIT_COUNT := by
      intro j hj
      rw [← h]
      exact hst j hj
    rw [ReadCount_timeout_d1 env s1 hst, ReadCount_timeout_d1 env s2 hst2]
  · have hr2 : ready_at env ADDO_PIN s2 k := by
      unfold ready_at
      rw [← h]
      exact hr
    rw [ReadCount_ready_d1 env s1 k hk hr.1 hr.2, ReadCount_ready_d1 env s2 k hk hr2.1 hr2.2, h]

/-- What a successful tick leaves behind. -/
theorem tick_success_d1 (env : Env) (s : State) (k : Nat) (hk : k < MAX_WAIT_COUNT)
    (hready : ready_at env ADDO_PIN s k) :
    (weight_timer_callback env s).weight_grams = convert_to_grams env s (ReadCount env s).1
    ∧ (weight_timer_callback env s).jiffies
        = (s.jiffies + env.elapsed (ReadCount env s).2.trace.length) % 2 ^ env.BITS_PER_LONG
    ∧ (weight_timer_callback env s).weight_timer
        = some (((s.jiffies + env.elapsed (ReadCount env s).2.trace.length)
            % 2 ^ env.BITS_PER_LONG + env.HZ) % 2 ^ env.BITS_PER_LONG)
    ∧ (∀ t, s.weight_timer = some t →
        (timer_fire env s).weight_grams = convert_to_grams env s (ReadCount env s).1
        ∧ (timer_fire env s).jiffies
            = (t + env.elapsed (ReadCount env s).2.trace.length) % 2 ^ env.BITS_PER_LONG
        ∧ (timer_fire env s).weight_timer
            = some (((t + env.elapsed (ReadCount env s).2.trace.length)
                % 2 ^ env.BITS_PER_LONG + env.HZ) % 2 ^ env.BITS_PER_LONG)) := by
  refine ⟨?_, ?_, ?_, ?_⟩
  · rw [callback_success_d1 env s k hk hready]
  · rw [callback_success_d1 env s k hk hready]
  · rw [callback_success_d1 env s k hk hready]
  · intro t ht
    have hr' : ready_at env ADDO_PIN
        { s with weight_timer := none, jiffies := t } k := hready
    have hv := ReadCount_value_reads_d1 env
      { s with weight_timer := none, jiffies := t } s rfl
    have htr := ReadCount_trace_d1 env
      { s with weight_timer := none, jiffies := t } s rfl rfl
    simp only [timer_fire, ht]
    rw [callback_success_d1 env _ k hk hr', hv, htr]
    exact ⟨rfl, rfl, rfl⟩

/-- What a timed-out tick leaves behind. -/
theorem tick_timeout_d1 (env : Env) (s : State)
    (hhigh : stuck_high env ADDO_PIN s MAX_WAIT_COUNT) :
    (weight_timer_callback env s).weight_grams = s.weight_grams
    ∧ (weight_timer_callback env s).weight_timer = s.weight_timer
    ∧ (∀ t, s.weight_timer = some t →
        (timer_fire env s).weight_grams = s.weight_grams
        ∧ (timer_fire env s).weight_timer = none) := by
  have hf := ReadCount_frame_d1 env s
  refine ⟨?_, ?_, ?_⟩
  · rw [callback_timeout_d1 env s hhigh]; exact hf.2.1
  · rw [callback_timeout_d1 env s hhigh]; exact hf.2.2.1
  · intro t ht
    have hh' : stuck_high env ADDO_PIN
        { s with weight_timer := none, jiffies := t } MAX_WAIT_COUNT := hhigh
    have hf' := ReadCount_frame_d1 env { s with weight_timer := none, jiffies := t }
    simp only [timer_fire, ht]
    rw [callback_timeout_d1 env _ hh']
    exact ⟨hf'.2.1, hf'.2.2.1⟩

/-- The outcome of `hx711_init` when both `gpio_request` calls succeed. -/
theorem init_outcome_d1 (env : Env) (s : State)
    (h1 : ¬ env.gpio_request_rc ADDO_PIN < 0) (h2 : ¬ env.gpio_request_rc ADSK_PIN < 0) :
    hx711_init env s =
      (0, proc_create "weight1" (mod_timer
        (((s.jiffies + env.elapsed (ReadCount env
            { s with owned := ADSK_PIN :: ADDO_PIN :: s.owned,
                     trace := s.trace ++ [GpioEvent.direction_input ADDO_PIN,
                       GpioEvent.direction_output ADSK_PIN 0] }).2.trace.length)
          % 2 ^ env.BITS_PER_LONG + env.HZ) % 2 ^ env.BITS_PER_LONG)
        { (ReadCount env
            { s with owned := ADSK_PIN :: ADDO_PIN :: s.owned,
                     trace := s.trace ++ [GpioEvent.direction_input ADDO_PIN,
                       GpioEvent.direction_output ADSK_PIN 0] }).2 with
          auto_tare_offset := (ReadCount env s).1,
          jiffies := (s.jiffies + env.elapsed (ReadCount env
            { s with owned := ADSK_PIN :: ADDO_PIN :: s.owned,
                     trace := s.trace ++ [GpioEvent.direction_input ADDO_PIN,
                       GpioEvent.direction_output ADSK_PIN 0] }).2.trace.length)
            % 2 ^ env.BITS_PER_LONG })) := by
  have hv := ReadCount_value_reads_d1 env
    { s with owned := ADSK_PIN :: ADDO_PIN :: s.owned,
             trace := s.trace ++ [GpioEvent.direction_input ADDO_PIN,
               GpioEvent.direction_output ADSK_PIN 0] } s rfl
  have hf := ReadCount_frame_d1 env
    { s with owned := ADSK_PIN :: ADDO_PIN :: s.owned,
             trace := s.trace ++ [GpioEvent.direction_input ADDO_PIN,
               GpioEvent.direction_output ADSK_PIN 0] }
  simp only [hx711_init, gpio_request, h1, h2, if_false, gpio_direction_input,
    gpio_direction_output, read_jiffies, List.append_assoc, List.singleton_append, hv,
    hf.2.2.2.1]

/-- What `hx711_init` leaves behind: the value `ReadCount` returned is the tare
offset whatever it is, the timer is armed one interval after the counter value
read, and the /proc entry exists. -/
theorem init_facts_d1 (env : Env) (s : State)
    (h1 : ¬ env.gpio_request_rc ADDO_PIN < 0) (h2 : ¬ env.gpio_request_rc ADSK_PIN < 0) :
    (hx711_init env s).1 = 0
    ∧ (hx711_init env s).2.auto_tare_offset = (ReadCount env s).1
    ∧ (hx711_init env s).2.weight_grams = s.weight_grams
    ∧ (hx711_init env s).2.weight_timer
        = some (((s.jiffies + env.elapsed (hx711_init env s).2.trace.length)
            % 2 ^ env.BITS_PER_LONG + env.HZ) % 2 ^ env.BITS_PER_LONG)
    ∧ (hx711_init env s).2.procfs = "weight1" :: s.procfs := by
  have hf := ReadCount_frame_d1 env
    { s with owned := ADSK_PIN :: ADDO_PIN :: s.owned,
             trace := s.trace ++ [GpioEvent.direction_input ADDO_PIN,
               GpioEvent.direction_output ADSK_PIN 0] }
  rw [init_outcome_d1 env s h1 h2]
  refine ⟨rfl, rfl, ?_, rfl, ?_⟩
  · exact hf.2.1
  · simp only [proc_create, mod_timer]
    rw [hf.2.2.2.2.2]

/-- The read counter after `ReadCount` depends on the state only through the
read counter before it. -/
theorem ReadCount_reads_d1 (env : Env) (s1 s2 : State) (h : s1.reads = s2.reads) :
    (ReadCount env s1).2.reads = (ReadCount env s2).2.reads := by
  rcases stuck_or_ready env ADDO_PIN s1 MAX_WAIT_COUNT with hst | ⟨k, hk, hr⟩
  · have hst2 : stuck_high env ADDO_PIN s2 MAX_WAIT_COUNT := by
      intro j hj
      rw [← h]
      exact hst j hj
    rw [ReadCount_timeout_d1 env s1 hst, ReadCount_timeout_d1 env s2 hst2]
    simp [h]
  · have hr2 : ready_at env ADDO_PIN s2 k := by
      unfold ready_at
      rw [← h]
      exact hr
    rw [ReadCount_ready_d1 env s1 k hk hr.1 hr.2, ReadCount_ready_d1 env s2 k hk hr2.1 hr2.2]
    simp [h]

/-- The read counter after `hx711_init` is the one after its tare acquisition. -/
theorem init_reads_d1 (env : Env) (s : State)
    (h1 : ¬ env.gpio_request_rc ADDO_PIN < 0) (h2 : ¬ env.gpio_request_rc ADSK_PIN < 0) :
    (hx711_init env s).2.reads = (ReadCount env s).2.reads := by
  rw [init_outcome_d1 env s h1 h2]
  exact ReadCount_reads_d1 env _ s rfl

/-- The value of a successful `ReadCount` on a line that delivers `u`. -/
theorem ReadCount_delivers_d1 (env : Env) (s : State) (k u : Nat) (hk : k < MAX_WAIT_COUNT)
    (hd : delivers env ADDO_PIN s.reads k u) :
    (ReadCount env s).1 = (∑ i in Finset.range 24, (Nat.testBit u i).toNat * 2 ^ i) ^^^ 0x800000
    ∧ (ReadCount env s).2.reads = s.reads + k + 25 := by
  refine ⟨(ReadCount_value_d1 env s k (fun i => Nat.testBit u i) hk ⟨hd.1, hd.2.1⟩ hd.2.2).1, ?_⟩
  rw [ReadCount_ready_d1 env s k hk hd.1 hd.2.1]

/-- The events of a call of `ReadCount` are those of a timeout or those of a
success, for every behaviour of the data line. -/
theorem ReadCount_events_d1 (env : Env) (s : State) :
    (stuck_high env ADDO_PIN s MAX_WAIT_COUNT
      ∧ events_since s (ReadCount env s).2 =
          timeout_events ADDO_PIN ADSK_PIN MAX_WAIT_COUNT
            (env.level ADDO_PIN (s.reads + MAX_WAIT_COUNT)))
    ∨ (∃ k, k < MAX_WAIT_COUNT ∧ ready_at env ADDO_PIN s k
      ∧ events_since s (ReadCount env s).2 =
          success_events ADDO_PIN ADSK_PIN (env.level ADDO_PIN) s.reads k) := by
  rcases stuck_or_ready env ADDO_PIN s MAX_WAIT_COUNT with hst | ⟨k, hk, hr⟩
  · left
    refine ⟨hst, events_since_append _ _ _ ?_⟩
    rw [ReadCount_timeout_d1 env s hst]
  · right
    refine ⟨k, hk, hr, events_since_append _ _ _ ?_⟩
    rw [ReadCount_ready_d1 env s k hk hr.1 hr.2]

/-- Every event of a call of `ReadCount` is on the driver's own two lines. -/
theorem ReadCount_on_lines_d1 (env : Env) (s : State) (e : GpioEvent)
    (he : e ∈ events_since s (ReadCount env s).2) : on_lines ADDO_PIN ADSK_PIN e = true := by
  rcases ReadCount_events_d1 env s with ⟨_, hev⟩ | ⟨k, _, _, hev⟩
  · rw [hev] at he
    exact on_lines_timeout_events _ _ _ _ e he
  · rw [hev] at he
    exact on_lines_success_events _ _ _ _ _ e he

/-- The clock line is low when `ReadCount` returns. -/
theorem ReadCount_clock_low_d1 (env : Env) (s : State) :
    (clock_writes ADSK_PIN (events_since s (ReadCount env s).2)).getLast? = some 0 := by
  rcases ReadCount_events_d1 env s with ⟨_, hev⟩ | ⟨k, _, _, hev⟩
  · rw [hev, clock_writes_timeout_events]
    rfl
  · rw [hev, clock_writes_success_events]
    exact getLast?_pulses_cons 25

/-- The clock writes and the reads of a successful `ReadCount`. -/
theorem ReadCount_success_trace_d1 (env : Env) (s : State) (k : Nat)
    (hk : k < MAX_WAIT_COUNT) (hready : ready_at env ADDO_PIN s k) :
    events_since s (ReadCount env s).2 =
        success_events ADDO_PIN ADSK_PIN (env.level ADDO_PIN) s.reads k
    ∧ clock_writes ADSK_PIN (events_since s (ReadCount env s).2) = 0 :: pulses 25
    ∧ read_count (events_since s (ReadCount env s).2) = (k + 1) + 24
    ∧ (ReadCount env s).2.reads = s.reads + (k + 1) + 24 := by
  have hev : events_since s (ReadCount env s).2 =
      success_events ADDO_PIN ADSK_PIN (env.level ADDO_PIN) s.reads k := by
    apply events_since_append
    rw [ReadCount_ready_d1 env s k hk hready.1 hready.2]
  refine ⟨hev, ?_, ?_, ?_⟩
  · rw [hev, clock_writes_success_events]
  · rw [hev, read_count_success_events]
  · rw [ReadCount_ready_d1 env s k hk hready.1 hready.2]
    show s.reads + k + 25 = s.reads + (k + 1) + 24
    omega

/-- The value `(long)count` for the count a successful `ReadCount` returns. -/
theorem ReadCount_long_d1 (env : Env) (s : State) (k : Nat) (b : Nat → Bool)
    (hw : 32 ≤ env.BITS_PER_LONG) (hk : k < MAX_WAIT_COUNT)
    (hready : ready_at env ADDO_PIN s k)
    (hb : ∀ i, i < 24 → env.level ADDO_PIN (s.reads + k + 1 + i) = b (23 - i)) :
    to_long env.BITS_PER_LONG (ReadCount env s).1
        = (((∑ i in Finset.range 24, (b i).toNat * 2 ^ i) ^^^ 0x800000 : Nat) : Int)
    ∧ 0 ≤ to_long env.BITS_PER_LONG (ReadCount env s).1
    ∧ to_long env.BITS_PER_LONG (ReadCount env s).1 < 2 ^ 24 := by
  have hv := (ReadCount_value_d1 env s k b hk hready hb).1
  have hlt := ReadCount_ready_lt_d1 env s k hk hready
  have hp := two_pow_31_le env.BITS_PER_LONG hw
  have hlong : to_long env.BITS_PER_LONG (ReadCount env s).1 = ((ReadCount env s).1 : Int) :=
    to_long_of_lt _ _ (by omega) (by omega)
  refine ⟨by rw [hlong, hv], by rw [hlong]; omega, ?_⟩
  rw [hlong]
  exact_mod_cast hlt

/-- The callback never changes the tare offset. -/
theorem callback_offset_d1 (env : Env) (s : State) :
    (weight_timer_callback env s).auto_tare_offset = s.auto_tare_offset := by
  have hf := ReadCount_frame_d1 env s
  rcases stuck_or_ready env ADDO_PIN s MAX_WAIT_COUNT with hst | ⟨k, hk, hr⟩
  · rw [callback_timeout_d1 env s hst]
    exact hf.1
  · rw [callback_success_d1 env s k hk hr]
    exact hf.1

/-- A timer expiry never changes the tare offset. -/
theorem fire_offset_d1 (env : Env) (s : State) :
    (timer_fire env s).auto_tare_offset = s.auto_tare_offset := by
  unfold timer_fire
  cases ht : s.weight_timer with
  | none => rfl
  | some t => exact callback_offset_d1 env _

/-- A timer expiry whose acquisition times out, or that finds the timer not
pending, does not change `weight_grams`. -/
theorem fire_timeout_weight_d1 (env : Env) (s : State)
    (hhigh : stuck_high env ADDO_PIN s MAX_WAIT_COUNT) :
    (timer_fire env s).weight_grams = s.weight_grams := by
  cases ht : s.weight_timer with
  | none => simp [timer_fire, ht]
  | some t => exact ((tick_timeout_d1 env s hhigh).2.2 t ht).1

/-- The stored weight after `n` timer expiries. -/
theorem run_ticks_weight_d1 (env : Env) :
    ∀ (n : Nat) (s : State),
      (run_ticks env n s).weight_grams =
        match last_success (tick_samples env n s) with
        | none => s.weight_grams
        | some raw => convert_to_grams env s raw := by
  intro n
  induction n with
  | zero => intro s; rfl
  | succ n ih =>
    intro s
    cases ht : s.weight_timer with
    | none =>
      have hfire : timer_fire env s = s := by simp [timer_fire, ht]
      simp only [run_ticks, tick_samples, ht, hfire]
      exact ih s
    | some t =>
      have hconv : ∀ raw, convert_to_grams env (timer_fire env s) raw
          = convert_to_grams env s raw := by
        intro raw
        unfold convert_to_grams
        rw [fire_offset_d1]
      simp only [run_ticks, tick_samples, ht, last_success]
      rw [ih (timer_fire env s)]
      cases hl : last_success (tick_samples env n (timer_fire env s)) with
      | some r => simp only [hconv]
      | none =>
        simp only []
        rcases stuck_or_ready env ADDO_PIN s MAX_WAIT_COUNT with hst | ⟨k, hk, hr⟩
        · have hfl := first_low_high (env.level ADDO_PIN) MAX_WAIT_COUNT s.reads hst
          simp only [acquired, hfl]
          exact fire_timeout_weight_d1 env s hst
        · have hfl := first_low_low (env.level ADDO_PIN) k MAX_WAIT_COUNT s.reads hk hr.1 hr.2
          have hv := ReadCount_value_reads_d1 env
            { s with weight_timer := none, jiffies := t } s rfl
          simp only [acquired, hfl, hv]
          exact ((tick_success_d1 env s k hk hr).2.2.2 t ht).1

/-- The function `hx711_init` never writes `weight_grams`. -/
theorem init_weight_d1 (env : Env) (s : State) :
    (hx711_init env s).2.weight_grams = s.weight_grams := by
  by_cases h1 : env.gpio_request_rc ADDO_PIN < 0
  · simp [hx711_init, gpio_request, h1]
  · by_cases h2 : env.gpio_request_rc ADSK_PIN < 0
    · simp [hx711_init, gpio_request, h1, h2]
    · exact (init_facts_d1 env s h1 h2).2.2.1

/-- The wait loop of the driver is the parametrized one on its channel. -/
theorem wait_loop_channel_d1 (env : Env) :
    ∀ (fuel wait_count : Nat) (s : State),
      wait_loop env fuel wait_count s = Channel.wait_loop channel1 env fuel wait_count s := by
  intro fuel
  induction fuel with
  | zero => intro wc s; rfl
  | succ f ih =>
    intro wc s
    simp only [wait_loop, Channel.wait_loop, ih]
    rfl

/-- The bit loop of the driver is the parametrized one on its channel. -/
theorem read_bits_channel_d1 (env : Env) :
    ∀ (n Count : Nat) (s : State),
      read_bits env n Count s = Channel.read_bits channel1 env n Count s := by
  intro n
  induction n with
  | zero => intro Count s; rfl
  | succ n ih =>
    intro Count s
    simp only [read_bits, Channel.read_bits, ih]
    rfl

/-- The function `ReadCount` of the driver is the parametrized one on its
channel. -/
theorem ReadCount_channel_d1 (env : Env) (s : State) :
    ReadCount env s = Channel.ReadCount channel1 env s := by
  simp only [ReadCount, Channel.ReadCount, wait_loop_channel_d1, read_bits_channel_d1]
  rfl

/-- The function `convert_to_grams` of the driver is the parametrized one on its
channel. -/
theorem convert_channel_d1 (env : Env) (s : State) (count : Nat) :
    convert_to_grams env s count = Channel.convert_to_grams channel1 env s count := rfl

/-- The callback of the driver is the parametrized one on its channel. -/
theorem callback_channel_d1 (env : Env) (s : State) :
    weight_timer_callback env s = Channel.weight_timer_callback channel1 env s := by
  simp only [weight_timer_callback, Channel.weight_timer_callback, ReadCount_channel_d1]
  rfl

/-- `ReadCount` returns the timeout value exactly when the first
`MAX_WAIT_COUNT` polls all read high. -/
theorem ReadCount_timeout_iff_d1 (env : Env) (s : State) :
    (ReadCount env s).1 = 0xFFFFFFFF ↔ stuck_high env ADDO_PIN s MAX_WAIT_COUNT := by
  constructor
  · intro hv
    rcases stuck_or_ready env ADDO_PIN s MAX_WAIT_COUNT with hst | ⟨k, hk, hr⟩
    · exact hst
    · have hlt := ReadCount_ready_lt_d1 env s k hk hr
      rw [hv] at hlt
      exact absurd hlt (by decide)
  · intro hst
    rw [ReadCount_timeout_d1 env s hst]

/-- A low level among the first `MAX_WAIT_COUNT` polls makes the call succeed
at the first such poll. -/
theorem ReadCount_low_within_d1 (env : Env) (s : State) (j : Nat) (hj : j < MAX_WAIT_COUNT)
    (hlow : env.level ADDO_PIN (s.reads + j) = false) :
    (ReadCount env s).1 ≠ 0xFFFFFFFF
    ∧ (ReadCount env s).1 < 2 ^ 24
    ∧ ∃ k, k ≤ j ∧ ready_at env ADDO_PIN s k
        ∧ events_since s (ReadCount env s).2 =
            success_events ADDO_PIN ADSK_PIN (env.level ADDO_PIN) s.reads k
        ∧ clock_writes ADSK_PIN (events_since s (ReadCount env s).2) = 0 :: pulses 25
        ∧ read_count (events_since s (ReadCount env s).2) = (k + 1) + 24 := by
  rcases stuck_or_ready env ADDO_PIN s MAX_WAIT_COUNT with hst | ⟨k, hk, hr⟩
  · have := hst j hj
    rw [hlow] at this
    exact Bool.noConfusion this
  · have hlt := ReadCount_ready_lt_d1 env s k hk hr
    have hkj : k ≤ j := by
      by_contra hc
      have := hr.1 j (by omega)
      rw [hlow] at this
      exact Bool.noConfusion this
    have htr := ReadCount_success_trace_d1 env s k hk hr
    refine ⟨?_, hlt, k, hkj, hr, htr.1, htr.2.1, htr.2.2.1⟩
    intro hv
    rw [hv] at hlt
    exact absurd hlt (by decide)

/-- A first low level at the poll made with `wait_count = MAX_WAIT_COUNT` comes
too late: the call times out although that poll read low. -/
theorem ReadCount_low_too_late_d1 (env : Env) (s : State)
    (hhigh : stuck_high env ADDO_PIN s MAX_WAIT_COUNT)
    (hlow : env.level ADDO_PIN (s.reads + MAX_WAIT_COUNT) = false) :
    (ReadCount env s).1 = 0xFFFFFFFF
    ∧ events_since s (ReadCount env s).2 =
        GpioEvent.set_value ADSK_PIN 0 ::
          (poll_events ADDO_PIN MAX_WAIT_COUNT ++ [GpioEvent.get_value ADDO_PIN false])
    ∧ clock_writes ADSK_PIN (events_since s (ReadCount env s).2) = [0]
    ∧ read_count (events_since s (ReadCount env s).2) = MAX_WAIT_COUNT + 1 := by
  have h := ReadCount_timeout_facts_d1 env s hhigh
  rw [hlow] at h
  exact ⟨h.1, h.2.1, h.2.2.1, h.2.2.2.2⟩

/-- A successful acquisition of the accumulator `u` returns the offset-binary
form of its two's-complement value. -/
theorem ReadCount_offset_binary_d1 (env : Env) (s : State) (k u : Nat)
    (hk : k < MAX_WAIT_COUNT) (hu : u < 2 ^ 24) (hd : delivers env ADDO_PIN s.reads k u) :
    (ReadCount env s).1 = u ^^^ 0x800000
    ∧ (((ReadCount env s).1 : Nat) : Int) = signed24 u + 2 ^ 23
    ∧ (ReadCount env s).1 < 2 ^ 24
    ∧ (ReadCount env s).1 ≠ 0xFFFFFFFF := by
  have hv := (ReadCount_delivers_d1 env s k u hk hd).1
  rw [← bits_value_eq_sum, bits_value_testBit, Nat.mod_eq_of_lt hu] at hv
  have hlt : (ReadCount env s).1 < 2 ^ 24 := ReadCount_ready_lt_d1 env s k hk ⟨hd.1, hd.2.1⟩
  refine ⟨hv, ?_, hlt, ?_⟩
  · rw [hv]
    exact xor_sign_bit_eq u hu
  · intro h
    rw [h] at hlt
    exact absurd hlt (by decide)

/-- The larger two's-complement value gives the larger count. -/
theorem ReadCount_monotone_d1 (env env' : Env) (s s' : State) (k k' u u' : Nat)
    (hk : k < MAX_WAIT_COUNT) (hu : u < 2 ^ 24) (hd : delivers env ADDO_PIN s.reads k u)
    (hk' : k' < MAX_WAIT_COUNT) (hu' : u' < 2 ^ 24)
    (hd' : delivers env' ADDO_PIN s'.reads k' u') :
    signed24 u < signed24 u' ↔ (ReadCount env s).1 < (ReadCount env' s').1 := by
  have h := (ReadCount_offset_binary_d1 env s k u hk hu hd).2.1
  have h' := (ReadCount_offset_binary_d1 env' s' k' u' hk' hu' hd').2.1
  constructor
  · intro hlt
    have : (((ReadCount env s).1 : Nat) : Int) < (((ReadCount env' s').1 : Nat) : Int) := by omega
    exact_mod_cast this
  · intro hlt
    have : (((ReadCount env s).1 : Nat) : Int) < (((ReadCount env' s').1 : Nat) : Int) := by
      exact_mod_cast hlt
    omega

/-- From the tare in `hx711_init` to the first tick: the weight is the
difference of the two's-complement values over the scale factor. -/
theorem tare_then_tick_d1 (env : Env) (s : State) (k1 k2 t u : Nat)
    (h1 : ¬ env.gpio_request_rc ADDO_PIN < 0) (h2 : ¬ env.gpio_request_rc ADSK_PIN < 0)
    (hw : 32 ≤ env.BITS_PER_LONG)
    (hk1 : k1 < MAX_WAIT_COUNT) (hk2 : k2 < MAX_WAIT_COUNT)
    (ht : t < 2 ^ 24) (hu : u < 2 ^ 24)
    (htare : delivers env ADDO_PIN s.reads k1 t)
    (htick : delivers env ADDO_PIN (s.reads + k1 + 25) k2 u) :
    (hx711_init env s).2.auto_tare_offset = t ^^^ 0x800000
    ∧ convert_to_grams env (hx711_init env s).2 (ReadCount env (hx711_init env s).2).1
        = Int.tdiv (signed24 u - signed24 t) SCALE_FACTOR
    ∧ (timer_fire env (hx711_init env s).2).weight_grams
        = Int.tdiv (signed24 u - signed24 t) SCALE_FACTOR := by
  have hf := init_facts_d1 env s h1 h2
  have hrd := init_reads_d1 env s h1 h2
  have hT := ReadCount_offset_binary_d1 env s k1 t hk1 ht htare
  have hoff : (hx711_init env s).2.auto_tare_offset = t ^^^ 0x800000 := by
    rw [hf.2.1, hT.1]
  have hreads : (hx711_init env s).2.reads = s.reads + k1 + 25 := by
    rw [hrd, (ReadCount_delivers_d1 env s k1 t hk1 htare).2]
  have htick' : delivers env ADDO_PIN (hx711_init env s).2.reads k2 u := by
    rw [hreads]; exact htick
  have hU := ReadCount_offset_binary_d1 env (hx711_init env s).2 k2 u hk2 hu htick'
  have hTlt : t ^^^ 0x800000 < 2 ^ 24 := by rw [← hT.1]; exact hT.2.2.1
  have hconv : convert_to_grams env (hx711_init env s).2 (ReadCount env (hx711_init env s).2).1
      = Int.tdiv (signed24 u - signed24 t) SCALE_FACTOR := by
    unfold convert_to_grams
    rw [hoff, convert_exact_d1 env.BITS_PER_LONG SCALE_FACTOR _ _ hw
      (lt_trans hU.2.2.1 (by decide)) (lt_trans hTlt (by decide))]
    have e1 := hU.2.1
    have e2 := xor_sign_bit_eq t ht
    rw [e1, e2]
    congr 1
    ring
  have hfire := (tick_success_d1 env (hx711_init env s).2 k2 hk2
    ⟨htick'.1, htick'.2.1⟩).2.2.2 _ hf.2.2.2.1
  exact ⟨hoff, hconv, by rw [hfire.1, hconv]⟩

/-- No number of timer expiries changes the tare offset. -/
theorem run_ticks_offset_d1 (env : Env) :
    ∀ (n : Nat) (s : State), (run_ticks env n s).auto_tare_offset = s.auto_tare_offset := by
  intro n
  induction n with
  | zero => intro s; rfl
  | succ n ih =>
    intro s
    simp only [run_ticks]
    rw [ih (timer_fire env s), fire_offset_d1]

/-- A tick that reads the accumulator `u` in a state whose tare offset is the
count of the accumulator `t`. -/
theorem tick_after_tare_d1 (env : Env) (s : State) (k t u : Nat)
    (hw : 32 ≤ env.BITS_PER_LONG) (hk : k < MAX_WAIT_COUNT)
    (ht : t < 2 ^ 24) (hu : u < 2 ^ 24)
    (hoff : s.auto_tare_offset = t ^^^ 0x800000)
    (hd : delivers env ADDO_PIN s.reads k u) :
    convert_to_grams env s (ReadCount env s).1
        = Int.tdiv (signed24 u - signed24 t) SCALE_FACTOR
    ∧ (weight_timer_callback env s).weight_grams
        = Int.tdiv (signed24 u - signed24 t) SCALE_FACTOR
    ∧ (weight_timer_callback env s).auto_tare_offset = t ^^^ 0x800000
    ∧ (∀ e, s.weight_timer = some e →
        (timer_fire env s).weight_grams = Int.tdiv (signed24 u - signed24 t) SCALE_FACTOR
        ∧ (timer_fire env s).auto_tare_offset = t ^^^ 0x800000) := by
  have hU := ReadCount_offset_binary_d1 env s k u hk hu hd
  have hTlt : t ^^^ 0x800000 < 2 ^ 24 := Nat.xor_lt_two_pow ht (by decide)
  have hconv : convert_to_grams env s (ReadCount env s).1
      = Int.tdiv (signed24 u - signed24 t) SCALE_FACTOR := by
    unfold convert_to_grams
    rw [hoff, convert_exact_d1 env.BITS_PER_LONG SCALE_FACTOR _ _ hw
      (lt_trans hU.2.2.1 (by decide)) (lt_trans hTlt (by decide))]
    have e1 := hU.2.1
    have e2 := xor_sign_bit_eq t ht
    rw [e1, e2]
    congr 1
    ring
  have hts := tick_success_d1 env s k hk ⟨hd.1, hd.2.1⟩
  refine ⟨hconv, by rw [hts.1, hconv], by rw [callback_offset_d1, hoff], ?_⟩
  intro e he
  exact ⟨by rw [(hts.2.2.2 e he).1, hconv], by rw [fire_offset_d1, hoff]⟩

/-- Any tick after the tare: `hx711_init` reads the accumulator `t`, `n` timer
expiries follow, and the next tick reads the accumulator `u`. -/
theorem ticks_after_tare_d1 (env : Env) (s : State) (k1 t n k u : Nat)
    (h1 : ¬ env.gpio_request_rc ADDO_PIN < 0) (h2 : ¬ env.gpio_request_rc ADSK_PIN < 0)
    (hw : 32 ≤ env.BITS_PER_LONG)
    (hk1 : k1 < MAX_WAIT_COUNT) (ht : t < 2 ^ 24)
    (htare : delivers env ADDO_PIN s.reads k1 t)
    (hk : k < MAX_WAIT_COUNT) (hu : u < 2 ^ 24)
    (htick : delivers env ADDO_PIN (run_ticks env n (hx711_init env s).2).reads k u) :
    (run_ticks env n (hx711_init env s).2).auto_tare_offset = t ^^^ 0x800000
    ∧ convert_to_grams env (run_ticks env n (hx711_init env s).2)
        (ReadCount env (run_ticks env n (hx711_init env s).2)).1
        = Int.tdiv (signed24 u - signed24 t) SCALE_FACTOR
    ∧ (weight_timer_callback env (run_ticks env n (hx711_init env s).2)).weight_grams
        = Int.tdiv (signed24 u - signed24 t) SCALE_FACTOR
    ∧ (∀ e, (run_ticks env n (hx711_init env s).2).weight_timer = some e →
        (timer_fire env (run_ticks env n (hx711_init env s).2)).weight_grams
          = Int.tdiv (signed24 u - signed24 t) SCALE_FACTOR
        ∧ (timer_fire env (run_ticks env n (hx711_init env s).2)).auto_tare_offset
          = t ^^^ 0x800000) := by
  have hf := init_facts_d1 env s h1 h2
  have hT := ReadCount_offset_binary_d1 env s k1 t hk1 ht htare
  have hoff : (run_ticks env n (hx711_init env s).2).auto_tare_offset = t ^^^ 0x800000 := by
    rw [run_ticks_offset_d1, hf.2.1, hT.1]
  have h := tick_after_tare_d1 env (run_ticks env n (hx711_init env s).2) k t u hw hk ht hu
    hoff htick
  exact ⟨hoff, h.1, h.2.1, h.2.2.2⟩

end Driver1

namespace Driver2

theorem wait_loop_high_d2 (env : Env) :
    ∀ (d fuel wait_count : Nat) (s : State), d < fuel → wait_count + d = MAX_WAIT_COUNT →
      (∀ j, j < d → env.level ADDO_PIN (s.reads + j) = true) →
      wait_loop env fuel wait_count s =
        (MAX_WAIT_COUNT,
         { s with reads := s.reads + d + 1,
                  trace := s.trace ++ (poll_events ADDO_PIN d ++
                    [GpioEvent.get_value ADDO_PIN (env.level ADDO_PIN (s.reads + d))]) }) := by
  intro d
  induction d with
  | zero =>
    intro fuel wc s hf hwc _
    obtain ⟨f, rfl⟩ : ∃ f, fuel = f + 1 := ⟨fuel - 1, by omega⟩
    have hwc' : wc = MAX_WAIT_COUNT := by omega
    subst hwc'
    simp [wait_loop, gpio_get_value, poll_events]
  | succ d ih =>
    intro fuel wc s hf hwc hhigh
    obtain ⟨f, rfl⟩ : ∃ f, fuel = f + 1 := ⟨fuel - 1, by omega⟩
    have h0 : env.level ADDO_PIN s.reads = true := by simpa using hhigh 0 (by omega)
    have hlt : wc < MAX_WAIT_COUNT := by omega
    have hrec := ih f (wc + 1) (udelay 1 (gpio_get_value env ADDO_PIN s).2) (by omega) (by omega)
      (by
        intro j hj
        have := hhigh (j + 1) (by omega)
        simpa [udelay, gpio_get_value, Nat.add_assoc, Nat.add_comm 1 j] using this)
    simp only [wait_loop, h0, hlt, decide_True, Bool.and_self, if_true, gpio_get_value] at hrec ⊢
    rw [hrec]
    simp [udelay, poll_events, h0, Nat.add_assoc, Nat.add_comm 1 d]

theorem wait_loop_low_d2 (env : Env) :
    ∀ (k fuel wait_count : Nat) (s : State), k < fuel → wait_count + k < MAX_WAIT_COUNT →
      (∀ j, j < k → env.level ADDO_PIN (s.reads + j) = true) →
      env.level ADDO_PIN (s.reads + k) = false →
      wait_loop env fuel wait_count s =
        (wait_count + k,
         { s with reads := s.reads + k + 1,
                  trace := s.trace ++ (poll_events ADDO_PIN k ++
                    [GpioEvent.get_value ADDO_PIN false]) }) := by
  intro k
  induction k with
  | zero =>
    intro fuel wc s hf _ _ hlow
    obtain ⟨f, rfl⟩ : ∃ f, fuel = f + 1 := ⟨fuel - 1, by omega⟩
    have h0 : env.level ADDO_PIN s.reads = false := by simpa using hlow
    simp [wait_loop, gpio_get_value, poll_events, h0]
  | succ k ih =>
    intro fuel wc s hf hwc hhigh hlow
    obtain ⟨f, rfl⟩ : ∃ f, fuel = f + 1 := ⟨fuel - 1, by omega⟩
    have h0 : env.level ADDO_PIN s.reads = true := by simpa using hhigh 0 (by omega)
    have hlt : wc < MAX_WAIT_COUNT := by omega
    have hrec := ih f (wc + 1) (udelay 1 (gpio_get_value env ADDO_PIN s).2) (by omega) (by omega)
      (by
        intro j hj
        have := hhigh (j + 1) (by omega)
        simpa [udelay, gpio_get_value, Nat.add_assoc, Nat.add_comm 1 j] using this)
      (by simpa [udelay, gpio_get_value, Nat.add_assoc, Nat.add_comm 1 k] using hlow)
    simp only [wait_loop, h0, hlt, decide_True, Bool.and_self, if_true, gpio_get_value] at hrec ⊢
    rw [hrec]
    simp [udelay, poll_events, h0, Nat.add_assoc, Nat.add_comm 1 k]

theorem read_bits_eq_d2 (env : Env) :
    ∀ (n Count : Nat) (s : State),
      read_bits env n Count s =
        (Count * 2 ^ n + bits_value (fun i => env.level ADDO_PIN (s.reads + (n - 1 - i))) n,
         { s with reads := s.reads + n,
                  trace := s.trace ++
                    bit_events ADDO_PIN ADSK_PIN (env.level ADDO_PIN) n s.reads }) := by
  intro n
  induction n with
  | zero =>
    intro Count s
    simp [read_bits, bits_value, bit_events]
  | succ n ih =>
    intro Count s
    simp only [read_bits]
    rw [ih]
    have hsum : bits_value (fun i => env.level ADDO_PIN (s.reads + (n + 1 - 1 - i))) (n + 1)
        = bits_value (fun i => env.level ADDO_PIN (s.reads + 1 + (n - 1 - i))) n
          + (if env.level ADDO_PIN s.reads then 2 ^ n else 0) := by
      unfold bits_value
      rw [Finset.sum_range_succ]
      congr 1
      · apply Finset.sum_congr rfl
        intro i hi
        have hi' : i < n := Finset.mem_range.mp hi
        have e : s.reads + (n + 1 - 1 - i) = s.reads + 1 + (n - 1 - i) := by omega
        simp only [e]
      · simp
    simp only [gpio_get_value, gpio_set_value, udelay, Prod.mk.injEq]
    constructor
    · rw [hsum, Nat.shiftLeft_eq]
      by_cases hb : env.level ADDO_PIN s.reads = true
      · simp [hb]; ring
      · simp [hb]; ring
    · simp [bit_events, Nat.add_assoc, Nat.add_comm 1 n]

/-- The whole outcome of `ReadCount` when the first `MAX_WAIT_COUNT` polls read
high. -/
theorem ReadCount_timeout_d2 (env : Env) (s : State)
    (hhigh : ∀ j, j < MAX_WAIT_COUNT → env.level ADDO_PIN (s.reads + j) = true) :
    ReadCount env s =
      (0xFFFFFFFF,
       { s with reads := s.reads + MAX_WAIT_COUNT + 1,
                trace := s.trace ++ timeout_events ADDO_PIN ADSK_PIN MAX_WAIT_COUNT
                  (env.level ADDO_PIN (s.reads + MAX_WAIT_COUNT)) }) := by
  have hw := wait_loop_high_d2 env MAX_WAIT_COUNT (MAX_WAIT_COUNT + 1) 0
    (gpio_set_value ADSK_PIN 0 s) (by omega) (by omega) (by simpa [gpio_set_value] using hhigh)
  simp only [ReadCount, hw]
  simp [gpio_set_value, timeout_events]

/-- The whole outcome of `ReadCount` when the data line reads low for the first
time at poll `k < MAX_WAIT_COUNT`. -/
theorem ReadCount_ready_d2 (env : Env) (s : State) (k : Nat) (hk : k < MAX_WAIT_COUNT)
    (hhigh : ∀ j, j < k → env.level ADDO_PIN (s.reads + j) = true)
    (hlow : env.level ADDO_PIN (s.reads + k) = false) :
    ReadCount env s =
      (bits_value (fun i => env.level ADDO_PIN (s.reads + k + 1 + (23 - i))) 24 ^^^ 0x800000,
       { s with reads := s.reads + k + 25,
                trace := s.trace ++
                  success_events ADDO_PIN ADSK_PIN (env.level ADDO_PIN) s.reads k }) := by
  have hw := wait_loop_low_d2 env k (MAX_WAIT_COUNT + 1) 0
    (gpio_set_value ADSK_PIN 0 s) (by omega) (by omega) (by simpa [gpio_set_value] using hhigh)
    (by simpa [gpio_set_value] using hlow)
  have hnot : ¬ (0 + k ≥ MAX_WAIT_COUNT) := by omega
  simp only [ReadCount, hw, hnot, if_false, read_bits_eq_d2]
  simp [gpio_set_value, udelay, success_events, Nat.add_assoc]

/-- The value `ReadCount` returns for 24 sampled levels `b 23, ..., b 0`. -/
theorem ReadCount_value_d2 (env : Env) (s : State) (k : Nat) (b : Nat → Bool)
    (hk : k < MAX_WAIT_COUNT) (hready : ready_at env ADDO_PIN s k)
    (hb : ∀ i, i < 24 → env.level ADDO_PIN (s.reads + k + 1 + i) = b (23 - i)) :
    (ReadCount env s).1 = (∑ i in Finset.range 24, (b i).toNat * 2 ^ i) ^^^ 0x800000
    ∧ ((∀ i, i < 24 → b i = false) → (ReadCount env s).1 = 0x800000)
    ∧ ((∀ i, i < 24 → b i = true) → (ReadCount env s).1 = 0x7FFFFF) := by
  have hv : (ReadCount env s).1 =
      (∑ i in Finset.range 24, (b i).toNat * 2 ^ i) ^^^ 0x800000 := by
    rw [ReadCount_ready_d2 env s k hk hready.1 hready.2]
    simp only []
    rw [bits_value_samples (env.level ADDO_PIN) b (s.reads + k + 1) hb]
  refine ⟨hv, ?_, ?_⟩
  · intro h0
    rw [hv, bits_value_all_low b 24 h0]
    decide
  · intro h1
    rw [hv, bits_value_all_high b h1]
    decide

/-- What a timed-out `ReadCount` returns and does on the pins. -/
theorem ReadCount_timeout_facts_d2 (env : Env) (s : State)
    (hhigh : stuck_high env ADDO_PIN s MAX_WAIT_COUNT) :
    (ReadCount env s).1 = 0xFFFFFFFF
    ∧ events_since s (ReadCount env s).2 =
        timeout_events ADDO_PIN ADSK_PIN MAX_WAIT_COUNT
          (env.level ADDO_PIN (s.reads + MAX_WAIT_COUNT))
    ∧ clock_writes ADSK_PIN (events_since s (ReadCount env s).2) = [0]
    ∧ (∀ v, GpioEvent.set_value ADSK_PIN v ∈ events_since s (ReadCount env s).2 → v = 0)
    ∧ read_count (events_since s (ReadCount env s).2) = MAX_WAIT_COUNT + 1 := by
  have hev : events_since s (ReadCount env s).2 =
      timeout_events ADDO_PIN ADSK_PIN MAX_WAIT_COUNT
        (env.level ADDO_PIN (s.reads + MAX_WAIT_COUNT)) := by
    apply events_since_append
    rw [ReadCount_timeout_d2 env s hhigh]
  refine ⟨by rw [ReadCount_timeout_d2 env s hhigh], hev, ?_, ?_, ?_⟩
  · rw [hev, clock_writes_timeout_events]
  · intro v hv
    rw [hev, mem_clock_writes, clock_writes_timeout_events] at hv
    simpa using hv
  · rw [hev, read_count_timeout_events]

/-- The function `convert` is truncating division whenever the count and the
offset fit a `long` and the quotient fits an `int`. -/
theorem convert_general_d2 (w : Nat) (scale : Int) (offset count : Nat) (hw : 32 ≤ w)
    (hcount : count < 2 ^ (w - 1)) (hoffset : offset < 2 ^ (w - 1))
    (hfit : -(2 ^ 31 : Int) ≤ Int.tdiv ((count : Int) - (offset : Int)) scale
      ∧ Int.tdiv ((count : Int) - (offset : Int)) scale < (2 ^ 31 : Int)) :
    convert w scale offset count = Int.tdiv ((count : Int) - (offset : Int)) scale := by
  unfold convert
  exact convert_body_general w scale offset count hw hcount hoffset hfit

/-- The function `convert` is truncating division on counts below `2 ^ 31`. -/
theorem convert_exact_d2 (w : Nat) (scale : Int) (offset count : Nat) (hw : 32 ≤ w)
    (hcount : count < 2 ^ 31) (hoffset : offset < 2 ^ 31) :
    convert w scale offset count = Int.tdiv ((count : Int) - (offset : Int)) scale := by
  unfold convert
  exact convert_body_exact w scale offset count hw hcount hoffset

/-- A successful `ReadCount` returns less than `2 ^ 24`, so not `0xFFFFFFFF`. -/
theorem ReadCount_ready_lt_d2 (env : Env) (s : State) (k : Nat) (hk : k < MAX_WAIT_COUNT)
    (hready : ready_at env ADDO_PIN s k) : (ReadCount env s).1 < 2 ^ 24 := by
  rw [ReadCount_ready_d2 env s k hk hready.1 hready.2]
  exact xor_sign_bit_lt _

/-- `ReadCount` changes nothing but the trace and the read counter. -/
theorem ReadCount_frame_d2 (env : Env) (s : State) :
    (ReadCount env s).2.auto_tare_offset = s.auto_tare_offset
    ∧ (ReadCount env s).2.weight_grams = s.weight_grams
    ∧ (ReadCount env s).2.weight_timer = s.weight_timer
    ∧ (ReadCount env s).2.jiffies = s.jiffies
    ∧ (ReadCount env s).2.owned = s.owned
    ∧ (ReadCount env s).2.procfs = s.procfs := by
  rcases stuck_or_ready env ADDO_PIN s MAX_WAIT_COUNT with hst | ⟨k, hk, hr⟩
  · rw [ReadCount_timeout_d2 env s hst]
    simp
  · rw [ReadCount_ready_d2 env s k hk hr.1 hr.2]
    simp

/-- The trace after `ReadCount` depends on the state only through the trace and
the read counter before it. -/
theorem ReadCount_trace_d2 (env : Env) (s1 s2 : State) (h : s1.reads = s2.reads)
    (ht : s1.trace = s2.trace) :
    (ReadCount env s1).2.trace = (ReadCount env s2).2.trace := by
  rcases stuck_or_ready env ADDO_PIN s1 MAX_WAIT_COUNT with hst | ⟨k, hk, hr⟩
  · have hst2 : stuck_high env ADDO_PIN s2 MAX_WAIT_COUNT := by
      intro j hj
      rw [← h]
      exact hst j hj
    rw [ReadCount_timeout_d2 env s1 hst, ReadCount_timeout_d2 env s2 hst2]
    simp [h, ht]
  · have hr2 : ready_at env ADDO_PIN s2 k := by
      unfold ready_at
      rw [← h]
      exact hr
    rw [ReadCount_ready_d2 env s1 k hk hr.1 hr.2, ReadCount_ready_d2 env s2 k hk hr2.1 hr2.2]
    simp [h, ht]

/-- `ReadCount` only appends to the trace. -/
theorem ReadCount_trace_append_d2 (env : Env) (s : State) :
    (ReadCount env s).2.trace = s.trace ++ events_since s (ReadCount env s).2 := by
  rcases stuck_or_ready env ADDO_PIN s MAX_WAIT_COUNT with hst | ⟨k, hk, hr⟩
  · rw [ReadCount_timeout_d2 env s hst]
    simp [events_since]
  · rw [ReadCount_ready_d2 env s k hk hr.1 hr.2]
    simp [events_since]

/-- A tick whose acquisition succeeds. -/
theorem callback_success_d2 (env : Env) (s : State) (k : Nat) (hk : k < MAX_WAIT_COUNT)
    (hready : ready_at env ADDO_PIN s k) :
    weight_timer_callback env s =
      { (ReadCount env s).2 with
          weight_grams := convert_to_grams env s (ReadCount env s).1,
          jiffies := (s.jiffies + env.elapsed (ReadCount env s).2.trace.length)
            % 2 ^ env.BITS_PER_LONG,
          weight_timer := some (((s.jiffies + env.elapsed (ReadCount env s).2.trace.length)
            % 2 ^ env.BITS_PER_LONG + env.HZ) % 2 ^ env.BITS_PER_LONG) } := by
  have hlt := ReadCount_ready_lt_d2 env s k hk hready
  have hne : ¬ (ReadCount env s).1 = 0xFFFFFFFF := by
    intro h
    rw [h] at hlt
    exact absurd hlt (by decide)
  have hf := ReadCount_frame_d2 env s
  simp only [weight_timer_callback, hne, if_false, mod_timer, read_jiffies, convert_to_grams,
    hf.1, hf.2.2.2.1]

/-- A tick whose acquisition times out. -/
theorem callback_timeout_d2 (env : Env) (s : State)
    (hhigh : stuck_high env ADDO_PIN s MAX_WAIT_COUNT) :
    weight_timer_callback env s = (ReadCount env s).2 := by
  have h := (ReadCount_timeout_d2 env s hhigh)
  simp only [weight_timer_callback, h, if_true]

/-- The value `ReadCount` returns depends on the state only through the read
counter. -/
theorem ReadCount_value_reads_d2 (env : Env) (s1 s2 : State) (h : s1.reads = s2.reads) :
    (ReadCount env s1).1 = (ReadCount env s2).1 := by
  rcases stuck_or_ready env ADDO_PIN s1 MAX_WAIT_COUNT with hst | ⟨k, hk, hr⟩
  · have hst2 : stuck_high env ADDO_PIN s2 MAX_WAIT_COUNT := by
      intro j hj
      rw [← h]
      exact hst j hj
    rw [ReadCount_timeout_d2 env s1 hst, ReadCount_timeout_d2 env s2 hst2]
  · have hr2 : ready_at env ADDO_PIN s2 k := by
      unfold ready_at
      rw [← h]
      exact hr
    rw [ReadCount_ready_d2 env s1 k hk hr.1 hr.2, ReadCount_ready_d2 env s2 k hk hr2.1 hr2.2, h]

/-- What a successful tick leaves behind. -/
theorem tick_success_d2 (env : Env) (s : State) (k : Nat) (hk : k < MAX_WAIT_COUNT)
    (hready : ready_at env ADDO_PIN s k) :
    (weight_timer_callback env s).weight_grams = convert_to_grams env s (ReadCount env s).1
    ∧ (weight_timer_callback env s).jiffies
        = (s.jiffies + env.elapsed (ReadCount env s).2.trace.length) % 2 ^ env.BITS_PER_LONG
    ∧ (weight_timer_callback env s).weight_timer
        = some (((s.jiffies + env.elapsed (ReadCount env s).2.trace.length)
            % 2 ^ env.BITS_PER_LONG + env.HZ) % 2 ^ env.BITS_PER_LONG)
    ∧ (∀ t, s.weight_timer = some t →
        (timer_fire env s).weight_grams = convert_to_grams env s (ReadCount env s).1
        ∧ (timer_fire env s).jiffies
            = (t + env.elapsed (ReadCount env s).2.trace.length) % 2 ^ env.BITS_PER_LONG
        ∧ (timer_fire env s).weight_timer
            = some (((t + env.elapsed (ReadCount env s).2.trace.length)
                % 2 ^ env.BITS_PER_LONG + env.HZ) % 2 ^ env.BITS_PER_LONG)) := by
  refine ⟨?_, ?_, ?_, ?_⟩
  · rw [callback_success_d2 env s k hk hready]
  · rw [callback_success_d2 env s k hk hready]
  · rw [callback_success_d2 env s k hk hready]
  · intro t ht
    have hr' : ready_at env ADDO_PIN
        { s with weight_timer := none, jiffies := t } k := hready
    have hv := ReadCount_value_reads_d2 env
      { s with weight_timer := none, jiffies := t } s rfl
    have htr := ReadCount_trace_d2 env
      { s with weight_timer := none, jiffies := t } s rfl rfl
    simp only [timer_fire, ht]
    rw [callback_success_d2 env _ k hk hr', hv, htr]
    exact ⟨rfl, rfl, rfl⟩

/-- What a timed-out tick leaves behind. -/
theorem tick_timeout_d2 (env : Env) (s : State)
    (hhigh : stuck_high env ADDO_PIN s MAX_WAIT_COUNT) :
    (weight_timer_callback env s).weight_grams = s.weight_grams
    ∧ (weight_timer_callback env s).weight_timer = s.weight_timer
    ∧ (∀ t, s.weight_timer = some t →
        (timer_fire env s).weight_grams = s.weight_grams
        ∧ (timer_fire env s).weight_timer = none) := by
  have hf := ReadCount_frame_d2 env s
  refine ⟨?_, ?_, ?_⟩
  · rw [callback_timeout_d2 env s hhigh]; exact hf.2.1
  · rw [callback_timeout_d2 env s hhigh]; exact hf.2.2.1
  · intro t ht
    have hh' : stuck_high env ADDO_PIN
        { s with weight_timer := none, jiffies := t } MAX_WAIT_COUNT := hhigh
    have hf' := ReadCount_frame_d2 env { s with weight_timer := none, jiffies := t }
    simp only [timer_fire, ht]
    rw [callback_timeout_d2 env _ hh']
    exact ⟨hf'.2.1, hf'.2.2.1⟩

/-- The outcome of `hx711_init` when both `gpio_request` calls succeed. -/
theorem init_outcome_d2 (env : Env) (s : State)
    (h1 : ¬ env.gpio_request_rc ADDO_PIN < 0) (h2 : ¬ env.gpio_request_rc ADSK_PIN < 0) :
    hx711_init env s =
      (0, proc_create "weight2" (mod_timer
        (((s.jiffies + env.elapsed (ReadCount env
            { s with owned := ADSK_PIN :: ADDO_PIN :: s.owned,
                     trace := s.trace ++ [GpioEvent.direction_input ADDO_PIN,
                       GpioEvent.direction_output ADSK_PIN 0] }).2.trace.length)
          % 2 ^ env.BITS_PER_LONG + env.HZ) % 2 ^ env.BITS_PER_LONG)
        { (ReadCount env
            { s with owned := ADSK_PIN :: ADDO_PIN :: s.owned,
                     trace := s.trace ++ [GpioEvent.direction_input ADDO_PIN,
                       GpioEvent.direction_output ADSK_PIN 0] }).2 with
          auto_tare_offset := (ReadCount env s).1,
          jiffies := (s.jiffies + env.elapsed (ReadCount env
            { s with owned := ADSK_PIN :: ADDO_PIN :: s.owned,
                     trace := s.trace ++ [GpioEvent.direction_input ADDO_PIN,
                       GpioEvent.direction_output ADSK_PIN 0] }).2.trace.length)
            % 2 ^ env.BITS_PER_LONG })) := by
  have hv := ReadCount_value_reads_d2 env
    { s with owned := ADSK_PIN :: ADDO_PIN :: s.owned,
             trace := s.trace ++ [GpioEvent.direction_input ADDO_PIN,
               GpioEvent.direction_output ADSK_PIN 0] } s rfl
  have hf := ReadCount_frame_d2 env
    { s with owned := ADSK_PIN :: ADDO_PIN :: s.owned,
             trace := s.trace ++ [GpioEvent.direction_input ADDO_PIN,
               GpioEvent.direction_output ADSK_PIN 0] }
  simp only [hx711_init, gpio_request, h1, h2, if_false, gpio_direction_input,
    gpio_direction_output, read_jiffies, List.append_assoc, List.singleton_append, hv,
    hf.2.2.2.1]

/-- What `hx711_init` leaves behind: the value `ReadCount` returned is the tare
offset whatever it is, the timer is armed one interval after the counter value
read, and the /proc entry exists. -/
theorem init_facts_d2 (env : Env) (s : State)
    (h1 : ¬ env.gpio_request_rc ADDO_PIN < 0) (h2 : ¬ env.gpio_request_rc ADSK_PIN < 0) :
    (hx711_init env s).1 = 0
    ∧ (hx711_init env s).2.auto_tare_offset = (ReadCount env s).1
    ∧ (hx711_init env s).2.weight_grams = s.weight_grams
    ∧ (hx711_init env s).2.weight_timer
        = some (((s.jiffies + env.elapsed (hx711_init env s).2.trace.length)
            % 2 ^ env.BITS_PER_LONG + env.HZ) % 2 ^ env.BITS_PER_LONG)
    ∧ (hx711_init env s).2.procfs = "weight2" :: s.procfs := by
  have hf := ReadCount_frame_d2 env
    { s with owned := ADSK_PIN :: ADDO_PIN :: s.owned,
             trace := s.trace ++ [GpioEvent.direction_input ADDO_PIN,
               GpioEvent.direction_output ADSK_PIN 0] }
  rw [init_outcome_d2 env s h1 h2]
  refine ⟨rfl, rfl, ?_, rfl, ?_⟩
  · exact hf.2.1
  · simp only [proc_create, mod_timer]
    rw [hf.2.2.2.2.2]

/-- The read counter after `ReadCount` depends on the state only through the
read counter before it. -/
theorem ReadCount_reads_d2 (env : Env) (s1 s2 : State) (h : s1.reads = s2.reads) :
    (ReadCount env s1).2.reads = (ReadCount env s2).2.reads := by
  rcases stuck_or_ready env ADDO_PIN s1 MAX_WAIT_COUNT with hst | ⟨k, hk, hr⟩
  · have hst2 : stuck_high env ADDO_PIN s2 MAX_WAIT_COUNT := by
      intro j hj
      rw [← h]
      exact hst j hj
    rw [ReadCount_timeout_d2 env s1 hst, ReadCount_timeout_d2 env s2 hst2]
    simp [h]
  · have hr2 : ready_at env ADDO_PIN s2 k := by
      unfold ready_at
      rw [← h]
      exact hr
    rw [ReadCount_ready_d2 env s1 k hk hr.1 hr.2, ReadCount_ready_d2 env s2 k hk hr2.1 hr2.2]
    simp [h]

/-- The read counter after `hx711_init` is the one after its tare acquisition. -/
theorem init_reads_d2 (env : Env) (s : State)
    (h1 : ¬ env.gpio_request_rc ADDO_PIN < 0) (h2 : ¬ env.gpio_request_rc ADSK_PIN < 0) :
    (hx711_init env s).2.reads = (ReadCount env s).2.reads := by
  rw [init_outcome_d2 env s h1 h2]
  exact ReadCount_reads_d2 env _ s rfl

/-- The value of a successful `ReadCount` on a line that delivers `u`. -/
theorem ReadCount_delivers_d2 (env : Env) (s : State) (k u : Nat) (hk : k < MAX_WAIT_COUNT)
    (hd : delivers env ADDO_PIN s.reads k u) :
    (ReadCount env s).1 = (∑ i in Finset.range 24, (Nat.testBit u i).toNat * 2 ^ i) ^^^ 0x800000
    ∧ (ReadCount env s).2.reads = s.reads + k + 25 := by
  refine ⟨(ReadCount_value_d2 env s k (fun i => Nat.testBit u i) hk ⟨hd.1, hd.2.1⟩ hd.2.2).1, ?_⟩
  rw [ReadCount_ready_d2 env s k hk hd.1 hd.2.1]

/-- The events of a call of `ReadCount` are those of a timeout or those of a
success, for every behaviour of the data line. -/
theorem ReadCount_events_d2 (env : Env) (s : State) :
    (stuck_high env ADDO_PIN s MAX_WAIT_COUNT
      ∧ events_since s (ReadCount env s).2 =
          timeout_events ADDO_PIN ADSK_PIN MAX_WAIT_COUNT
            (env.level ADDO_PIN (s.reads + MAX_WAIT_COUNT)))
    ∨ (∃ k, k < MAX_WAIT_COUNT ∧ ready_at env ADDO_PIN s k
      ∧ events_since s (ReadCount env s).2 =
          success_events ADDO_PIN ADSK_PIN (env.level ADDO_PIN) s.reads k) := by
  rcases stuck_or_ready env ADDO_PIN s MAX_WAIT_COUNT with hst | ⟨k, hk, hr⟩
  · left
    refine ⟨hst, events_since_append _ _ _ ?_⟩
    rw [ReadCount_timeout_d2 env s hst]
  · right
    refine ⟨k, hk, hr, events_since_append _ _ _ ?_⟩
    rw [ReadCount_ready_d2 env s k hk hr.1 hr.2]

/-- Every event of a call of `ReadCount` is on the driver's own two lines. -/
theorem ReadCount_on_lines_d2 (env : Env) (s : State) (e : GpioEvent)
    (he : e ∈ events_since s (ReadCount env s).2) : on_lines ADDO_PIN ADSK_PIN e = true := by
  rcases ReadCount_events_d2 env s with ⟨_, hev⟩ | ⟨k, _, _, hev⟩
  · rw [hev] at he
    exact on_lines_timeout_events _ _ _ _ e he
  · rw [hev] at he
    exact on_lines_success_events _ _ _ _ _ e he

/-- The clock line is low when `ReadCount` returns. -/
theorem ReadCount_clock_low_d2 (env : Env) (s : State) :
    (clock_writes ADSK_PIN (events_since s (ReadCount env s).2)).getLast? = some 0 := by
  rcases ReadCount_events_d2 env s with ⟨_, hev⟩ | ⟨k, _, _, hev⟩
  · rw [hev, clock_writes_timeout_events]
    rfl
  · rw [hev, clock_writes_success_events]
    exact getLast?_pulses_cons 25

/-- The clock writes and the reads of a successful `ReadCount`. -/
theorem ReadCount_success_trace_d2 (env : Env) (s : State) (k : Nat)
    (hk : k < MAX_WAIT_COUNT) (hready : ready_at env ADDO_PIN s k) :
    events_since s (ReadCount env s).2 =
        success_events ADDO_PIN ADSK_PIN (env.level ADDO_PIN) s.reads k
    ∧ clock_writes ADSK_PIN (events_since s (ReadCount env s).2) = 0 :: pulses 25
    ∧ read_count (events_since s (ReadCount env s).2) = (k + 1) + 24
    ∧ (ReadCount env s).2.reads = s.reads + (k + 1) + 24 := by
  have hev : events_since s (ReadCount env s).2 =
      success_events ADDO_PIN ADSK_PIN (env.level ADDO_PIN) s.reads k := by
    apply events_since_append
    rw [ReadCount_ready_d2 env s k hk hready.1 hready.2]
  refine ⟨hev, ?_, ?_, ?_⟩
  · rw [hev, clock_writes_success_events]
  · rw [hev, read_count_success_events]
  · rw [ReadCount_ready_d2 env s k hk hready.1 hready.2]
    show s.reads + k + 25 = s.reads + (k + 1) + 24
    omega

/-- The value `(long)count` for the count a successful `ReadCount` returns. -/
theorem ReadCount_long_d2 (env : Env) (s : State) (k : Nat) (b : Nat → Bool)
    (hw : 32 ≤ env.BITS_PER_LONG) (hk : k < MAX_WAIT_COUNT)
    (hready : ready_at env ADDO_PIN s k)
    (hb : ∀ i, i < 24 → env.level ADDO_PIN (s.reads + k + 1 + i) = b (23 - i)) :
    to_long env.BITS_PER_LONG (ReadCount env s).1
        = (((∑ i in Finset.range 24, (b i).toNat * 2 ^ i) ^^^ 0x800000 : Nat) : Int)
    ∧ 0 ≤ to_long env.BITS_PER_LONG (ReadCount env s).1
    ∧ to_long env.BITS_PER_LONG (ReadCount env s).1 < 2 ^ 24 := by
  have hv := (ReadCount_value_d2 env s k b hk hready hb).1
  have hlt := ReadCount_ready_lt_d2 env s k hk hready
  have hp := two_pow_31_le env.BITS_PER_LONG hw
  have hlong : to_long env.BITS_PER_LONG (ReadCount env s).1 = ((ReadCount env s).1 : Int) :=
    to_long_of_lt _ _ (by omega) (by omega)
  refine ⟨by rw [hlong, hv], by rw [hlong]; omega, ?_⟩
  rw [hlong]
  exact_mod_cast hlt

/-- The callback never changes the tare offset. -/
theorem callback_offset_d2 (env : Env) (s : State) :
    (weight_timer_callback env s).auto_tare_offset = s.auto_tare_offset := by
  have hf := ReadCount_frame_d2 env s
  rcases stuck_or_ready env ADDO_PIN s MAX_WAIT_COUNT with hst | ⟨k, hk, hr⟩
  · rw [callback_timeout_d2 env s hst]
    exact hf.1
  · rw [callback_success_d2 env s k hk hr]
    exact hf.1

/-- A timer expiry never changes the tare offset. -/
theorem fire_offset_d2 (env : Env) (s : State) :
    (timer_fire env s).auto_tare_offset = s.auto_tare_offset := by
  unfold timer_fire
  cases ht : s.weight_timer with
  | none => rfl
  | some t => exact callback_offset_d2 env _

/-- A timer expiry whose acquisition times out, or that finds the timer not
pending, does not change `weight_grams`. -/
theorem fire_timeout_weight_d2 (env : Env) (s : State)
    (hhigh : stuck_high env ADDO_PIN s MAX_WAIT_COUNT) :
    (timer_fire env s).weight_grams = s.weight_grams := by
  cases ht : s.weight_timer with
  | none => simp [timer_fire, ht]
  | some t => exact ((tick_timeout_d2 env s hhigh).2.2 t ht).1

/-- The stored weight after `n` timer expiries. -/
theorem run_ticks_weight_d2 (env : Env) :
    ∀ (n : Nat) (s : State),
      (run_ticks env n s).weight_grams =
        match last_success (tick_samples env n s) with
        | none => s.weight_grams
        | some raw => convert_to_grams env s raw := by
  intro n
  induction n with
  | zero => intro s; rfl
  | succ n ih =>
    intro s
    cases ht : s.weight_timer with
    | none =>
      have hfire : timer_fire env s = s := by simp [timer_fire, ht]
      simp only [run_ticks, tick_samples, ht, hfire]
      exact ih s
    | some t =>
      have hconv : ∀ raw, convert_to_grams env (timer_fire env s) raw
          = convert_to_grams env s raw := by
        intro raw
        unfold convert_to_grams
        rw [fire_offset_d2]
      simp only [run_ticks, tick_samples, ht, last_success]
      rw [ih (timer_fire env s)]
      cases hl : last_success (tick_samples env n (timer_fire env s)) with
      | some r => simp only [hconv]
      | none =>
        simp only []
        rcases stuck_or_ready env ADDO_PIN s MAX_WAIT_COUNT with hst | ⟨k, hk, hr⟩
        · have hfl := first_low_high (env.level ADDO_PIN) MAX_WAIT_COUNT s.reads hst
          simp only [acquired, hfl]
          exact fire_timeout_weight_d2 env s hst
        · have hfl := first_low_low (env.level ADDO_PIN) k MAX_WAIT_COUNT s.reads hk hr.1 hr.2
          have hv := ReadCount_value_reads_d2 env
            { s with weight_timer := none, jiffies := t } s rfl
          simp only [acquired, hfl, hv]
          exact ((tick_success_d2 env s k hk hr).2.2.2 t ht).1

/-- The function `hx711_init` never writes `weight_grams`. -/
theorem init_weight_d2 (env : Env) (s : State) :
    (hx711_init env s).2.weight_grams = s.weight_grams := by
  by_cases h1 : env.gpio_request_rc ADDO_PIN < 0
  · simp [hx711_init, gpio_request, h1]
  · by_cases h2 : env.gpio_request_rc ADSK_PIN < 0
    · simp [hx711_init, gpio_request, h1, h2]
    · exact (init_facts_d2 env s h1 h2).2.2.1

/-- The wait loop of the driver is the parametrized one on its channel. -/
theorem wait_loop_channel_d2 (env : Env) :
    ∀ (fuel wait_count : Nat) (s : State),
      wait_loop env fuel wait_count s = Channel.wait_loop channel2 env fuel wait_count s := by
  intro fuel
  induction fuel with
  | zero => intro wc s; rfl
  | succ f ih =>
    intro wc s
    simp only [wait_loop, Channel.wait_loop, ih]
    rfl

/-- The bit loop of the driver is the parametrized one on its channel. -/
theorem read_bits_channel_d2 (env : Env) :
    ∀ (n Count : Nat) (s : State),
      read_bits env n Count s = Channel.read_bits channel2 env n Count s := by
  intro n
  induction n with
  | zero => intro Count s; rfl
  | succ n ih =>
    intro Count s
    simp only [read_bits, Channel.read_bits, ih]
    rfl

/-- The function `ReadCount` of the driver is the parametrized one on its
channel. -/
theorem ReadCount_channel_d2 (env : Env) (s : State) :
    ReadCount env s = Channel.ReadCount channel2 env s := by
  simp only [ReadCount, Channel.ReadCount, wait_loop_channel_d2, read_bits_channel_d2]
  rfl

/-- The function `convert_to_grams` of the driver is the parametrized one on its
channel. -/
theorem convert_channel_d2 (env : Env) (s : State) (count : Nat) :
    convert_to_grams env s count = Channel.convert_to_grams channel2 env s count := rfl

/-- The callback of the driver is the parametrized one on its channel. -/
theorem callback_channel_d2 (env : Env) (s : State) :
    weight_timer_callback env s = Channel.weight_timer_callback channel2 env s := by
  simp only [weight_timer_callback, Channel.weight_timer_callback, ReadCount_channel_d2]
  rfl

/-- `ReadCount` returns the timeout value exactly when the first
`MAX_WAIT_COUNT` polls all read high. -/
theorem ReadCount_timeout_iff_d2 (env : Env) (s : State) :
    (ReadCount env s).1 = 0xFFFFFFFF ↔ stuck_high env ADDO_PIN s MAX_WAIT_COUNT := by
  constructor
  · intro hv
    rcases stuck_or_ready env ADDO_PIN s MAX_WAIT_COUNT with hst | ⟨k, hk, hr⟩
    · exact hst
    · have hlt := ReadCount_ready_lt_d2 env s k hk hr
      rw [hv] at hlt
      exact absurd hlt (by decide)
  · intro hst
    rw [ReadCount_timeout_d2 env s hst]

/-- A low level among the first `MAX_WAIT_COUNT` polls makes the call succeed
at the first such poll. -/
theorem ReadCount_low_within_d2 (env : Env) (s : State) (j : Nat) (hj : j < MAX_WAIT_COUNT)
    (hlow : env.level ADDO_PIN (s.reads + j) = false) :
    (ReadCount env s).1 ≠ 0xFFFFFFFF
    ∧ (ReadCount env s).1 < 2 ^ 24
    ∧ ∃ k, k ≤ j ∧ ready_at env ADDO_PIN s k
        ∧ events_since s (ReadCount env s).2 =
            success_events ADDO_PIN ADSK_PIN (env.level ADDO_PIN) s.reads k
        ∧ clock_writes ADSK_PIN (events_since s (ReadCount env s).2) = 0 :: pulses 25
        ∧ read_count (events_since s (ReadCount env s).2) = (k + 1) + 24 := by
  rcases stuck_or_ready env ADDO_PIN s MAX_WAIT_COUNT with hst | ⟨k, hk, hr⟩
  · have := hst j hj
    rw [hlow] at this
    exact Bool.noConfusion this
  · have hlt := ReadCount_ready_lt_d2 env s k hk hr
    have hkj : k ≤ j := by
      by_contra hc
      have := hr.1 j (by omega)
      rw [hlow] at this
      exact Bool.noConfusion this
    have htr := ReadCount_success_trace_d2 env s k hk hr
    refine ⟨?_, hlt, k, hkj, hr, htr.1, htr.2.1, htr.2.2.1⟩
    intro hv
    rw [hv] at hlt
    exact absurd hlt (by decide)

/-- A first low level at the poll made with `wait_count = MAX_WAIT_COUNT` comes
too late: the call times out although that poll read low. -/
theorem ReadCount_low_too_late_d2 (env : Env) (s : State)
    (hhigh : stuck_high env ADDO_PIN s MAX_WAIT_COUNT)
    (hlow : env.level ADDO_PIN (s.reads + MAX_WAIT_COUNT) = false) :
    (ReadCount env s).1 = 0xFFFFFFFF
    ∧ events_since s (ReadCount env s).2 =
        GpioEvent.set_value ADSK_PIN 0 ::
          (poll_events ADDO_PIN MAX_WAIT_COUNT ++ [GpioEvent.get_value ADDO_PIN false])
    ∧ clock_writes ADSK_PIN (events_since s (ReadCount env s).2) = [0]
    ∧ read_count (events_since s (ReadCount env s).2) = MAX_WAIT_COUNT + 1 := by
  have h := ReadCount_timeout_facts_d2 env s hhigh
  rw [hlow] at h
  exact ⟨h.1, h.2.1, h.2.2.1, h.2.2.2.2⟩

/-- A successful acquisition of the accumulator `u` returns the offset-binary
form of its two's-complement value. -/
theorem ReadCount_offset_binary_d2 (env : Env) (s : State) (k u : Nat)
    (hk : k < MAX_WAIT_COUNT) (hu : u < 2 ^ 24) (hd : delivers env ADDO_PIN s.reads k u) :
    (ReadCount env s).1 = u ^^^ 0x800000
    ∧ (((ReadCount env s).1 : Nat) : Int) = signed24 u + 2 ^ 23
    ∧ (ReadCount env s).1 < 2 ^ 24
    ∧ (ReadCount env s).1 ≠ 0xFFFFFFFF := by
  have hv := (ReadCount_delivers_d2 env s k u hk hd).1
  rw [← bits_value_eq_sum, bits_value_testBit, Nat.mod_eq_of_lt hu] at hv
  have hlt : (ReadCount env s).1 < 2 ^ 24 := ReadCount_ready_lt_d2 env s k hk ⟨hd.1, hd.2.1⟩
  refine ⟨hv, ?_, hlt, ?_⟩
  · rw [hv]
    exact xor_sign_bit_eq u hu
  · intro h
    rw [h] at hlt
    exact absurd hlt (by decide)

/-- The larger two's-complement value gives the larger count. -/
theorem ReadCount_monotone_d2 (env env' : Env) (s s' : State) (k k' u u' : Nat)
    (hk : k < MAX_WAIT_COUNT) (hu : u < 2 ^ 24) (hd : delivers env ADDO_PIN s.reads k u)
    (hk' : k' < MAX_WAIT_COUNT) (hu' : u' < 2 ^ 24)
    (hd' : delivers env' ADDO_PIN s'.reads k' u') :
    signed24 u < signed24 u' ↔ (ReadCount env s).1 < (ReadCount env' s').1 := by
  have h := (ReadCount_offset_binary_d2 env s k u hk hu hd).2.1
  have h' := (ReadCount_offset_binary_d2 env' s' k' u' hk' hu' hd').2.1
  constructor
  · intro hlt
    have : (((ReadCount env s).1 : Nat) : Int) < (((ReadCount env' s').1 : Nat) : Int) := by omega
    exact_mod_cast this
  · intro hlt
    have : (((ReadCount env s).1 : Nat) : Int) < (((ReadCount env' s').1 : Nat) : Int) := by
      exact_mod_cast hlt
    omega

/-- From the tare in `hx711_init` to the first tick: the weight is the
difference of the two's-complement values over the scale factor. -/
theorem tare_then_tick_d2 (env : Env) (s : State) (k1 k2 t u : Nat)
    (h1 : ¬ env.gpio_request_rc ADDO_PIN < 0) (h2 : ¬ env.gpio_request_rc ADSK_PIN < 0)
    (hw : 32 ≤ env.BITS_PER_LONG)
    (hk1 : k1 < MAX_WAIT_COUNT) (hk2 : k2 < MAX_WAIT_COUNT)
    (ht : t < 2 ^ 24) (hu : u < 2 ^ 24)
    (htare : delivers env ADDO_PIN s.reads k1 t)
    (htick : delivers env ADDO_PIN (s.reads + k1 + 25) k2 u) :
    (hx711_init env s).2.auto_tare_offset = t ^^^ 0x800000
    ∧ convert_to_grams env (hx711_init env s).2 (ReadCount env (hx711_init env s).2).1
        = Int.tdiv (signed24 u - signed24 t) SCALE_FACTOR
    ∧ (timer_fire env (hx711_init env s).2).weight_grams
        = Int.tdiv (signed24 u - signed24 t) SCALE_FACTOR := by
  have hf := init_facts_d2 env s h1 h2
  have hrd := init_reads_d2 env s h1 h2
  have hT := ReadCount_offset_binary_d2 env s k1 t hk1 ht htare
  have hoff : (hx711_init env s).2.auto_tare_offset = t ^^^ 0x800000 := by
    rw [hf.2.1, hT.1]
  have hreads : (hx711_init env s).2.reads = s.reads + k1 + 25 := by
    rw [hrd, (ReadCount_delivers_d2 env s k1 t hk1 htare).2]
  have htick' : delivers env ADDO_PIN (hx711_init env s).2.reads k2 u := by
    rw [hreads]; exact htick
  have hU := ReadCount_offset_binary_d2 env (hx711_init env s).2 k2 u hk2 hu htick'
  have hTlt : t ^^^ 0x800000 < 2 ^ 24 := by rw [← hT.1]; exact hT.2.2.1
  have hconv : convert_to_grams env (hx711_init env s).2 (ReadCount env (hx711_init env s).2).1
      = Int.tdiv (signed24 u - signed24 t) SCALE_FACTOR := by
    unfold convert_to_grams
    rw [hoff, convert_exact_d2 env.BITS_PER_LONG SCALE_FACTOR _ _ hw
      (lt_trans hU.2.2.1 (by decide)) (lt_trans hTlt (by decide))]
    have e1 := hU.2.1
    have e2 := xor_sign_bit_eq t ht
    rw [e1, e2]
    congr 1
    ring
  have hfire := (tick_success_d2 env (hx711_init env s).2 k2 hk2
    ⟨htick'.1, htick'.2.1⟩).2.2.2 _ hf.2.2.2.1
  exact ⟨hoff, hconv, by rw [hfire.1, hconv]⟩

/-- No number of timer expiries changes the tare offset. -/
theorem run_ticks_offset_d2 (env : Env) :
    ∀ (n : Nat) (s : State), (run_ticks env n s).auto_tare_offset = s.auto_tare_offset := by
  intro n
  induction n with
  | zero => intro s; rfl
  | succ n ih =>
    intro s
    simp only [run_ticks]
    rw [ih (timer_fire env s), fire_offset_d2]

/-- A tick that reads the accumulator `u` in a state whose tare offset is the
count of the accumulator `t`. -/
theorem tick_after_tare_d2 (env : Env) (s : State) (k t u : Nat)
    (hw : 32 ≤ env.BITS_PER_LONG) (hk : k < MAX_WAIT_COUNT)
    (ht : t < 2 ^ 24) (hu : u < 2 ^ 24)
    (hoff : s.auto_tare_offset = t ^^^ 0x800000)
    (hd : delivers env ADDO_PIN s.reads k u) :
    convert_to_grams env s (ReadCount env s).1
        = Int.tdiv (signed24 u - signed24 t) SCALE_FACTOR
    ∧ (weight_timer_callback env s).weight_grams
        = Int.tdiv (signed24 u - signed24 t) SCALE_FACTOR
    ∧ (weight_timer_callback env s).auto_tare_offset = t ^^^ 0x800000
    ∧ (∀ e, s.weight_timer = some e →
        (timer_fire env s).weight_grams = Int.tdiv (signed24 u - signed24 t) SCALE_FACTOR
        ∧ (timer_fire env s).auto_tare_offset = t ^^^ 0x800000) := by
  have hU := ReadCount_offset_binary_d2 env s k u hk hu hd
  have hTlt : t ^^^ 0x800000 < 2 ^ 24 := Nat.xor_lt_two_pow ht (by decide)
  have hconv : convert_to_grams env s (ReadCount env s).1
      = Int.tdiv (signed24 u - signed24 t) SCALE_FACTOR := by
    unfold convert_to_grams
    rw [hoff, convert_exact_d2 env.BITS_PER_LONG SCALE_FACTOR _ _ hw
      (lt_trans hU.2.2.1 (by decide)) (lt_trans hTlt (by decide))]
    have e1 := hU.2.1
    have e2 := xor_sign_bit_eq t ht
    rw [e1, e2]
    congr 1
    ring
  have hts := tick_success_d2 env s k hk ⟨hd.1, hd.2.1⟩
  refine ⟨hconv, by rw [hts.1, hconv], by rw [callback_offset_d2, hoff], ?_⟩
  intro e he
  exact ⟨by rw [(hts.2.2.2 e he).1, hconv], by rw [fire_offset_d2, hoff]⟩

/-- Any tick after the tare: `hx711_init` reads the accumulator `t`, `n` timer
expiries follow, and the next tick reads the accumulator `u`. -/
theorem ticks_after_tare_d2 (env : Env) (s : State) (k1 t n k u : Nat)
    (h1 : ¬ env.gpio_request_rc ADDO_PIN < 0) (h2 : ¬ env.gpio_request_rc ADSK_PIN < 0)
    (hw : 32 ≤ env.BITS_PER_LONG)
    (hk1 : k1 < MAX_WAIT_COUNT) (ht : t < 2 ^ 24)
    (htare : delivers env ADDO_PIN s.reads k1 t)
    (hk : k < MAX_WAIT_COUNT) (hu : u < 2 ^ 24)
    (htick : delivers env ADDO_PIN (run_ticks env n (hx711_init env s).2).reads k u) :
    (run_ticks env n (hx711_init env s).2).auto_tare_offset = t ^^^ 0x800000
    ∧ convert_to_grams env (run_ticks env n (hx711_init env s).2)
        (ReadCount env (run_ticks env n (hx711_init env s).2)).1
        = Int.tdiv (signed24 u - signed24 t) SCALE_FACTOR
    ∧ (weight_timer_callback env (run_ticks env n (hx711_init env s).2)).weight_grams
        = Int.tdiv (signed24 u - signed24 t) SCALE_FACTOR
    ∧ (∀ e, (run_ticks env n (hx711_init env s).2).weight_timer = some e →
        (timer_fire env (run_ticks env n (hx711_init env s).2)).weight_grams
          = Int.tdiv (signed24 u - signed24 t) SCALE_FACTOR
        ∧ (timer_fire env (run_ticks env n (hx711_init env s).2)).auto_tare_offset
          = t ^^^ 0x800000) := by
  have hf := init_facts_d2 env s h1 h2
  have hT := ReadCount_offset_binary_d2 env s k1 t hk1 ht htare
  have hoff : (run_ticks env n (hx711_init env s).2).auto_tare_offset = t ^^^ 0x800000 := by
    rw [run_ticks_offset_d2, hf.2.1, hT.1]
  have h := tick_after_tare_d2 env (run_ticks env n (hx711_init env s).2) k t u hw hk ht hu
    hoff htick
  exact ⟨hoff, h.1, h.2.1, h.2.2.2⟩

end Driver2

/-! ## Driver 2 against driver 1 -/

/-- Driver 2's `ReadCount` on a data line that behaves as driver 1's: the same
value and the same state, with the events of the call renamed. -/
theorem ReadCount_subst (env1 env2 : Env) (s : State)
    (h : ∀ n, env2.level Driver2.ADDO_PIN n = env1.level Driver1.ADDO_PIN n) :
    Driver2.ReadCount env2 s =
      ((Driver1.ReadCount env1 s).1,
       { (Driver1.ReadCount env1 s).2 with
           trace := s.trace ++
             (events_since s (Driver1.ReadCount env1 s).2).map GpioEvent.subst }) := by
  have hline : env2.level Driver2.ADDO_PIN = env1.level Driver1.ADDO_PIN := funext h
  rcases stuck_or_ready env1 Driver1.ADDO_PIN s Driver1.MAX_WAIT_COUNT with hst | ⟨k, hk, hr⟩
  · have hst2 : stuck_high env2 Driver2.ADDO_PIN s Driver2.MAX_WAIT_COUNT := by
      intro j hj
      rw [h]
      exact hst j hj
    rw [Driver2.ReadCount_timeout_d2 env2 s hst2, Driver1.ReadCount_timeout_d1 env1 s hst]
    simp only [events_since, List.drop_left, map_subst_timeout_events, h]
    rfl
  · have hr2 : ready_at env2 Driver2.ADDO_PIN s k := by
      unfold ready_at
      simp only [h]
      exact hr
    rw [Driver2.ReadCount_ready_d2 env2 s k hk hr2.1 hr2.2,
      Driver1.ReadCount_ready_d1 env1 s k hk hr.1 hr.2]
    simp only [events_since, List.drop_left, map_subst_success_events, hline]
    rfl

/-- Driver 2's callback on a data line that behaves as driver 1's, with the
same `HZ`, width of `long` and advance of `jiffies`: the state of driver 1's
callback, with the weight computed with the substituted scale factor and the
events of the call renamed. -/
theorem callback_subst (env1 env2 : Env) (s : State)
    (h : ∀ n, env2.level Driver2.ADDO_PIN n = env1.level Driver1.ADDO_PIN n)
    (hHZ : env2.HZ = env1.HZ) (hW : env2.BITS_PER_LONG = env1.BITS_PER_LONG)
    (hE : ∀ n, env2.elapsed n = env1.elapsed n) :
    Driver2.weight_timer_callback env2 s =
      { (Driver1.weight_timer_callback env1 s) with
          weight_grams :=
            if (Driver1.ReadCount env1 s).1 = 0xFFFFFFFF then s.weight_grams
            else Driver1.convert env1.BITS_PER_LONG (subst_scale Driver1.SCALE_FACTOR)
              s.auto_tare_offset (Driver1.ReadCount env1 s).1,
          trace := s.trace ++
            (events_since s (Driver1.weight_timer_callback env1 s)).map GpioEvent.subst } := by
  have hf := Driver1.ReadCount_frame_d1 env1 s
  have hr := ReadCount_subst env1 env2 s h
  have hlen : (s.trace ++ List.map GpioEvent.subst
      (events_since s (Driver1.ReadCount env1 s).2)).length
      = (Driver1.ReadCount env1 s).2.trace.length := by
    rw [List.length_append, List.length_map]
    conv_rhs => rw [Driver1.ReadCount_trace_append_d1 env1 s, List.length_append]
  by_cases hraw : (Driver1.ReadCount env1 s).1 = 0xFFFFFFFF
  · simp only [Driver2.weight_timer_callback, Driver1.weight_timer_callback, hr, hraw, if_true,
      hf.2.1]
  · simp only [Driver2.weight_timer_callback, Driver1.weight_timer_callback, hr, hraw, if_false,
      mod_timer, read_jiffies, Driver2.convert_to_grams, hf.1, hHZ, hW, hE, hlen]
    rfl

/-- Driver 2's callback on a data line that behaves as driver 1's and the same
width of `long`, whatever the tick counter does: every field that does not hold
a time is as in `callback_subst`. -/
theorem callback_subst_untimed (env1 env2 : Env) (s : State)
    (h : ∀ n, env2.level Driver2.ADDO_PIN n = env1.level Driver1.ADDO_PIN n)
    (hW : env2.BITS_PER_LONG = env1.BITS_PER_LONG) :
    (Driver2.weight_timer_callback env2 s).weight_grams
        = (if (Driver1.ReadCount env1 s).1 = 0xFFFFFFFF then s.weight_grams
           else Driver1.convert env1.BITS_PER_LONG (subst_scale Driver1.SCALE_FACTOR)
             s.auto_tare_offset (Driver1.ReadCount env1 s).1)
    ∧ (Driver2.weight_timer_callback env2 s).auto_tare_offset
        = (Driver1.weight_timer_callback env1 s).auto_tare_offset
    ∧ (Driver2.weight_timer_callback env2 s).owned
        = (Driver1.weight_timer_callback env1 s).owned
    ∧ (Driver2.weight_timer_callback env2 s).procfs
        = (Driver1.weight_timer_callback env1 s).procfs
    ∧ (Driver2.weight_timer_callback env2 s).reads
        = (Driver1.weight_timer_callback env1 s).reads
    ∧ (Driver2.weight_timer_callback env2 s).weight_timer.isSome
        = (Driver1.weight_timer_callback env1 s).weight_timer.isSome
    ∧ (Driver2.weight_timer_callback env2 s).trace
        = s.trace ++ (events_since s (Driver1.weight_timer_callback env1 s)).map
            GpioEvent.subst := by
  have hf := Driver1.ReadCount_frame_d1 env1 s
  have hr := ReadCount_subst env1 env2 s h
  by_cases hraw : (Driver1.ReadCount env1 s).1 = 0xFFFFFFFF
  · simp only [Driver2.weight_timer_callback, Driver1.weight_timer_callback, hr, hraw, if_true,
      hf.2.1]
    exact ⟨trivial, trivial, trivial, trivial, trivial, trivial, trivial⟩
  · simp only [Driver2.weight_timer_callback, Driver1.weight_timer_callback, hr, hraw, if_false,
      mod_timer, read_jiffies, Driver2.convert_to_grams, hf.1, hW]
    exact ⟨rfl, trivial, trivial, trivial, trivial, rfl, rfl⟩

/-! ## Module init followed by module exit -/

/-- Driver 1: `hx711_exit` after a successful `hx711_init` leaves the /proc
names as they were before. -/
theorem exit_after_init_procfs_driver1 (env : Env) (s : State)
    (h1 : ¬ env.gpio_request_rc Driver1.ADDO_PIN < 0)
    (h2 : ¬ env.gpio_request_rc Driver1.ADSK_PIN < 0) :
    (Driver1.hx711_exit (Driver1.hx711_init env s).2).procfs = s.procfs := by
  have hf := (Driver1.init_facts_d1 env s h1 h2).2.2.2.2
  simp only [Driver1.hx711_exit, remove_proc_entry, gpio_free, del_timer, hf]
  exact List.erase_cons_head "weight1" s.procfs

/-- Driver 2: `hx711_exit` after a successful `hx711_init` leaves the entry
"weight2" in place and removes an entry "weight1" instead. -/
theorem exit_after_init_procfs_driver2 (env : Env) (s : State)
    (h1 : ¬ env.gpio_request_rc Driver2.ADDO_PIN < 0)
    (h2 : ¬ env.gpio_request_rc Driver2.ADSK_PIN < 0) :
    (Driver2.hx711_exit (Driver2.hx711_init env s).2).procfs
      = "weight2" :: s.procfs.erase "weight1" := by
  have hf := (Driver2.init_facts_d2 env s h1 h2).2.2.2.2
  have hne : ¬ ("weight2" == "weight1") = true := by decide
  simp only [Driver2.hx711_exit, remove_proc_entry, gpio_free, del_timer, hf]
  exact List.erase_cons_tail hne

/-! ## The claims -/

/-- C1: in both drivers, when the data line reads low for the first time at a
poll `k` within the wait bound and the 24 levels sampled after it are
`b 23, b 22, ..., b 0` in that order, `ReadCount` returns `u XOR 0x800000` with
`u` the sum of `b i * 2 ^ i`: the first sampled bit is the most significant.
An all-low sequence returns `0x800000`, an all-high one `0x7FFFFF`. -/
theorem C1_ReadCount_msb_first_xor :
    (∀ (env : Env) (s : State) (k : Nat) (b : Nat → Bool),
      k < Driver1.MAX_WAIT_COUNT → ready_at env Driver1.ADDO_PIN s k →
      (∀ i, i < 24 → env.level Driver1.ADDO_PIN (s.reads + k + 1 + i) = b (23 - i)) →
      (Driver1.ReadCount env s).1 = (∑ i in Finset.range 24, (b i).toNat * 2 ^ i) ^^^ 0x800000
      ∧ ((∀ i, i < 24 → b i = false) → (Driver1.ReadCount env s).1 = 0x800000)
      ∧ ((∀ i, i < 24 → b i = true) → (Driver1.ReadCount env s).1 = 0x7FFFFF))
    ∧ (∀ (env : Env) (s : State) (k : Nat) (b : Nat → Bool),
      k < Driver2.MAX_WAIT_COUNT → ready_at env Driver2.ADDO_PIN s k →
      (∀ i, i < 24 → env.level Driver2.ADDO_PIN (s.reads + k + 1 + i) = b (23 - i)) →
      (Driver2.ReadCount env s).1 = (∑ i in Finset.range 24, (b i).toNat * 2 ^ i) ^^^ 0x800000
      ∧ ((∀ i, i < 24 → b i = false) → (Driver2.ReadCount env s).1 = 0x800000)
      ∧ ((∀ i, i < 24 → b i = true) → (Driver2.ReadCount env s).1 = 0x7FFFFF)) :=
  ⟨fun env s k b hk hr hb => Driver1.ReadCount_value_d1 env s k b hk hr hb,
   fun env s k b hk hr hb => Driver2.ReadCount_value_d2 env s k b hk hr hb⟩

/-- C1 at a concrete input: the line is high twice, then low, then carries the
frame bits of `0xA5A5A5`; both drivers return `0xA5A5A5 XOR 0x800000 = 0x25A5A5`. -/
theorem C1_ReadCount_msb_first_xor_witness :
    (Driver1.ReadCount (env_of_levels (true :: true :: frame 0xA5A5A5) true 64)
        (State.loaded 0 [])).1 = 0x25A5A5
    ∧ (Driver2.ReadCount (env_of_levels (true :: true :: frame 0xA5A5A5) true 64)
        (State.loaded 0 [])).1 = 0x25A5A5 := by
  have h1 := (C1_ReadCount_msb_first_xor.1
    (env_of_levels (true :: true :: frame 0xA5A5A5) true 64) (State.loaded 0 []) 2
    (fun i => Nat.testBit 0xA5A5A5 i) (by decide) (by decide) (by decide)).1
  have h2 := (C1_ReadCount_msb_first_xor.2
    (env_of_levels (true :: true :: frame 0xA5A5A5) true 64) (State.loaded 0 []) 2
    (fun i => Nat.testBit 0xA5A5A5 i) (by decide) (by decide) (by decide)).1
  have e : (∑ i in Finset.range 24, (Nat.testBit 0xA5A5A5 i).toNat * 2 ^ i) ^^^ 0x800000
      = 0x25A5A5 := by decide
  rw [e] at h1 h2
  exact ⟨h1, h2⟩

/-- C2: in both drivers, when each of the first `MAX_WAIT_COUNT = 1000000` polls
of the data line reads high, `ReadCount` returns `0xFFFFFFFF`; the events of the
call are the initial write of low to the clock followed only by polls of the
wait loop, so the clock writes of the call are `[0]`, the clock is never written
a value other than 0, and all `1000001` reads are polls of the wait loop (no
data bit is sampled). -/
theorem C2_ReadCount_timeout_no_pulse :
    (Driver1.MAX_WAIT_COUNT = 1000000 ∧ Driver2.MAX_WAIT_COUNT = 1000000)
    ∧ (∀ (env : Env) (s : State), stuck_high env Driver1.ADDO_PIN s Driver1.MAX_WAIT_COUNT →
      (Driver1.ReadCount env s).1 = 0xFFFFFFFF
      ∧ events_since s (Driver1.ReadCount env s).2 =
          GpioEvent.set_value Driver1.ADSK_PIN 0 ::
            (poll_events Driver1.ADDO_PIN 1000000 ++
              [GpioEvent.get_value Driver1.ADDO_PIN
                (env.level Driver1.ADDO_PIN (s.reads + 1000000))])
      ∧ clock_writes Driver1.ADSK_PIN (events_since s (Driver1.ReadCount env s).2) = [0]
      ∧ (∀ v, GpioEvent.set_value Driver1.ADSK_PIN v ∈
            events_since s (Driver1.ReadCount env s).2 → v = 0)
      ∧ read_count (events_since s (Driver1.ReadCount env s).2) = 1000001)
    ∧ (∀ (env : Env) (s : State), stuck_high env Driver2.ADDO_PIN s Driver2.MAX_WAIT_COUNT →
      (Driver2.ReadCount env s).1 = 0xFFFFFFFF
      ∧ events_since s (Driver2.ReadCount env s).2 =
          GpioEvent.set_value Driver2.ADSK_PIN 0 ::
            (poll_events Driver2.ADDO_PIN 1000000 ++
              [GpioEvent.get_value Driver2.ADDO_PIN
                (env.level Driver2.ADDO_PIN (s.reads + 1000000))])
      ∧ clock_writes Driver2.ADSK_PIN (events_since s (Driver2.ReadCount env s).2) = [0]
      ∧ (∀ v, GpioEvent.set_value Driver2.ADSK_PIN v ∈
            events_since s (Driver2.ReadCount env s).2 → v = 0)
      ∧ read_count (events_since s (Driver2.ReadCount env s).2) = 1000001) :=
  ⟨⟨rfl, rfl⟩,
   fun env s h => Driver1.ReadCount_timeout_facts_d1 env s h,
   fun env s h => Driver2.ReadCount_timeout_facts_d2 env s h⟩

/-- C2 at a concrete input: a data line that reads high at every read. -/
theorem C2_ReadCount_timeout_no_pulse_witness :
    stuck_high (env_of_levels [] true 64) Driver1.ADDO_PIN (State.loaded 0 [])
        Driver1.MAX_WAIT_COUNT
    ∧ (Driver1.ReadCount (env_of_levels [] true 64) (State.loaded 0 [])).1 = 0xFFFFFFFF
    ∧ clock_writes Driver1.ADSK_PIN (events_since (State.loaded 0 [])
        (Driver1.ReadCount (env_of_levels [] true 64) (State.loaded 0 [])).2) = [0]
    ∧ (Driver2.ReadCount (env_of_levels [] true 64) (State.loaded 0 [])).1 = 0xFFFFFFFF
    ∧ clock_writes Driver2.ADSK_PIN (events_since (State.loaded 0 [])
        (Driver2.ReadCount (env_of_levels [] true 64) (State.loaded 0 [])).2) = [0] :=
  have h1 := C2_ReadCount_timeout_no_pulse.2.1 (env_of_levels [] true 64) (State.loaded 0 [])
    (fun _ _ => rfl)
  have h2 := C2_ReadCount_timeout_no_pulse.2.2 (env_of_levels [] true 64) (State.loaded 0 [])
    (fun _ _ => rfl)
  ⟨fun _ _ => rfl, h1.1, h1.2.2.1, h2.1, h2.2.2.1⟩

/-- C3 (counterexample): with the tare offset `0xFFFFFFFF`, which `hx711_init`
stores when the tare acquisition times out, and a `long` of 32 bits, the cast
`(long)offset` is `-1` and the conversion of the raw count 6708 gives
`(6708 + 1) / 421 = 15` in driver 1 and `6709 / 426 = 15` in driver 2, where
`(raw - offset) / S` rounded toward zero is `-10201806`, respectively
`-10082067`.  The input is reached by the code: on a 32-bit kernel, when the
chip answers only after the tare has timed out and the first tick reads the
accumulator `0x801A34`, `hx711_init` leaves the offset `0xFFFFFFFF` and the
tick stores 15 grams.  On a 64-bit `long` a raw count of `421 * 2 ^ 31` against
offset 0 gives `-2 ^ 31` after the narrowing to `int`, not `2 ^ 31`. -/
theorem C3_convert_wraps_outside_range :
    (Driver1.convert 32 421 0xFFFFFFFF 6708 = 15
      ∧ Int.tdiv ((6708 : Int) - 0xFFFFFFFF) 421 = -10201806)
    ∧ (Driver2.convert 32 426 0xFFFFFFFF 6708 = 15
      ∧ Int.tdiv ((6708 : Int) - 0xFFFFFFFF) 426 = -10082067)
    ∧ ((Driver1.hx711_init (env_after_failed_tare 0x801A34 32)
          (State.loaded 0 [])).2.auto_tare_offset = 0xFFFFFFFF
      ∧ (Driver1.ReadCount (env_after_failed_tare 0x801A34 32)
          (Driver1.hx711_init (env_after_failed_tare 0x801A34 32) (State.loaded 0 [])).2).1
          = 6708
      ∧ (Driver1.timer_fire (env_after_failed_tare 0x801A34 32)
          (Driver1.hx711_init (env_after_failed_tare 0x801A34 32)
            (State.loaded 0 [])).2).weight_grams = 15)
    ∧ (Driver1.convert 64 421 0 (421 * 2 ^ 31) = -(2 ^ 31)
      ∧ Int.tdiv ((((421 * 2 ^ 31 : Nat)) : Int) - 0) 421 = 2 ^ 31) := by
  have hst : stuck_high (env_after_failed_tare 0x801A34 32) Driver1.ADDO_PIN
      (State.loaded 0 []) Driver1.MAX_WAIT_COUNT := by
    intro j hj
    have hj' : j < 1000000 := hj
    show (if 0 + j < 1000001 then true else (frame 0x801A34).getD (0 + j - 1000001) true) = true
    rw [if_pos (by omega)]
  have hf := Driver1.init_facts_d1 (env_after_failed_tare 0x801A34 32) (State.loaded 0 [])
    (by decide) (by decide)
  have hrd := Driver1.init_reads_d1 (env_after_failed_tare 0x801A34 32) (State.loaded 0 [])
    (by decide) (by decide)
  have hto := Driver1.ReadCount_timeout_d1 (env_after_failed_tare 0x801A34 32)
    (State.loaded 0 []) hst
  have hoff : (Driver1.hx711_init (env_after_failed_tare 0x801A34 32)
      (State.loaded 0 [])).2.auto_tare_offset = 0xFFFFFFFF := by
    rw [hf.2.1, hto]
  have hreads : (Driver1.hx711_init (env_after_failed_tare 0x801A34 32)
      (State.loaded 0 [])).2.reads = 1000001 := by
    rw [hrd, hto]
    rfl
  have hd : delivers (env_after_failed_tare 0x801A34 32) Driver1.ADDO_PIN
      (Driver1.hx711_init (env_after_failed_tare 0x801A34 32) (State.loaded 0 [])).2.reads
      0 0x801A34 := by
    rw [hreads]
    decide
  have hv := (Driver1.ReadCount_offset_binary_d1 (env_after_failed_tare 0x801A34 32)
    (Driver1.hx711_init (env_after_failed_tare 0x801A34 32) (State.loaded 0 [])).2
    0 0x801A34 (by decide) (by decide) hd).1
  have hraw : (Driver1.ReadCount (env_after_failed_tare 0x801A34 32)
      (Driver1.hx711_init (env_after_failed_tare 0x801A34 32) (State.loaded 0 [])).2).1
      = 6708 := by
    rw [hv]
    decide
  have hfire := ((Driver1.tick_success_d1 (env_after_failed_tare 0x801A34 32)
    (Driver1.hx711_init (env_after_failed_tare 0x801A34 32) (State.loaded 0 [])).2
    0 (by decide) ⟨hd.1, hd.2.1⟩).2.2.2 _ hf.2.2.2.1).1
  have hw : (Driver1.timer_fire (env_after_failed_tare 0x801A34 32)
      (Driver1.hx711_init (env_after_failed_tare 0x801A34 32)
        (State.loaded 0 [])).2).weight_grams = 15 := by
    rw [hfire, hraw]
    unfold Driver1.convert_to_grams
    rw [hoff]
    decide
  exact ⟨by decide, by decide, ⟨hoff, hraw, hw⟩, by decide⟩

/-- C3 (amended): in both drivers, for every width `w ≥ 32` of `long`, every
non-zero scale factor `S` and every raw count and tare offset that fit a `long`,
with a quotient that fits an `int` (as it does whenever both counts are below
`2 ^ 31`, which every 24-bit sample is), the conversion returns
`(raw - offset) / S` rounded toward zero: the magnitude of the result is the
floor of `|raw - offset| / |S|`.  `convert_to_grams` is this with `S = 421` in
driver 1 and `S = 426` in driver 2.  For instance `convert(1000, 200, 4) = 200`
and `convert(199, 200, 4) = 0`, where rounding toward minus infinity would give
`-1`. -/
theorem C3_convert_truncates_toward_zero (w : Nat) (S : Int) (offset raw : Nat)
    (hw : 32 ≤ w) (hS : S ≠ 0) (hraw : raw < 2 ^ (w - 1)) (hoffset : offset < 2 ^ (w - 1))
    (hfit : -(2 ^ 31 : Int) ≤ Int.tdiv ((raw : Int) - (offset : Int)) S
      ∧ Int.tdiv ((raw : Int) - (offset : Int)) S < (2 ^ 31 : Int)) :
    (Driver1.convert w S offset raw = Int.tdiv ((raw : Int) - (offset : Int)) S
      ∧ S.natAbs * (Driver1.convert w S offset raw).natAbs ≤ ((raw : Int) - (offset : Int)).natAbs
      ∧ ((raw : Int) - (offset : Int)).natAbs
          < S.natAbs * ((Driver1.convert w S offset raw).natAbs + 1)
      ∧ (∀ (env : Env) (s : State), env.BITS_PER_LONG = w → s.auto_tare_offset = offset →
          -(2 ^ 31 : Int) ≤ Int.tdiv ((raw : Int) - (offset : Int)) 421 →
          Int.tdiv ((raw : Int) - (offset : Int)) 421 < (2 ^ 31 : Int) →
          Driver1.convert_to_grams env s raw = Int.tdiv ((raw : Int) - (offset : Int)) 421))
    ∧ (Driver2.convert w S offset raw = Int.tdiv ((raw : Int) - (offset : Int)) S
      ∧ S.natAbs * (Driver2.convert w S offset raw).natAbs ≤ ((raw : Int) - (offset : Int)).natAbs
      ∧ ((raw : Int) - (offset : Int)).natAbs
          < S.natAbs * ((Driver2.convert w S offset raw).natAbs + 1)
      ∧ (∀ (env : Env) (s : State), env.BITS_PER_LONG = w → s.auto_tare_offset = offset →
          -(2 ^ 31 : Int) ≤ Int.tdiv ((raw : Int) - (offset : Int)) 426 →
          Int.tdiv ((raw : Int) - (offset : Int)) 426 < (2 ^ 31 : Int) →
          Driver2.convert_to_grams env s raw = Int.tdiv ((raw : Int) - (offset : Int)) 426))
    ∧ (∀ (r o : Nat) (d : Int), r < 2 ^ 31 → o < 2 ^ 31 →
        r < 2 ^ (w - 1) ∧ o < 2 ^ (w - 1)
        ∧ -(2 ^ 31 : Int) ≤ Int.tdiv ((r : Int) - (o : Int)) d
        ∧ Int.tdiv ((r : Int) - (o : Int)) d < (2 ^ 31 : Int))
    ∧ (Driver1.convert w 4 200 1000 = 200 ∧ Driver1.convert w 4 200 199 = 0
      ∧ Driver2.convert w 4 200 1000 = 200 ∧ Driver2.convert w 4 200 199 = 0
      ∧ Int.fdiv (199 - 200) 4 = -1) := by
  have h1 := Driver1.convert_general_d1 w S offset raw hw hraw hoffset hfit
  have h2 := Driver2.convert_general_d2 w S offset raw hw hraw hoffset hfit
  have hm := tdiv_magnitude ((raw : Int) - (offset : Int)) S hS
  have hp := two_pow_31_le w hw
  refine ⟨⟨h1, ?_, ?_, ?_⟩, ⟨h2, ?_, ?_, ?_⟩, ?_, ?_, ?_, ?_, ?_, ?_⟩
  · rw [h1]; exact hm.1
  · rw [h1]; exact hm.2
  · intro env s hbits hoff hlo hhi
    unfold Driver1.convert_to_grams
    rw [hbits, hoff]
    exact Driver1.convert_general_d1 w Driver1.SCALE_FACTOR offset raw hw hraw hoffset ⟨hlo, hhi⟩
  · rw [h2]; exact hm.1
  · rw [h2]; exact hm.2
  · intro env s hbits hoff hlo hhi
    unfold Driver2.convert_to_grams
    rw [hbits, hoff]
    exact Driver2.convert_general_d2 w Driver2.SCALE_FACTOR offset raw hw hraw hoffset ⟨hlo, hhi⟩
  · intro r o d hr ho
    have hf := tdiv_fits_int ((r : Int) - (o : Int)) d (by omega) (by omega)
    exact ⟨by omega, by omega, hf.1, hf.2⟩
  · rw [Driver1.convert_exact_d1 w 4 200 1000 hw (by decide) (by decide)]; decide
  · rw [Driver1.convert_exact_d1 w 4 200 199 hw (by decide) (by decide)]; decide
  · rw [Driver2.convert_exact_d2 w 4 200 1000 hw (by decide) (by decide)]; decide
  · rw [Driver2.convert_exact_d2 w 4 200 199 hw (by decide) (by decide)]; decide
  · decide

/-- C3 (amended) at a concrete input: a 64-bit `long`, scale factor 421, offset 4660 and
raw count 4000, a negative difference: `(4000 - 4660) / 421 = -1`, not `-2`. -/
theorem C3_convert_truncates_toward_zero_witness :
    Driver1.convert 64 421 4660 4000 = -1 ∧ Driver2.convert 64 421 4660 4000 = -1
    ∧ Int.fdiv (4000 - 4660) 421 = -2 := by
  have h := C3_convert_truncates_toward_zero 64 421 4660 4000 (by decide) (by decide)
    (by decide) (by decide) (by decide)
  refine ⟨?_, ?_, by decide⟩
  · rw [h.1.1]; decide
  · rw [h.2.1.1]; decide

/-- C4: in both drivers and for every state before a tick.  If the acquisition
succeeds (the line is first low at a poll `k < MAX_WAIT_COUNT`), the callback
stores `weight_grams = convert_to_grams(raw)` for the raw count `ReadCount`
returned, reads `jiffies` once `ReadCount` has returned and arms the timer for
`jiffies + HZ`, an `unsigned long` sum: one interval after the value read, as it
stands when the sum does not wrap.  After the expiry `t` of a pending timer the
timer is pending again, one interval after the value read in that tick.  If the
acquisition times out, the callback leaves `weight_grams` and the timer as they
were; after the expiry of a pending timer the timer is no longer pending, so no
further tick is scheduled. -/
theorem C4_tick_updates_or_halts :
    (∀ (env : Env) (s : State) (k : Nat), k < Driver1.MAX_WAIT_COUNT →
      ready_at env Driver1.ADDO_PIN s k →
      (Driver1.weight_timer_callback env s).weight_grams
          = Driver1.convert_to_grams env s (Driver1.ReadCount env s).1
      ∧ (Driver1.weight_timer_callback env s).jiffies
          = (s.jiffies + env.elapsed (Driver1.ReadCount env s).2.trace.length)
              % 2 ^ env.BITS_PER_LONG
      ∧ (Driver1.weight_timer_callback env s).weight_timer
          = some (((Driver1.weight_timer_callback env s).jiffies + env.HZ) % 2 ^ env.BITS_PER_LONG)
      ∧ (s.jiffies + env.elapsed (Driver1.ReadCount env s).2.trace.length + env.HZ
            < 2 ^ env.BITS_PER_LONG →
          (Driver1.weight_timer_callback env s).weight_timer
            = some (s.jiffies + env.elapsed (Driver1.ReadCount env s).2.trace.length + env.HZ))
      ∧ (∀ t, s.weight_timer = some t →
          (Driver1.timer_fire env s).weight_grams
              = Driver1.convert_to_grams env s (Driver1.ReadCount env s).1
          ∧ (Driver1.timer_fire env s).jiffies
              = (t + env.elapsed (Driver1.ReadCount env s).2.trace.length) % 2 ^ env.BITS_PER_LONG
          ∧ (Driver1.timer_fire env s).weight_timer
              = some (((Driver1.timer_fire env s).jiffies + env.HZ) % 2 ^ env.BITS_PER_LONG)
          ∧ (t + env.elapsed (Driver1.ReadCount env s).2.trace.length + env.HZ
                < 2 ^ env.BITS_PER_LONG →
              (Driver1.timer_fire env s).weight_timer
                = some (t + env.elapsed (Driver1.ReadCount env s).2.trace.length + env.HZ))))
    ∧ (∀ (env : Env) (s : State), stuck_high env Driver1.ADDO_PIN s Driver1.MAX_WAIT_COUNT →
      (Driver1.weight_timer_callback env s).weight_grams = s.weight_grams
      ∧ (Driver1.weight_timer_callback env s).weight_timer = s.weight_timer
      ∧ (∀ t, s.weight_timer = some t →
          (Driver1.timer_fire env s).weight_grams = s.weight_grams
          ∧ (Driver1.timer_fire env s).weight_timer = none))
    ∧ (∀ (env : Env) (s : State) (k : Nat), k < Driver2.MAX_WAIT_COUNT →
      ready_at env Driver2.ADDO_PIN s k →
      (Driver2.weight_timer_callback env s).weight_grams
          = Driver2.convert_to_grams env s (Driver2.ReadCount env s).1
      ∧ (Driver2.weight_timer_callback env s).jiffies
          = (s.jiffies + env.elapsed (Driver2.ReadCount env s).2.trace.length)
              % 2 ^ env.BITS_PER_LONG
      ∧ (Driver2.weight_timer_callback env s).weight_timer
          = some (((Driver2.weight_timer_callback env s).jiffies + env.HZ) % 2 ^ env.BITS_PER_LONG)
      ∧ (s.jiffies + env.elapsed (Driver2.ReadCount env s).2.trace.length + env.HZ
            < 2 ^ env.BITS_PER_LONG →
          (Driver2.weight_timer_callback env s).weight_timer
            = some (s.jiffies + env.elapsed (Driver2.ReadCount env s).2.trace.length + env.HZ))
      ∧ (∀ t, s.weight_timer = some t →
          (Driver2.timer_fire env s).weight_grams
              = Driver2.convert_to_grams env s (Driver2.ReadCount env s).1
          ∧ (Driver2.timer_fire env s).jiffies
              = (t + env.elapsed (Driver2.ReadCount env s).2.trace.length) % 2 ^ env.BITS_PER_LONG
          ∧ (Driver2.timer_fire env s).weight_timer
              = some (((Driver2.timer_fire env s).jiffies + env.HZ) % 2 ^ env.BITS_PER_LONG)
          ∧ (t + env.elapsed (Driver2.ReadCount env s).2.trace.length + env.HZ
                < 2 ^ env.BITS_PER_LONG →
              (Driver2.timer_fire env s).weight_timer
                = some (t + env.elapsed (Driver2.ReadCount env s).2.trace.length + env.HZ))))
    ∧ (∀ (env : Env) (s : State), stuck_high env Driver2.ADDO_PIN s Driver2.MAX_WAIT_COUNT →
      (Driver2.weight_timer_callback env s).weight_grams = s.weight_grams
      ∧ (Driver2.weight_timer_callback env s).weight_timer = s.weight_timer
      ∧ (∀ t, s.weight_timer = some t →
          (Driver2.timer_fire env s).weight_grams = s.weight_grams
          ∧ (Driver2.timer_fire env s).weight_timer = none)) := by
  refine ⟨?_, fun env s h => Driver1.tick_timeout_d1 env s h, ?_,
    fun env s h => Driver2.tick_timeout_d2 env s h⟩
  · intro env s k hk hr
    have h := Driver1.tick_success_d1 env s k hk hr
    refine ⟨h.1, h.2.1, by rw [h.2.2.1, h.2.1], ?_, ?_⟩
    · intro hlt
      have hlt0 := Nat.lt_of_le_of_lt (Nat.le_add_right _ env.HZ) hlt
      rw [h.2.2.1, Nat.mod_eq_of_lt hlt0, Nat.mod_eq_of_lt hlt]
    · intro t ht
      have hf := h.2.2.2 t ht
      refine ⟨hf.1, hf.2.1, by rw [hf.2.2, hf.2.1], ?_⟩
      intro hlt
      have hlt0 := Nat.lt_of_le_of_lt (Nat.le_add_right _ env.HZ) hlt
      rw [hf.2.2, Nat.mod_eq_of_lt hlt0, Nat.mod_eq_of_lt hlt]
  · intro env s k hk hr
    have h := Driver2.tick_success_d2 env s k hk hr
    refine ⟨h.1, h.2.1, by rw [h.2.2.1, h.2.1], ?_, ?_⟩
    · intro hlt
      have hlt0 := Nat.lt_of_le_of_lt (Nat.le_add_right _ env.HZ) hlt
      rw [h.2.2.1, Nat.mod_eq_of_lt hlt0, Nat.mod_eq_of_lt hlt]
    · intro t ht
      have hf := h.2.2.2 t ht
      refine ⟨hf.1, hf.2.1, by rw [hf.2.2, hf.2.1], ?_⟩
      intro hlt
      have hlt0 := Nat.lt_of_le_of_lt (Nat.le_add_right _ env.HZ) hlt
      rw [hf.2.2, Nat.mod_eq_of_lt hlt0, Nat.mod_eq_of_lt hlt]

/-- C4 at concrete inputs: from a state with 7 grams stored and the timer
pending for tick 150, a tick that reads the accumulator `0x801A34` stores
4 grams and re-arms the timer for tick 250, or for tick 253 when 3 ticks elapse
before `jiffies` is read; a tick on a line stuck high keeps 7 grams and leaves
the timer not pending.  With `jiffies` 50 ticks before the wrap of a 64-bit
counter and `HZ = 100`, the callback arms the timer for tick 50. -/
theorem C4_tick_updates_or_halts_witness :
    ((Driver1.timer_fire (env_of_levels (frame 0x801A34) true 64) State.sampling).weight_grams = 4
      ∧ (Driver1.timer_fire (env_of_levels (frame 0x801A34) true 64) State.sampling).weight_timer
          = some 250)
    ∧ ((Driver1.timer_fire (env_of_levels [] true 64) State.sampling).weight_grams = 7
      ∧ (Driver1.timer_fire (env_of_levels [] true 64) State.sampling).weight_timer = none)
    ∧ ((Driver2.timer_fire (env_of_levels (frame 0x801A34) true 64) State.sampling).weight_grams = 4
      ∧ (Driver2.timer_fire (env_of_levels (frame 0x801A34) true 64) State.sampling).weight_timer
          = some 250)
    ∧ ((Driver2.timer_fire (env_of_levels [] true 64) State.sampling).weight_grams = 7
      ∧ (Driver2.timer_fire (env_of_levels [] true 64) State.sampling).weight_timer = none)
    ∧ (Driver1.timer_fire (env_with_clock (frame 0x801A34) true 64 3)
        State.sampling).weight_timer = some 253
    ∧ (Driver1.weight_timer_callback (env_of_levels (frame 0x801A34) true 64)
        State.near_wrap).weight_timer = some 50
    ∧ (Driver2.weight_timer_callback (env_of_levels (frame 0x801A34) true 64)
        State.near_wrap).weight_timer = some 50 := by
  have a1 := (C4_tick_updates_or_halts.1 (env_of_levels (frame 0x801A34) true 64)
    State.sampling 0 (by decide) (by decide)).2.2.2.2 150 rfl
  have b1 := (C4_tick_updates_or_halts.2.1 (env_of_levels [] true 64)
    State.sampling (fun _ _ => rfl)).2.2 150 rfl
  have a2 := (C4_tick_updates_or_halts.2.2.1 (env_of_levels (frame 0x801A34) true 64)
    State.sampling 0 (by decide) (by decide)).2.2.2.2 150 rfl
  have b2 := (C4_tick_updates_or_halts.2.2.2 (env_of_levels [] true 64)
    State.sampling (fun _ _ => rfl)).2.2 150 rfl
  have a3 := (C4_tick_updates_or_halts.1 (env_with_clock (frame 0x801A34) true 64 3)
    State.sampling 0 (by decide) (by decide)).2.2.2.2 150 rfl
  have w1 := (C4_tick_updates_or_halts.1 (env_of_levels (frame 0x801A34) true 64)
    State.near_wrap 0 (by decide) (by decide))
  have w2 := (C4_tick_updates_or_halts.2.2.1 (env_of_levels (frame 0x801A34) true 64)
    State.near_wrap 0 (by decide) (by decide))
  have e1 : Driver1.convert_to_grams (env_of_levels (frame 0x801A34) true 64) State.sampling
      (Driver1.ReadCount (env_of_levels (frame 0x801A34) true 64) State.sampling).1 = 4 := by
    decide
  have e2 : Driver2.convert_to_grams (env_of_levels (frame 0x801A34) true 64) State.sampling
      (Driver2.ReadCount (env_of_levels (frame 0x801A34) true 64) State.sampling).1 = 4 := by
    decide
  refine ⟨⟨by rw [a1.1, e1], a1.2.2.2 (by decide)⟩, b1, ⟨by rw [a2.1, e2], a2.2.2.2 (by decide)⟩,
    b2, a3.2.2.2 (by decide), ?_, ?_⟩
  · rw [w1.2.2.1, w1.2.1]
    rfl
  · rw [w2.2.2.1, w2.2.1]
    rfl

/-- C5 (the code at the failing input): with both `gpio_request` calls
succeeding and the data line high at every read, `hx711_init` of either driver
returns 0, stores the timeout value `0xFFFFFFFF` as `auto_tare_offset`, arms the
timer and creates its /proc entry. -/
theorem C5_init_ignores_tare_timeout :
    stuck_high (env_of_levels [] true 64) Driver1.ADDO_PIN (State.loaded 0 [])
        Driver1.MAX_WAIT_COUNT
    ∧ ((Driver1.hx711_init (env_of_levels [] true 64) (State.loaded 0 [])).1 = 0
      ∧ (Driver1.hx711_init (env_of_levels [] true 64) (State.loaded 0 [])).2.auto_tare_offset
          = 0xFFFFFFFF
      ∧ (Driver1.hx711_init (env_of_levels [] true 64) (State.loaded 0 [])).2.weight_timer
          = some 100
      ∧ (Driver1.hx711_init (env_of_levels [] true 64) (State.loaded 0 [])).2.procfs
          = ["weight1"])
    ∧ stuck_high (env_of_levels [] true 64) Driver2.ADDO_PIN (State.loaded 0 [])
        Driver2.MAX_WAIT_COUNT
    ∧ ((Driver2.hx711_init (env_of_levels [] true 64) (State.loaded 0 [])).1 = 0
      ∧ (Driver2.hx711_init (env_of_levels [] true 64) (State.loaded 0 [])).2.auto_tare_offset
          = 0xFFFFFFFF
      ∧ (Driver2.hx711_init (env_of_levels [] true 64) (State.loaded 0 [])).2.weight_timer
          = some 100
      ∧ (Driver2.hx711_init (env_of_levels [] true 64) (State.loaded 0 [])).2.procfs
          = ["weight2"]) := by
  have f1 := Driver1.init_facts_d1 (env_of_levels [] true 64) (State.loaded 0 [])
    (by decide) (by decide)
  have f2 := Driver2.init_facts_d2 (env_of_levels [] true 64) (State.loaded 0 [])
    (by decide) (by decide)
  have r1 := Driver1.ReadCount_timeout_d1 (env_of_levels [] true 64) (State.loaded 0 [])
    (fun _ _ => rfl)
  have r2 := Driver2.ReadCount_timeout_d2 (env_of_levels [] true 64) (State.loaded 0 [])
    (fun _ _ => rfl)
  rw [r1] at f1
  rw [r2] at f2
  exact ⟨fun _ _ => rfl, ⟨f1.1, f1.2.1, f1.2.2.2.1, f1.2.2.2.2⟩,
    fun _ _ => rfl, ⟨f2.1, f2.2.1, f2.2.2.2.1, f2.2.2.2.2⟩⟩

/-- C6: end to end on driver 1, whose scale factor is 421.  When both
`gpio_request` calls succeed, the data line delivers the accumulator `0x801234`
to the tare acquisition of `hx711_init` and `0x801A34` to the acquisition of the
first tick, `hx711_init` returns 0 with `auto_tare_offset = 0x1234 = 4660`, and
after the first tick `weight_grams = (6708 - 4660) / 421 = 4`. -/
theorem C6_end_to_end_driver1 (env : Env) (s : State) (k1 k2 : Nat)
    (hreq1 : 0 ≤ env.gpio_request_rc Driver1.ADDO_PIN)
    (hreq2 : 0 ≤ env.gpio_request_rc Driver1.ADSK_PIN)
    (hw : 32 ≤ env.BITS_PER_LONG)
    (hk1 : k1 < Driver1.MAX_WAIT_COUNT) (hk2 : k2 < Driver1.MAX_WAIT_COUNT)
    (htare : delivers env Driver1.ADDO_PIN s.reads k1 0x801234)
    (htick : delivers env Driver1.ADDO_PIN (s.reads + k1 + 25) k2 0x801A34) :
    Driver1.SCALE_FACTOR = 421
    ∧ (Driver1.hx711_init env s).1 = 0
    ∧ (Driver1.hx711_init env s).2.auto_tare_offset = 4660
    ∧ (Driver1.timer_fire env (Driver1.hx711_init env s).2).weight_grams = 4 := by
  have h1 : ¬ env.gpio_request_rc Driver1.ADDO_PIN < 0 := by omega
  have h2 : ¬ env.gpio_request_rc Driver1.ADSK_PIN < 0 := by omega
  have hf := Driver1.init_facts_d1 env s h1 h2
  have hrd := Driver1.init_reads_d1 env s h1 h2
  have ht := Driver1.ReadCount_delivers_d1 env s k1 0x801234 hk1 htare
  have e1 : (∑ i in Finset.range 24, (Nat.testBit 0x801234 i).toNat * 2 ^ i) ^^^ 0x800000
      = 4660 := by decide
  have hoff : (Driver1.hx711_init env s).2.auto_tare_offset = 4660 := by
    rw [hf.2.1, ht.1, e1]
  have hreads : (Driver1.hx711_init env s).2.reads = s.reads + k1 + 25 := by
    rw [hrd, ht.2]
  have htick' : delivers env Driver1.ADDO_PIN (Driver1.hx711_init env s).2.reads k2 0x801A34 := by
    rw [hreads]; exact htick
  have hv := Driver1.ReadCount_delivers_d1 env (Driver1.hx711_init env s).2 k2 0x801A34 hk2 htick'
  have e2 : (∑ i in Finset.range 24, (Nat.testBit 0x801A34 i).toNat * 2 ^ i) ^^^ 0x800000
      = 6708 := by decide
  have hfire := (Driver1.tick_success_d1 env (Driver1.hx711_init env s).2 k2 hk2
    ⟨htick'.1, htick'.2.1⟩).2.2.2 _ hf.2.2.2.1
  refine ⟨rfl, hf.1, hoff, ?_⟩
  rw [hfire.1, hv.1, e2]
  unfold Driver1.convert_to_grams
  rw [hoff, Driver1.convert_exact_d1 env.BITS_PER_LONG Driver1.SCALE_FACTOR 4660 6708 hw
    (by decide) (by decide)]
  decide

/-- C6 at the concrete scenario: the line carries the frame of `0x801234` and
then the frame of `0x801A34`, on a 64-bit kernel. -/
theorem C6_end_to_end_driver1_witness :
    (Driver1.hx711_init (env_of_levels (frame 0x801234 ++ frame 0x801A34) true 64)
        (State.loaded 0 [])).2.auto_tare_offset = 4660
    ∧ (Driver1.timer_fire (env_of_levels (frame 0x801234 ++ frame 0x801A34) true 64)
        (Driver1.hx711_init (env_of_levels (frame 0x801234 ++ frame 0x801A34) true 64)
          (State.loaded 0 [])).2).weight_grams = 4 :=
  have h := C6_end_to_end_driver1 (env_of_levels (frame 0x801234 ++ frame 0x801A34) true 64)
    (State.loaded 0 []) 0 0 (by decide) (by decide) (by decide) (by decide) (by decide)
    (by decide) (by decide)
  ⟨h.2.2.1, h.2.2.2⟩

/-- C7 (counterexample): for the accumulator `u = 0x000000` the count returned
is `0x800000` and `(long)count` is `+8388608` at both widths of `long`, in both
drivers; the two's-complement value of the 24-bit pattern `0x800000` is
`-8388608`, and `8388608` is above `2 ^ 23 - 1`.  It is not the most negative
sample either: `u = 0xFFFFFF` gives `8388607` and `u = 0x800000` gives `0`. -/
theorem C7_sample_not_sign_extended :
    (Driver1.ReadCount (env_of_levels (frame 0) true 64) (State.loaded 0 [])).1 = 0x800000
    ∧ to_long 64 (Driver1.ReadCount (env_of_levels (frame 0) true 64) (State.loaded 0 [])).1
        = 8388608
    ∧ to_long 32 (Driver1.ReadCount (env_of_levels (frame 0) true 32) (State.loaded 0 [])).1
        = 8388608
    ∧ to_long 64 (Driver2.ReadCount (env_of_levels (frame 0) true 64) (State.loaded 0 [])).1
        = 8388608
    ∧ signed24 (0 ^^^ 0x800000) = -8388608
    ∧ ¬ (to_long 64 (Driver1.ReadCount (env_of_levels (frame 0) true 64)
          (State.loaded 0 [])).1 ≤ 2 ^ 23 - 1)
    ∧ to_long 64 (Driver1.ReadCount (env_of_levels (frame 0xFFFFFF) true 64)
          (State.loaded 0 [])).1 = 8388607
    ∧ to_long 64 (Driver1.ReadCount (env_of_levels (frame 0x800000) true 64)
          (State.loaded 0 [])).1 = 0 := by
  decide

/-- C7 (amended): in both drivers, for a `long` of at least 32 bits and every
24-bit accumulator `u` clocked in by a successful acquisition, the value
`(long)count` that `convert_to_grams` subtracts the offset from is the unsigned
value of the 24-bit pattern `u XOR 0x800000`, without sign extension; it lies in
`[0, 2 ^ 24 - 1]`, is smallest (0) for `u = 0x800000` and largest
(`2 ^ 24 - 1`) for `u = 0x7FFFFF`. -/
theorem C7_sample_is_unsigned_pattern :
    (∀ (env : Env) (s : State) (k u : Nat) (b : Nat → Bool), 32 ≤ env.BITS_PER_LONG →
      k < Driver1.MAX_WAIT_COUNT → ready_at env Driver1.ADDO_PIN s k →
      (∀ i, i < 24 → env.level Driver1.ADDO_PIN (s.reads + k + 1 + i) = b (23 - i)) →
      u = ∑ i in Finset.range 24, (b i).toNat * 2 ^ i →
      to_long env.BITS_PER_LONG (Driver1.ReadCount env s).1 = ((u ^^^ 0x800000 : Nat) : Int)
      ∧ 0 ≤ to_long env.BITS_PER_LONG (Driver1.ReadCount env s).1
      ∧ to_long env.BITS_PER_LONG (Driver1.ReadCount env s).1 ≤ 2 ^ 24 - 1
      ∧ (u = 0x800000 → to_long env.BITS_PER_LONG (Driver1.ReadCount env s).1 = 0)
      ∧ (u = 0x7FFFFF → to_long env.BITS_PER_LONG (Driver1.ReadCount env s).1 = 2 ^ 24 - 1))
    ∧ (∀ (env : Env) (s : State) (k u : Nat) (b : Nat → Bool), 32 ≤ env.BITS_PER_LONG →
      k < Driver2.MAX_WAIT_COUNT → ready_at env Driver2.ADDO_PIN s k →
      (∀ i, i < 24 → env.level Driver2.ADDO_PIN (s.reads + k + 1 + i) = b (23 - i)) →
      u = ∑ i in Finset.range 24, (b i).toNat * 2 ^ i →
      to_long env.BITS_PER_LONG (Driver2.ReadCount env s).1 = ((u ^^^ 0x800000 : Nat) : Int)
      ∧ 0 ≤ to_long env.BITS_PER_LONG (Driver2.ReadCount env s).1
      ∧ to_long env.BITS_PER_LONG (Driver2.ReadCount env s).1 ≤ 2 ^ 24 - 1
      ∧ (u = 0x800000 → to_long env.BITS_PER_LONG (Driver2.ReadCount env s).1 = 0)
      ∧ (u = 0x7FFFFF → to_long env.BITS_PER_LONG (Driver2.ReadCount env s).1 = 2 ^ 24 - 1)) := by
  constructor
  · intro env s k u b hw hk hr hb hu
    have h := Driver1.ReadCount_long_d1 env s k b hw hk hr hb
    rw [← hu] at h
    refine ⟨h.1, h.2.1, by have := h.2.2; omega, ?_, ?_⟩
    · intro h0
      rw [h.1, h0]
      decide
    · intro h1
      rw [h.1, h1]
      decide
  · intro env s k u b hw hk hr hb hu
    have h := Driver2.ReadCount_long_d2 env s k b hw hk hr hb
    rw [← hu] at h
    refine ⟨h.1, h.2.1, by have := h.2.2; omega, ?_, ?_⟩
    · intro h0
      rw [h.1, h0]
      decide
    · intro h1
      rw [h.1, h1]
      decide

/-- C7 (amended) at a concrete input: the accumulator `0x800000`, the chip's
most negative output, gives `(long)count = 0` in both drivers. -/
theorem C7_sample_is_unsigned_pattern_witness :
    to_long 64 (Driver1.ReadCount (env_of_levels (frame 0x800000) true 64)
        (State.loaded 0 [])).1 = 0
    ∧ to_long 64 (Driver2.ReadCount (env_of_levels (frame 0x800000) true 64)
        (State.loaded 0 [])).1 = 0 :=
  ⟨(C7_sample_is_unsigned_pattern.1 (env_of_levels (frame 0x800000) true 64)
      (State.loaded 0 []) 0 0x800000 (fun i => Nat.testBit 0x800000 i) (by decide) (by decide)
      (by decide) (by decide) (by decide)).2.2.2.1 rfl,
   (C7_sample_is_unsigned_pattern.2 (env_of_levels (frame 0x800000) true 64)
      (State.loaded 0 []) 0 0x800000 (fun i => Nat.testBit 0x800000 i) (by decide) (by decide)
      (by decide) (by decide) (by decide)).2.2.2.1 rfl⟩

/-- C8: for every behaviour of the lines and every state, each event of a call
of driver 1's `ReadCount` is on its own lines: a read is of pin 2, a write is to
pin 3, no direction is changed, and no event is on pin 17 or 27.  Each event of
a call of driver 2's `ReadCount` is on its own lines: a read is of pin 17, a
write is to pin 27, and no event is on pin 2 or 3. -/
theorem C8_ReadCount_stays_on_own_lines :
    (∀ (env : Env) (s : State) (e : GpioEvent),
      e ∈ events_since s (Driver1.ReadCount env s).2 →
      on_lines 2 3 e = true
      ∧ (∀ p l, e = GpioEvent.get_value p l → p = 2)
      ∧ (∀ p v, e = GpioEvent.set_value p v → p = 3)
      ∧ (∀ p, e.pin? = some p → p = 2 ∨ p = 3)
      ∧ e.pin? ≠ some Driver2.ADDO_PIN ∧ e.pin? ≠ some Driver2.ADSK_PIN)
    ∧ (∀ (env : Env) (s : State) (e : GpioEvent),
      e ∈ events_since s (Driver2.ReadCount env s).2 →
      on_lines 17 27 e = true
      ∧ (∀ p l, e = GpioEvent.get_value p l → p = 17)
      ∧ (∀ p v, e = GpioEvent.set_value p v → p = 27)
      ∧ (∀ p, e.pin? = some p → p = 17 ∨ p = 27)
      ∧ e.pin? ≠ some Driver1.ADDO_PIN ∧ e.pin? ≠ some Driver1.ADSK_PIN) := by
  constructor
  · intro env s e he
    have ho := Driver1.ReadCount_on_lines_d1 env s e he
    have hp := on_lines_pin Driver1.ADDO_PIN Driver1.ADSK_PIN e ho
    refine ⟨ho, hp.1, hp.2.1, hp.2.2, ?_, ?_⟩
    · intro h
      rcases hp.2.2 _ h with h' | h' <;> exact absurd h' (by decide)
    · intro h
      rcases hp.2.2 _ h with h' | h' <;> exact absurd h' (by decide)
  · intro env s e he
    have ho := Driver2.ReadCount_on_lines_d2 env s e he
    have hp := on_lines_pin Driver2.ADDO_PIN Driver2.ADSK_PIN e ho
    refine ⟨ho, hp.1, hp.2.1, hp.2.2, ?_, ?_⟩
    · intro h
      rcases hp.2.2 _ h with h' | h' <;> exact absurd h' (by decide)
    · intro h
      rcases hp.2.2 _ h with h' | h' <;> exact absurd h' (by decide)

set_option maxRecDepth 8000 in
/-- C8 at a concrete input: the first event of an acquisition, the write of low
to the clock, is on pin 3 in driver 1 and on pin 27 in driver 2. -/
theorem C8_ReadCount_stays_on_own_lines_witness :
    (GpioEvent.set_value 3 0 ∈ events_since (State.loaded 0 [])
        (Driver1.ReadCount (env_of_levels (frame 0) true 64) (State.loaded 0 [])).2
      ∧ (GpioEvent.set_value 3 0).pin? ≠ some Driver2.ADSK_PIN)
    ∧ (GpioEvent.set_value 27 0 ∈ events_since (State.loaded 0 [])
        (Driver2.ReadCount (env_of_levels (frame 0) true 64) (State.loaded 0 [])).2
      ∧ (GpioEvent.set_value 27 0).pin? ≠ some Driver1.ADSK_PIN) :=
  ⟨⟨by decide, (C8_ReadCount_stays_on_own_lines.1 (env_of_levels (frame 0) true 64)
      (State.loaded 0 []) (GpioEvent.set_value 3 0) (by decide)).2.2.2.2.2⟩,
   ⟨by decide, (C8_ReadCount_stays_on_own_lines.2 (env_of_levels (frame 0) true 64)
      (State.loaded 0 []) (GpioEvent.set_value 27 0) (by decide)).2.2.2.2.2⟩⟩

/-- C9: in both drivers, for every behaviour of the environment and every number
`n` of timer expiries after `hx711_init` on a freshly loaded module, the value
`weight_proc_show` prints is `convert_to_grams` of the most recent raw sample a
tick acquired successfully, and 0 when no tick has succeeded; the same holds
from any state with the stored value in place of 0; and a tick whose
acquisition times out leaves the value as it was. -/
theorem C9_shown_weight_is_last_good_sample :
    ((∀ (env : Env) (jiffies : Nat) (procfs : List String) (n : Nat),
      Driver1.weight_proc_show
          (Driver1.run_ticks env n (Driver1.hx711_init env (State.loaded jiffies procfs)).2)
        = match last_success
            (Driver1.tick_samples env n (Driver1.hx711_init env (State.loaded jiffies procfs)).2) with
          | none => 0
          | some raw =>
            Driver1.convert_to_grams env (Driver1.hx711_init env (State.loaded jiffies procfs)).2 raw)
    ∧ (∀ (env : Env) (n : Nat) (s : State),
      Driver1.weight_proc_show (Driver1.run_ticks env n s)
        = match last_success (Driver1.tick_samples env n s) with
          | none => Driver1.weight_proc_show s
          | some raw => Driver1.convert_to_grams env s raw)
    ∧ (∀ (env : Env) (s : State), stuck_high env Driver1.ADDO_PIN s Driver1.MAX_WAIT_COUNT →
      Driver1.weight_proc_show (Driver1.weight_timer_callback env s) = Driver1.weight_proc_show s
      ∧ Driver1.weight_proc_show (Driver1.timer_fire env s) = Driver1.weight_proc_show s))
    ∧ ((∀ (env : Env) (jiffies : Nat) (procfs : List String) (n : Nat),
      Driver2.weight_proc_show
          (Driver2.run_ticks env n (Driver2.hx711_init env (State.loaded jiffies procfs)).2)
        = match last_success
            (Driver2.tick_samples env n (Driver2.hx711_init env (State.loaded jiffies procfs)).2) with
          | none => 0
          | some raw =>
            Driver2.convert_to_grams env (Driver2.hx711_init env (State.loaded jiffies procfs)).2 raw)
    ∧ (∀ (env : Env) (n : Nat) (s : State),
      Driver2.weight_proc_show (Driver2.run_ticks env n s)
        = match last_success (Driver2.tick_samples env n s) with
          | none => Driver2.weight_proc_show s
          | some raw => Driver2.convert_to_grams env s raw)
    ∧ (∀ (env : Env) (s : State), stuck_high env Driver2.ADDO_PIN s Driver2.MAX_WAIT_COUNT →
      Driver2.weight_proc_show (Driver2.weight_timer_callback env s) = Driver2.weight_proc_show s
      ∧ Driver2.weight_proc_show (Driver2.timer_fire env s) = Driver2.weight_proc_show s)) := by
  refine ⟨⟨?_, ?_, ?_⟩, ⟨?_, ?_, ?_⟩⟩
  · intro env jiffies procfs n
    have h := Driver1.run_ticks_weight_d1 env n (Driver1.hx711_init env (State.loaded jiffies procfs)).2
    have h0 : (Driver1.hx711_init env (State.loaded jiffies procfs)).2.weight_grams = 0 :=
      Driver1.init_weight_d1 env (State.loaded jiffies procfs)
    rw [h0] at h
    exact h
  · intro env n s
    exact Driver1.run_ticks_weight_d1 env n s
  · intro env s hst
    exact ⟨(Driver1.tick_timeout_d1 env s hst).1, Driver1.fire_timeout_weight_d1 env s hst⟩
  · intro env jiffies procfs n
    have h := Driver2.run_ticks_weight_d2 env n (Driver2.hx711_init env (State.loaded jiffies procfs)).2
    have h0 : (Driver2.hx711_init env (State.loaded jiffies procfs)).2.weight_grams = 0 :=
      Driver2.init_weight_d2 env (State.loaded jiffies procfs)
    rw [h0] at h
    exact h
  · intro env n s
    exact Driver2.run_ticks_weight_d2 env n s
  · intro env s hst
    exact ⟨(Driver2.tick_timeout_d2 env s hst).1, Driver2.fire_timeout_weight_d2 env s hst⟩

/-- C9 at concrete inputs: with 7 grams stored, a tick on a line stuck high
still shows 7; after `hx711_init` on the frame of `0x801234` and one tick on the
frame of `0x801A34` the only sample is 6708 and 4 grams are shown. -/
theorem C9_shown_weight_is_last_good_sample_witness :
    Driver1.weight_proc_show (Driver1.timer_fire (env_of_levels [] true 64) State.sampling) = 7
    ∧ Driver2.weight_proc_show (Driver2.timer_fire (env_of_levels [] true 64) State.sampling) = 7
    ∧ Driver1.tick_samples (env_of_levels (frame 0x801234 ++ frame 0x801A34) true 64) 1
        (Driver1.hx711_init (env_of_levels (frame 0x801234 ++ frame 0x801A34) true 64)
          (State.loaded 0 [])).2 = [some 6708]
    ∧ Driver1.weight_proc_show
        (Driver1.run_ticks (env_of_levels (frame 0x801234 ++ frame 0x801A34) true 64) 1
          (Driver1.hx711_init (env_of_levels (frame 0x801234 ++ frame 0x801A34) true 64)
            (State.loaded 0 [])).2) = 4 := by
  have h1 := (C9_shown_weight_is_last_good_sample.1.2.2 (env_of_levels [] true 64)
    State.sampling (fun _ _ => rfl)).2
  have h2 := (C9_shown_weight_is_last_good_sample.2.2.2 (env_of_levels [] true 64)
    State.sampling (fun _ _ => rfl)).2
  have h3 := C9_shown_weight_is_last_good_sample.1.1
    (env_of_levels (frame 0x801234 ++ frame 0x801A34) true 64) 0 [] 1
  have e : Driver1.tick_samples (env_of_levels (frame 0x801234 ++ frame 0x801A34) true 64) 1
      (Driver1.hx711_init (env_of_levels (frame 0x801234 ++ frame 0x801A34) true 64)
        (State.loaded 0 [])).2 = [some 6708] := by decide
  rw [e] at h3
  refine ⟨h1, h2, e, ?_⟩
  rw [h3]
  decide

/-- C10: in both drivers, for every behaviour of the data line the last value
`ReadCount` writes to the clock line is 0, on success and on timeout alike.  On
success (first low at poll `k` within the bound) the events of the call are the
initial write of low, the `k + 1` polls of the ready wait, 24 data clock cycles
that sample one bit each, and one more pulse; the clock writes are one 0
followed by 25 times `1, 0`; the reads are the `k + 1` polls and 24 samples. -/
theorem C10_clock_low_and_25_pulses :
    (pulses 25 = List.flatten (List.replicate 25 [1, 0])
      ∧ ∀ (addo adsk : Nat) (line : Nat → Bool) (start : Nat),
          read_count (bit_events addo adsk line 24 start) = 24)
    ∧ ((∀ (env : Env) (s : State),
      (clock_writes 3 (events_since s (Driver1.ReadCount env s).2)).getLast? = some 0)
    ∧ (∀ (env : Env) (s : State) (k : Nat), k < Driver1.MAX_WAIT_COUNT →
      ready_at env Driver1.ADDO_PIN s k →
      events_since s (Driver1.ReadCount env s).2 =
          GpioEvent.set_value 3 0 :: (poll_events 2 k ++
            (GpioEvent.get_value 2 false ::
              (bit_events 2 3 (env.level 2) 24 (s.reads + k + 1) ++
                [GpioEvent.set_value 3 1, GpioEvent.udelay 1, GpioEvent.set_value 3 0])))
      ∧ clock_writes 3 (events_since s (Driver1.ReadCount env s).2) = 0 :: pulses 25
      ∧ read_count (events_since s (Driver1.ReadCount env s).2) = (k + 1) + 24
      ∧ (Driver1.ReadCount env s).2.reads = s.reads + (k + 1) + 24))
    ∧ ((∀ (env : Env) (s : State),
      (clock_writes 27 (events_since s (Driver2.ReadCount env s).2)).getLast? = some 0)
    ∧ (∀ (env : Env) (s : State) (k : Nat), k < Driver2.MAX_WAIT_COUNT →
      ready_at env Driver2.ADDO_PIN s k →
      events_since s (Driver2.ReadCount env s).2 =
          GpioEvent.set_value 27 0 :: (poll_events 17 k ++
            (GpioEvent.get_value 17 false ::
              (bit_events 17 27 (env.level 17) 24 (s.reads + k + 1) ++
                [GpioEvent.set_value 27 1, GpioEvent.udelay 1, GpioEvent.set_value 27 0])))
      ∧ clock_writes 27 (events_since s (Driver2.ReadCount env s).2) = 0 :: pulses 25
      ∧ read_count (events_since s (Driver2.ReadCount env s).2) = (k + 1) + 24
      ∧ (Driver2.ReadCount env s).2.reads = s.reads + (k + 1) + 24)) :=
  ⟨⟨by decide, fun addo adsk line start => read_count_bit_events addo adsk line 24 start⟩,
   ⟨fun env s => Driver1.ReadCount_clock_low_d1 env s,
    fun env s k hk hr => Driver1.ReadCount_success_trace_d1 env s k hk hr⟩,
   ⟨fun env s => Driver2.ReadCount_clock_low_d2 env s,
    fun env s k hk hr => Driver2.ReadCount_success_trace_d2 env s k hk hr⟩⟩

/-- C10 at a concrete input: the line is high twice, then low, then carries the
frame bits of `0xA5A5A5`; the call makes 27 reads and its clock writes are one 0
and 25 pulses, in both drivers. -/
theorem C10_clock_low_and_25_pulses_witness :
    (clock_writes 3 (events_since (State.loaded 0 [])
        (Driver1.ReadCount (env_of_levels (true :: true :: frame 0xA5A5A5) true 64)
          (State.loaded 0 [])).2) = 0 :: pulses 25
      ∧ read_count (events_since (State.loaded 0 [])
        (Driver1.ReadCount (env_of_levels (true :: true :: frame 0xA5A5A5) true 64)
          (State.loaded 0 [])).2) = 27)
    ∧ (clock_writes 27 (events_since (State.loaded 0 [])
        (Driver2.ReadCount (env_of_levels (true :: true :: frame 0xA5A5A5) true 64)
          (State.loaded 0 [])).2) = 0 :: pulses 25
      ∧ read_count (events_since (State.loaded 0 [])
        (Driver2.ReadCount (env_of_levels (true :: true :: frame 0xA5A5A5) true 64)
          (State.loaded 0 [])).2) = 27) :=
  have h1 := C10_clock_low_and_25_pulses.2.1.2
    (env_of_levels (true :: true :: frame 0xA5A5A5) true 64) (State.loaded 0 []) 2
    (by decide) (by decide)
  have h2 := C10_clock_low_and_25_pulses.2.2.2
    (env_of_levels (true :: true :: frame 0xA5A5A5) true 64) (State.loaded 0 []) 2
    (by decide) (by decide)
  ⟨⟨h1.2.1, h1.2.2.1⟩, ⟨h2.2.1, h2.2.2.1⟩⟩

/-- C11: the two drivers are one algorithm on different constants.  Both are
the parametrized channel, driver 1 on the constants (2, 3, 421) and driver 2 on
those constants after the substitution 2 to 17, 3 to 27, 421 to 426, for
`ReadCount`, `convert_to_grams` and `weight_timer_callback`, on every
environment and state.  Hence, on a data line that behaves as driver 1's and
from the same prior state, driver 2's `ReadCount` returns the same value and
leaves the same state with the events of the call renamed, driver 2's
`convert_to_grams` is driver 1's with the scale factor substituted, and driver
2's callback leaves driver 1's state with the weight computed with the
substituted scale factor and the events renamed: the whole state when the two
kernels have the same `HZ` and their tick counters advance alike, and every
field that holds no time whatever the tick counters do. -/
theorem C11_driver2_is_driver1_substituted :
    (subst_channel channel1 = channel2
      ∧ channel1.ADDO_PIN = Driver1.ADDO_PIN ∧ channel1.ADSK_PIN = Driver1.ADSK_PIN
      ∧ channel1.SCALE_FACTOR = Driver1.SCALE_FACTOR
      ∧ channel2.ADDO_PIN = Driver2.ADDO_PIN ∧ channel2.ADSK_PIN = Driver2.ADSK_PIN
      ∧ channel2.SCALE_FACTOR = Driver2.SCALE_FACTOR
      ∧ Driver1.MAX_WAIT_COUNT = Driver2.MAX_WAIT_COUNT)
    ∧ (∀ (env : Env) (s : State),
        Driver1.ReadCount env s = Channel.ReadCount channel1 env s
        ∧ Driver2.ReadCount env s = Channel.ReadCount (subst_channel channel1) env s)
    ∧ (∀ (env : Env) (s : State) (count : Nat),
        Driver1.convert_to_grams env s count = Channel.convert_to_grams channel1 env s count
        ∧ Driver2.convert_to_grams env s count
            = Channel.convert_to_grams (subst_channel channel1) env s count
        ∧ Driver2.convert_to_grams env s count
            = Driver1.convert env.BITS_PER_LONG (subst_scale Driver1.SCALE_FACTOR)
                s.auto_tare_offset count)
    ∧ (∀ (env : Env) (s : State),
        Driver1.weight_timer_callback env s = Channel.weight_timer_callback channel1 env s
        ∧ Driver2.weight_timer_callback env s
            = Channel.weight_timer_callback (subst_channel channel1) env s)
    ∧ (∀ (env1 env2 : Env) (s : State),
        (∀ n, env2.level Driver2.ADDO_PIN n = env1.level Driver1.ADDO_PIN n) →
        (Driver2.ReadCount env2 s).1 = (Driver1.ReadCount env1 s).1
        ∧ (Driver2.ReadCount env2 s).2 =
            { (Driver1.ReadCount env1 s).2 with
                trace := s.trace ++
                  (events_since s (Driver1.ReadCount env1 s).2).map GpioEvent.subst }
        ∧ events_since s (Driver2.ReadCount env2 s).2
            = (events_since s (Driver1.ReadCount env1 s).2).map GpioEvent.subst)
    ∧ (∀ (env1 env2 : Env) (s : State),
        (∀ n, env2.level Driver2.ADDO_PIN n = env1.level Driver1.ADDO_PIN n) →
        env2.HZ = env1.HZ → env2.BITS_PER_LONG = env1.BITS_PER_LONG →
        (∀ n, env2.elapsed n = env1.elapsed n) →
        Driver2.weight_timer_callback env2 s =
            { (Driver1.weight_timer_callback env1 s) with
                weight_grams :=
                  if (Driver1.ReadCount env1 s).1 = 0xFFFFFFFF then s.weight_grams
                  else Driver1.convert env1.BITS_PER_LONG (subst_scale Driver1.SCALE_FACTOR)
                    s.auto_tare_offset (Driver1.ReadCount env1 s).1,
                trace := s.trace ++
                  (events_since s (Driver1.weight_timer_callback env1 s)).map
                    GpioEvent.subst }
        ∧ events_since s (Driver2.weight_timer_callback env2 s)
            = (events_since s (Driver1.weight_timer_callback env1 s)).map GpioEvent.subst)
    ∧ (∀ (env1 env2 : Env) (s : State),
        (∀ n, env2.level Driver2.ADDO_PIN n = env1.level Driver1.ADDO_PIN n) →
        env2.BITS_PER_LONG = env1.BITS_PER_LONG →
        (Driver2.weight_timer_callback env2 s).weight_grams
            = (if (Driver1.ReadCount env1 s).1 = 0xFFFFFFFF then s.weight_grams
               else Driver1.convert env1.BITS_PER_LONG (subst_scale Driver1.SCALE_FACTOR)
                 s.auto_tare_offset (Driver1.ReadCount env1 s).1)
        ∧ (Driver2.weight_timer_callback env2 s).auto_tare_offset
            = (Driver1.weight_timer_callback env1 s).auto_tare_offset
        ∧ (Driver2.weight_timer_callback env2 s).owned
            = (Driver1.weight_timer_callback env1 s).owned
        ∧ (Driver2.weight_timer_callback env2 s).procfs
            = (Driver1.weight_timer_callback env1 s).procfs
        ∧ (Driver2.weight_timer_callback env2 s).reads
            = (Driver1.weight_timer_callback env1 s).reads
        ∧ (Driver2.weight_timer_callback env2 s).weight_timer.isSome
            = (Driver1.weight_timer_callback env1 s).weight_timer.isSome
        ∧ (Driver2.weight_timer_callback env2 s).trace
            = s.trace ++ (events_since s (Driver1.weight_timer_callback env1 s)).map
                GpioEvent.subst) := by
  have hsub : subst_channel channel1 = channel2 := rfl
  refine ⟨⟨hsub, rfl, rfl, rfl, rfl, rfl, rfl, rfl⟩, ?_, ?_, ?_, ?_, ?_,
    fun env1 env2 s h hW => callback_subst_untimed env1 env2 s h hW⟩
  · intro env s
    rw [hsub]
    exact ⟨Driver1.ReadCount_channel_d1 env s, Driver2.ReadCount_channel_d2 env s⟩
  · intro env s count
    rw [hsub]
    exact ⟨Driver1.convert_channel_d1 env s count, Driver2.convert_channel_d2 env s count, rfl⟩
  · intro env s
    rw [hsub]
    exact ⟨Driver1.callback_channel_d1 env s, Driver2.callback_channel_d2 env s⟩
  · intro env1 env2 s h
    have hr := ReadCount_subst env1 env2 s h
    refine ⟨by rw [hr], by rw [hr], ?_⟩
    apply events_since_append
    rw [hr]
  · intro env1 env2 s h hHZ hW hE
    have hc := callback_subst env1 env2 s h hHZ hW hE
    refine ⟨hc, ?_⟩
    apply events_since_append
    rw [hc]

/-- C11 at a concrete input: on a line that is high twice, then low, then
carries the frame bits of `0xA5A5A5`, both drivers return `0x25A5A5` and the
events of driver 2's call are those of driver 1's with the pins renamed. -/
theorem C11_driver2_is_driver1_substituted_witness :
    (Driver2.ReadCount (env_of_levels (true :: true :: frame 0xA5A5A5) true 64)
        (State.loaded 0 [])).1
      = (Driver1.ReadCount (env_of_levels (true :: true :: frame 0xA5A5A5) true 64)
        (State.loaded 0 [])).1
    ∧ events_since (State.loaded 0 [])
        (Driver2.ReadCount (env_of_levels (true :: true :: frame 0xA5A5A5) true 64)
          (State.loaded 0 [])).2
      = (events_since (State.loaded 0 [])
        (Driver1.ReadCount (env_of_levels (true :: true :: frame 0xA5A5A5) true 64)
          (State.loaded 0 [])).2).map GpioEvent.subst
    ∧ events_since State.sampling
        (Driver2.weight_timer_callback (env_of_levels (frame 0x801A34) true 64) State.sampling)
      = (events_since State.sampling
        (Driver1.weight_timer_callback (env_of_levels (frame 0x801A34) true 64)
          State.sampling)).map GpioEvent.subst :=
  have h1 := C11_driver2_is_driver1_substituted.2.2.2.2.1
    (env_of_levels (true :: true :: frame 0xA5A5A5) true 64)
    (env_of_levels (true :: true :: frame 0xA5A5A5) true 64) (State.loaded 0 []) (fun _ => rfl)
  have h2 := C11_driver2_is_driver1_substituted.2.2.2.2.2.1
    (env_of_levels (frame 0x801A34) true 64) (env_of_levels (frame 0x801A34) true 64)
    State.sampling (fun _ => rfl) rfl rfl (fun _ => rfl)
  ⟨h1.1, h1.2.2, h2.2⟩

/-- C12: in both drivers `ReadCount` returns `0xFFFFFFFF` if and only if the
first 1000000 polls of the data line all read high.  When one of them reads low
the call does not time out: it detects the first low poll `k`, clocks out 24
bits with 25 pulses and returns a value below `2 ^ 24`.  When the line is low
for the first time at the 1000001st poll, made with
`wait_count = MAX_WAIT_COUNT`, the call still returns `0xFFFFFFFF`, with that
low read as its last event and no clock pulse. -/
theorem C12_timeout_iff_first_million_polls_high :
    (Driver1.MAX_WAIT_COUNT = 1000000 ∧ Driver2.MAX_WAIT_COUNT = 1000000)
    ∧ ((∀ (env : Env) (s : State),
        (Driver1.ReadCount env s).1 = 0xFFFFFFFF ↔ stuck_high env Driver1.ADDO_PIN s 1000000)
      ∧ (∀ (env : Env) (s : State) (j : Nat), j < 1000000 →
        env.level Driver1.ADDO_PIN (s.reads + j) = false →
        (Driver1.ReadCount env s).1 ≠ 0xFFFFFFFF
        ∧ (Driver1.ReadCount env s).1 < 2 ^ 24
        ∧ ∃ k, k ≤ j ∧ ready_at env Driver1.ADDO_PIN s k
            ∧ events_since s (Driver1.ReadCount env s).2 =
                success_events 2 3 (env.level 2) s.reads k
            ∧ clock_writes 3 (events_since s (Driver1.ReadCount env s).2) = 0 :: pulses 25
            ∧ read_count (events_since s (Driver1.ReadCount env s).2) = (k + 1) + 24)
      ∧ (∀ (env : Env) (s : State), stuck_high env Driver1.ADDO_PIN s 1000000 →
        env.level Driver1.ADDO_PIN (s.reads + 1000000) = false →
        (Driver1.ReadCount env s).1 = 0xFFFFFFFF
        ∧ events_since s (Driver1.ReadCount env s).2 =
            GpioEvent.set_value 3 0 ::
              (poll_events 2 1000000 ++ [GpioEvent.get_value 2 false])
        ∧ clock_writes 3 (events_since s (Driver1.ReadCount env s).2) = [0]
        ∧ read_count (events_since s (Driver1.ReadCount env s).2) = 1000001))
    ∧ ((∀ (env : Env) (s : State),
        (Driver2.ReadCount env s).1 = 0xFFFFFFFF ↔ stuck_high env Driver2.ADDO_PIN s 1000000)
      ∧ (∀ (env : Env) (s : State) (j : Nat), j < 1000000 →
        env.level Driver2.ADDO_PIN (s.reads + j) = false →
        (Driver2.ReadCount env s).1 ≠ 0xFFFFFFFF
        ∧ (Driver2.ReadCount env s).1 < 2 ^ 24
        ∧ ∃ k, k ≤ j ∧ ready_at env Driver2.ADDO_PIN s k
            ∧ events_since s (Driver2.ReadCount env s).2 =
                success_events 17 27 (env.level 17) s.reads k
            ∧ clock_writes 27 (events_since s (Driver2.ReadCount env s).2) = 0 :: pulses 25
            ∧ read_count (events_since s (Driver2.ReadCount env s).2) = (k + 1) + 24)
      ∧ (∀ (env : Env) (s : State), stuck_high env Driver2.ADDO_PIN s 1000000 →
        env.level Driver2.ADDO_PIN (s.reads + 1000000) = false →
        (Driver2.ReadCount env s).1 = 0xFFFFFFFF
        ∧ events_since s (Driver2.ReadCount env s).2 =
            GpioEvent.set_value 27 0 ::
              (poll_events 17 1000000 ++ [GpioEvent.get_value 17 false])
        ∧ clock_writes 27 (events_since s (Driver2.ReadCount env s).2) = [0]
        ∧ read_count (events_since s (Driver2.ReadCount env s).2) = 1000001)) :=
  ⟨⟨rfl, rfl⟩,
   ⟨fun env s => Driver1.ReadCount_timeout_iff_d1 env s,
    fun env s j hj hlow => Driver1.ReadCount_low_within_d1 env s j hj hlow,
    fun env s hst hlow => Driver1.ReadCount_low_too_late_d1 env s hst hlow⟩,
   ⟨fun env s => Driver2.ReadCount_timeout_iff_d2 env s,
    fun env s j hj hlow => Driver2.ReadCount_low_within_d2 env s j hj hlow,
    fun env s hst hlow => Driver2.ReadCount_low_too_late_d2 env s hst hlow⟩⟩

/-- C12 at concrete inputs: a line that is low at its third poll gives a
successful call; a line that is high for 1000000 polls and low from the
1000001st on gives the timeout value in both drivers. -/
theorem C12_timeout_iff_first_million_polls_high_witness :
    (Driver1.ReadCount (env_of_levels (true :: true :: frame 0xA5A5A5) true 64)
        (State.loaded 0 [])).1 ≠ 0xFFFFFFFF
    ∧ (env_low_after 1000000).level Driver1.ADDO_PIN 1000000 = false
    ∧ (Driver1.ReadCount (env_low_after 1000000) (State.loaded 0 [])).1 = 0xFFFFFFFF
    ∧ (Driver2.ReadCount (env_low_after 1000000) (State.loaded 0 [])).1 = 0xFFFFFFFF
    ∧ clock_writes 3 (events_since (State.loaded 0 [])
        (Driver1.ReadCount (env_low_after 1000000) (State.loaded 0 [])).2) = [0] := by
  have hst : ∀ (addo : Nat), stuck_high (env_low_after 1000000) addo (State.loaded 0 [])
      1000000 := by
    intro addo j hj
    show decide (0 + j < 1000000) = true
    exact decide_eq_true (by omega)
  have h1 := (C12_timeout_iff_first_million_polls_high.2.1.2.1
    (env_of_levels (true :: true :: frame 0xA5A5A5) true 64) (State.loaded 0 []) 2
    (by decide) (by decide)).1
  have h2 := C12_timeout_iff_first_million_polls_high.2.1.2.2
    (env_low_after 1000000) (State.loaded 0 []) (hst Driver1.ADDO_PIN) (by decide)
  have h3 := C12_timeout_iff_first_million_polls_high.2.2.2.2
    (env_low_after 1000000) (State.loaded 0 []) (hst Driver2.ADDO_PIN) (by decide)
  exact ⟨h1, by decide, h2.1, h3.1, h2.2.2.1⟩

/-- C13: in both drivers, for every 24-bit accumulator `u` clocked in by a
successful acquisition, with two's-complement value `s(u)` in
`[-2 ^ 23, 2 ^ 23 - 1]`, the count `ReadCount` returns is `u XOR 0x800000`,
equals `s(u) + 2 ^ 23`, is below `2 ^ 24` and is not `0xFFFFFFFF`; the count is
strictly increasing in `s(u)`.  Consequently, on a `long` of at least 32 bits,
when `hx711_init` reads the accumulator `t` at tare, `convert_to_grams` and the
stored weight are `(s(u) - s(t)) / SCALE_FACTOR` truncated toward zero for the
accumulator `u` read on any tick: on the first tick, on the tick that follows
any number `n` of timer expiries, and in every state whose tare offset is the
count of `t`; no callback, timer expiry or run of expiries changes the tare
offset. -/
theorem C13_count_is_offset_binary :
    ((∀ (env : Env) (s : State) (k u : Nat), k < Driver1.MAX_WAIT_COUNT → u < 2 ^ 24 →
        delivers env Driver1.ADDO_PIN s.reads k u →
        (-(2 ^ 23 : Int) ≤ signed24 u ∧ signed24 u ≤ 2 ^ 23 - 1)
        ∧ (Driver1.ReadCount env s).1 = u ^^^ 0x800000
        ∧ (((Driver1.ReadCount env s).1 : Nat) : Int) = signed24 u + 2 ^ 23
        ∧ (Driver1.ReadCount env s).1 < 2 ^ 24
        ∧ (Driver1.ReadCount env s).1 ≠ 0xFFFFFFFF)
      ∧ (∀ (env env' : Env) (s s' : State) (k k' u u' : Nat),
        k < Driver1.MAX_WAIT_COUNT → u < 2 ^ 24 → delivers env Driver1.ADDO_PIN s.reads k u →
        k' < Driver1.MAX_WAIT_COUNT → u' < 2 ^ 24 → delivers env' Driver1.ADDO_PIN s'.reads k' u' →
        (signed24 u < signed24 u' ↔ (Driver1.ReadCount env s).1 < (Driver1.ReadCount env' s').1))
      ∧ (∀ (env : Env) (s : State) (k1 k2 t u : Nat),
        0 ≤ env.gpio_request_rc Driver1.ADDO_PIN → 0 ≤ env.gpio_request_rc Driver1.ADSK_PIN →
        32 ≤ env.BITS_PER_LONG →
        k1 < Driver1.MAX_WAIT_COUNT → k2 < Driver1.MAX_WAIT_COUNT → t < 2 ^ 24 → u < 2 ^ 24 →
        delivers env Driver1.ADDO_PIN s.reads k1 t →
        delivers env Driver1.ADDO_PIN (s.reads + k1 + 25) k2 u →
        (Driver1.hx711_init env s).2.auto_tare_offset = t ^^^ 0x800000
        ∧ Driver1.convert_to_grams env (Driver1.hx711_init env s).2
            (Driver1.ReadCount env (Driver1.hx711_init env s).2).1
            = Int.tdiv (signed24 u - signed24 t) Driver1.SCALE_FACTOR
        ∧ (Driver1.timer_fire env (Driver1.hx711_init env s).2).weight_grams
            = Int.tdiv (signed24 u - signed24 t) Driver1.SCALE_FACTOR)
      ∧ (∀ (env : Env) (s : State) (k1 t n k u : Nat),
        0 ≤ env.gpio_request_rc Driver1.ADDO_PIN → 0 ≤ env.gpio_request_rc Driver1.ADSK_PIN →
        32 ≤ env.BITS_PER_LONG →
        k1 < Driver1.MAX_WAIT_COUNT → t < 2 ^ 24 → delivers env Driver1.ADDO_PIN s.reads k1 t →
        k < Driver1.MAX_WAIT_COUNT → u < 2 ^ 24 →
        delivers env Driver1.ADDO_PIN (Driver1.run_ticks env n (Driver1.hx711_init env s).2).reads k u →
        (Driver1.run_ticks env n (Driver1.hx711_init env s).2).auto_tare_offset = t ^^^ 0x800000
        ∧ Driver1.convert_to_grams env (Driver1.run_ticks env n (Driver1.hx711_init env s).2)
            (Driver1.ReadCount env (Driver1.run_ticks env n (Driver1.hx711_init env s).2)).1
            = Int.tdiv (signed24 u - signed24 t) Driver1.SCALE_FACTOR
        ∧ (Driver1.weight_timer_callback env
              (Driver1.run_ticks env n (Driver1.hx711_init env s).2)).weight_grams
            = Int.tdiv (signed24 u - signed24 t) Driver1.SCALE_FACTOR
        ∧ (∀ e, (Driver1.run_ticks env n (Driver1.hx711_init env s).2).weight_timer = some e →
            (Driver1.timer_fire env (Driver1.run_ticks env n (Driver1.hx711_init env s).2)).weight_grams
              = Int.tdiv (signed24 u - signed24 t) Driver1.SCALE_FACTOR
            ∧ (Driver1.timer_fire env
                (Driver1.run_ticks env n (Driver1.hx711_init env s).2)).auto_tare_offset
              = t ^^^ 0x800000))
      ∧ (∀ (env : Env) (s : State) (k t u : Nat), 32 ≤ env.BITS_PER_LONG →
        k < Driver1.MAX_WAIT_COUNT → t < 2 ^ 24 → u < 2 ^ 24 →
        s.auto_tare_offset = t ^^^ 0x800000 → delivers env Driver1.ADDO_PIN s.reads k u →
        Driver1.convert_to_grams env s (Driver1.ReadCount env s).1
            = Int.tdiv (signed24 u - signed24 t) Driver1.SCALE_FACTOR
        ∧ (Driver1.weight_timer_callback env s).weight_grams
            = Int.tdiv (signed24 u - signed24 t) Driver1.SCALE_FACTOR
        ∧ (Driver1.weight_timer_callback env s).auto_tare_offset = t ^^^ 0x800000
        ∧ (∀ e, s.weight_timer = some e →
            (Driver1.timer_fire env s).weight_grams
              = Int.tdiv (signed24 u - signed24 t) Driver1.SCALE_FACTOR
            ∧ (Driver1.timer_fire env s).auto_tare_offset = t ^^^ 0x800000))
      ∧ (∀ (env : Env) (n : Nat) (s : State),
        (Driver1.weight_timer_callback env s).auto_tare_offset = s.auto_tare_offset
        ∧ (Driver1.timer_fire env s).auto_tare_offset = s.auto_tare_offset
        ∧ (Driver1.run_ticks env n s).auto_tare_offset = s.auto_tare_offset))
    ∧ ((∀ (env : Env) (s : State) (k u : Nat), k < Driver2.MAX_WAIT_COUNT → u < 2 ^ 24 →
        delivers env Driver2.ADDO_PIN s.reads k u →
        (-(2 ^ 23 : Int) ≤ signed24 u ∧ signed24 u ≤ 2 ^ 23 - 1)
        ∧ (Driver2.ReadCount env s).1 = u ^^^ 0x800000
        ∧ (((Driver2.ReadCount env s).1 : Nat) : Int) = signed24 u + 2 ^ 23
        ∧ (Driver2.ReadCount env s).1 < 2 ^ 24
        ∧ (Driver2.ReadCount env s).1 ≠ 0xFFFFFFFF)
      ∧ (∀ (env env' : Env) (s s' : State) (k k' u u' : Nat),
        k < Driver2.MAX_WAIT_COUNT → u < 2 ^ 24 → delivers env Driver2.ADDO_PIN s.reads k u →
        k' < Driver2.MAX_WAIT_COUNT → u' < 2 ^ 24 → delivers env' Driver2.ADDO_PIN s'.reads k' u' →
        (signed24 u < signed24 u' ↔ (Driver2.ReadCount env s).1 < (Driver2.ReadCount env' s').1))
      ∧ (∀ (env : Env) (s : State) (k1 k2 t u : Nat),
        0 ≤ env.gpio_request_rc Driver2.ADDO_PIN → 0 ≤ env.gpio_request_rc Driver2.ADSK_PIN →
        32 ≤ env.BITS_PER_LONG →
        k1 < Driver2.MAX_WAIT_COUNT → k2 < Driver2.MAX_WAIT_COUNT → t < 2 ^ 24 → u < 2 ^ 24 →
        delivers env Driver2.ADDO_PIN s.reads k1 t →
        delivers env Driver2.ADDO_PIN (s.reads + k1 + 25) k2 u →
        (Driver2.hx711_init env s).2.auto_tare_offset = t ^^^ 0x800000
        ∧ Driver2.convert_to_grams env (Driver2.hx711_init env s).2
            (Driver2.ReadCount env (Driver2.hx711_init env s).2).1
            = Int.tdiv (signed24 u - signed24 t) Driver2.SCALE_FACTOR
        ∧ (Driver2.timer_fire env (Driver2.hx711_init env s).2).weight_grams
            = Int.tdiv (signed24 u - signed24 t) Driver2.SCALE_FACTOR)
      ∧ (∀ (env : Env) (s : State) (k1 t n k u : Nat),
        0 ≤ env.gpio_request_rc Driver2.ADDO_PIN → 0 ≤ env.gpio_request_rc Driver2.ADSK_PIN →
        32 ≤ env.BITS_PER_LONG →
        k1 < Driver2.MAX_WAIT_COUNT → t < 2 ^ 24 → delivers env Driver2.ADDO_PIN s.reads k1 t →
        k < Driver2.MAX_WAIT_COUNT → u < 2 ^ 24 →
        delivers env Driver2.ADDO_PIN (Driver2.run_ticks env n (Driver2.hx711_init env s).2).reads k u →
        (Driver2.run_ticks env n (Driver2.hx711_init env s).2).auto_tare_offset = t ^^^ 0x800000
        ∧ Driver2.convert_to_grams env (Driver2.run_ticks env n (Driver2.hx711_init env s).2)
            (Driver2.ReadCount env (Driver2.run_ticks env n (Driver2.hx711_init env s).2)).1
            = Int.tdiv (signed24 u - signed24 t) Driver2.SCALE_FACTOR
        ∧ (Driver2.weight_timer_callback env
              (Driver2.run_ticks env n (Driver2.hx711_init env s).2)).weight_grams
            = Int.tdiv (signed24 u - signed24 t) Driver2.SCALE_FACTOR
        ∧ (∀ e, (Driver2.run_ticks env n (Driver2.hx711_init env s).2).weight_timer = some e →
            (Driver2.timer_fire env (Driver2.run_ticks env n (Driver2.hx711_init env s).2)).weight_grams
              = Int.tdiv (signed24 u - signed24 t) Driver2.SCALE_FACTOR
            ∧ (Driver2.timer_fire env
                (Driver2.run_ticks env n (Driver2.hx711_init env s).2)).auto_tare_offset
              = t ^^^ 0x800000))
      ∧ (∀ (env : Env) (s : State) (k t u : Nat), 32 ≤ env.BITS_PER_LONG →
        k < Driver2.MAX_WAIT_COUNT → t < 2 ^ 24 → u < 2 ^ 24 →
        s.auto_tare_offset = t ^^^ 0x800000 → delivers env Driver2.ADDO_PIN s.reads k u →
        Driver2.convert_to_grams env s (Driver2.ReadCount env s).1
            = Int.tdiv (signed24 u - signed24 t) Driver2.SCALE_FACTOR
        ∧ (Driver2.weight_timer_callback env s).weight_grams
            = Int.tdiv (signed24 u - signed24 t) Driver2.SCALE_FACTOR
        ∧ (Driver2.weight_timer_callback env s).auto_tare_offset = t ^^^ 0x800000
        ∧ (∀ e, s.weight_timer = some e →
            (Driver2.timer_fire env s).weight_grams
              = Int.tdiv (signed24 u - signed24 t) Driver2.SCALE_FACTOR
            ∧ (Driver2.timer_fire env s).auto_tare_offset = t ^^^ 0x800000))
      ∧ (∀ (env : Env) (n : Nat) (s : State),
        (Driver2.weight_timer_callback env s).auto_tare_offset = s.auto_tare_offset
        ∧ (Driver2.timer_fire env s).auto_tare_offset = s.auto_tare_offset
        ∧ (Driver2.run_ticks env n s).auto_tare_offset = s.auto_tare_offset)) :=
  ⟨⟨fun env s k u hk hu hd =>
      ⟨signed24_range u, Driver1.ReadCount_offset_binary_d1 env s k u hk hu hd⟩,
    fun env env' s s' k k' u u' hk hu hd hk' hu' hd' =>
      Driver1.ReadCount_monotone_d1 env env' s s' k k' u u' hk hu hd hk' hu' hd',
    fun env s k1 k2 t u h1 h2 hw hk1 hk2 ht hu htare htick =>
      Driver1.tare_then_tick_d1 env s k1 k2 t u (by omega) (by omega) hw hk1 hk2 ht hu htare htick,
    fun env s k1 t n k u h1 h2 hw hk1 ht htare hk hu htick =>
      Driver1.ticks_after_tare_d1 env s k1 t n k u (by omega) (by omega) hw hk1 ht htare hk hu
        htick,
    fun env s k t u hw hk ht hu hoff hd =>
      Driver1.tick_after_tare_d1 env s k t u hw hk ht hu hoff hd,
    fun env n s =>
      ⟨Driver1.callback_offset_d1 env s, Driver1.fire_offset_d1 env s,
        Driver1.run_ticks_offset_d1 env n s⟩⟩,
   ⟨fun env s k u hk hu hd =>
      ⟨signed24_range u, Driver2.ReadCount_offset_binary_d2 env s k u hk hu hd⟩,
    fun env env' s s' k k' u u' hk hu hd hk' hu' hd' =>
      Driver2.ReadCount_monotone_d2 env env' s s' k k' u u' hk hu hd hk' hu' hd',
    fun env s k1 k2 t u h1 h2 hw hk1 hk2 ht hu htare htick =>
      Driver2.tare_then_tick_d2 env s k1 k2 t u (by omega) (by omega) hw hk1 hk2 ht hu htare htick,
    fun env s k1 t n k u h1 h2 hw hk1 ht htare hk hu htick =>
      Driver2.ticks_after_tare_d2 env s k1 t n k u (by omega) (by omega) hw hk1 ht htare hk hu
        htick,
    fun env s k t u hw hk ht hu hoff hd =>
      Driver2.tick_after_tare_d2 env s k t u hw hk ht hu hoff hd,
    fun env n s =>
      ⟨Driver2.callback_offset_d2 env s, Driver2.fire_offset_d2 env s,
        Driver2.run_ticks_offset_d2 env n s⟩⟩⟩

/-- C13 at concrete inputs: the accumulator `0x800000`, of two's-complement
value `-2 ^ 23`, gives the count 0; a tare that reads `0x801234` and a tick that
reads `0x801A34` give `(s(u) - s(t)) / 421 = 2048 / 421 = 4` in driver 1 and
`2048 / 426 = 4` in driver 2; a second tick that reads `0x802234` gives
`4096 / 421 = 9` against the same tare. -/
theorem C13_count_is_offset_binary_witness :
    signed24 0x800000 = -(2 ^ 23 : Int)
    ∧ (Driver1.ReadCount (env_of_levels (frame 0x800000) true 64) (State.loaded 0 [])).1 = 0
    ∧ (Driver1.timer_fire (env_of_levels (frame 0x801234 ++ frame 0x801A34) true 64)
        (Driver1.hx711_init (env_of_levels (frame 0x801234 ++ frame 0x801A34) true 64)
          (State.loaded 0 [])).2).weight_grams = 4
    ∧ (Driver2.timer_fire (env_of_levels (frame 0x801234 ++ frame 0x801A34) true 64)
        (Driver2.hx711_init (env_of_levels (frame 0x801234 ++ frame 0x801A34) true 64)
          (State.loaded 0 [])).2).weight_grams = 4
    ∧ (Driver1.timer_fire (env_of_levels (frame 0x801234 ++ frame 0x801A34 ++ frame 0x802234) true 64)
        (Driver1.run_ticks (env_of_levels (frame 0x801234 ++ frame 0x801A34 ++ frame 0x802234) true 64) 1
          (Driver1.hx711_init (env_of_levels (frame 0x801234 ++ frame 0x801A34 ++ frame 0x802234) true 64) (State.loaded 0 [])).2)).weight_grams = 9
    ∧ (Driver2.timer_fire (env_of_levels (frame 0x801234 ++ frame 0x801A34 ++ frame 0x802234) true 64)
        (Driver2.run_ticks (env_of_levels (frame 0x801234 ++ frame 0x801A34 ++ frame 0x802234) true 64) 1
          (Driver2.hx711_init (env_of_levels (frame 0x801234 ++ frame 0x801A34 ++ frame 0x802234) true 64) (State.loaded 0 [])).2)).weight_grams = 9 := by
  have a := (C13_count_is_offset_binary.1.1 (env_of_levels (frame 0x800000) true 64)
    (State.loaded 0 []) 0 0x800000 (by decide) (by decide) (by decide)).2.1
  have b := (C13_count_is_offset_binary.1.2.2.1
    (env_of_levels (frame 0x801234 ++ frame 0x801A34) true 64) (State.loaded 0 []) 0 0
    0x801234 0x801A34 (by decide) (by decide) (by decide) (by decide) (by decide) (by decide)
    (by decide) (by decide) (by decide)).2.2
  have d := (C13_count_is_offset_binary.2.2.2.1
    (env_of_levels (frame 0x801234 ++ frame 0x801A34) true 64) (State.loaded 0 []) 0 0
    0x801234 0x801A34 (by decide) (by decide) (by decide) (by decide) (by decide) (by decide)
    (by decide) (by decide) (by decide)).2.2
  have f := ((C13_count_is_offset_binary.1.2.2.2.1 (env_of_levels (frame 0x801234 ++ frame 0x801A34 ++ frame 0x802234) true 64) (State.loaded 0 []) 0 0x801234 1 0
    0x802234 (by decide) (by decide) (by decide) (by decide) (by decide) (by decide)
    (by decide) (by decide) (by decide)).2.2.2 200 (by decide)).1
  have g := ((C13_count_is_offset_binary.2.2.2.2.1 (env_of_levels (frame 0x801234 ++ frame 0x801A34 ++ frame 0x802234) true 64) (State.loaded 0 []) 0 0x801234 1 0
    0x802234 (by decide) (by decide) (by decide) (by decide) (by decide) (by decide)
    (by decide) (by decide) (by decide)).2.2.2 200 (by decide)).1
  have e1 : Int.tdiv (signed24 0x801A34 - signed24 0x801234) Driver1.SCALE_FACTOR = 4 := by
    decide
  have e2 : Int.tdiv (signed24 0x801A34 - signed24 0x801234) Driver2.SCALE_FACTOR = 4 := by
    decide
  have e3 : Int.tdiv (signed24 0x802234 - signed24 0x801234) Driver1.SCALE_FACTOR = 9 := by
    decide
  have e4 : Int.tdiv (signed24 0x802234 - signed24 0x801234) Driver2.SCALE_FACTOR = 9 := by
    decide
  rw [e1] at b
  rw [e2] at d
  rw [e3] at f
  rw [e4] at g
  exact ⟨by decide, by rw [a]; decide, b, d, f, g⟩

/-- C14: in both drivers, on a `long` of at least 32 bits, for every raw count
and tare offset in `[0, 2 ^ 24)`: the value of `long weight` at the return
statement is the exact quotient `(raw - offset) / SCALE_FACTOR`, it fits a
32-bit signed `int`, the cast `(int)weight` returns it unchanged, and its
absolute value is at most 39850 with scale factor 421 and at most 39383 with
scale factor 426. -/
theorem C14_narrowing_cast_is_lossless (w : Nat) (offset raw : Nat)
    (hw : 32 ≤ w) (hraw : raw < 2 ^ 24) (hoffset : offset < 2 ^ 24) :
    (Driver1.SCALE_FACTOR = 421
      ∧ Driver1.convert w Driver1.SCALE_FACTOR offset raw
          = wrap_signed 32 (weight_long w Driver1.SCALE_FACTOR offset raw)
      ∧ weight_long w Driver1.SCALE_FACTOR offset raw
          = Int.tdiv ((raw : Int) - (offset : Int)) 421
      ∧ -(2 ^ 31 : Int) ≤ weight_long w Driver1.SCALE_FACTOR offset raw
      ∧ weight_long w Driver1.SCALE_FACTOR offset raw < (2 ^ 31 : Int)
      ∧ Driver1.convert w Driver1.SCALE_FACTOR offset raw
          = weight_long w Driver1.SCALE_FACTOR offset raw
      ∧ (Driver1.convert w Driver1.SCALE_FACTOR offset raw).natAbs ≤ 39850
      ∧ (∀ (env : Env) (s : State), env.BITS_PER_LONG = w → s.auto_tare_offset = offset →
          Driver1.convert_to_grams env s raw = weight_long w 421 offset raw
          ∧ (Driver1.convert_to_grams env s raw).natAbs ≤ 39850))
    ∧ (Driver2.SCALE_FACTOR = 426
      ∧ Driver2.convert w Driver2.SCALE_FACTOR offset raw
          = wrap_signed 32 (weight_long w Driver2.SCALE_FACTOR offset raw)
      ∧ weight_long w Driver2.SCALE_FACTOR offset raw
          = Int.tdiv ((raw : Int) - (offset : Int)) 426
      ∧ -(2 ^ 31 : Int) ≤ weight_long w Driver2.SCALE_FACTOR offset raw
      ∧ weight_long w Driver2.SCALE_FACTOR offset raw < (2 ^ 31 : Int)
      ∧ Driver2.convert w Driver2.SCALE_FACTOR offset raw
          = weight_long w Driver2.SCALE_FACTOR offset raw
      ∧ (Driver2.convert w Driver2.SCALE_FACTOR offset raw).natAbs ≤ 39383
      ∧ (∀ (env : Env) (s : State), env.BITS_PER_LONG = w → s.auto_tare_offset = offset →
          Driver2.convert_to_grams env s raw = weight_long w 426 offset raw
          ∧ (Driver2.convert_to_grams env s raw).natAbs ≤ 39383)) := by
  have hr : raw < 2 ^ 31 := lt_trans hraw (by decide)
  have ho : offset < 2 ^ 31 := lt_trans hoffset (by decide)
  have w1 := weight_long_exact w Driver1.SCALE_FACTOR offset raw hw hr ho
  have w2 := weight_long_exact w Driver2.SCALE_FACTOR offset raw hw hr ho
  have b1 : (Int.tdiv ((raw : Int) - (offset : Int)) 421).natAbs ≤ 39850 :=
    tdiv_counts_bound offset raw 421 hraw hoffset
  have b2 : (Int.tdiv ((raw : Int) - (offset : Int)) 426).natAbs ≤ 39383 :=
    tdiv_counts_bound offset raw 426 hraw hoffset
  have c1 : Driver1.convert w Driver1.SCALE_FACTOR offset raw
      = weight_long w Driver1.SCALE_FACTOR offset raw := w1.2.2.2
  have c2 : Driver2.convert w Driver2.SCALE_FACTOR offset raw
      = weight_long w Driver2.SCALE_FACTOR offset raw := w2.2.2.2
  have n1 : (Driver1.convert w Driver1.SCALE_FACTOR offset raw).natAbs ≤ 39850 := by
    rw [c1, w1.1]; exact b1
  have n2 : (Driver2.convert w Driver2.SCALE_FACTOR offset raw).natAbs ≤ 39383 := by
    rw [c2, w2.1]; exact b2
  refine ⟨⟨rfl, rfl, w1.1, w1.2.1, w1.2.2.1, c1, n1, ?_⟩,
    ⟨rfl, rfl, w2.1, w2.2.1, w2.2.2.1, c2, n2, ?_⟩⟩
  · intro env s hbits hoff
    unfold Driver1.convert_to_grams
    rw [hbits, hoff]
    exact ⟨c1, n1⟩
  · intro env s hbits hoff
    unfold Driver2.convert_to_grams
    rw [hbits, hoff]
    exact ⟨c2, n2⟩

/-- C14 at a concrete input: the largest difference, raw count `0xFFFFFF`
against offset 0, gives exactly 39850 grams with scale factor 421 and 39383 with
scale factor 426; the bounds are attained. -/
theorem C14_narrowing_cast_is_lossless_witness :
    Driver1.convert 64 Driver1.SCALE_FACTOR 0 0xFFFFFF = 39850
    ∧ Driver2.convert 64 Driver2.SCALE_FACTOR 0 0xFFFFFF = 39383
    ∧ weight_long 64 421 0 0xFFFFFF = 39850
    ∧ weight_long 64 426 0 0xFFFFFF = 39383 := by
  have h := C14_narrowing_cast_is_lossless 64 0 0xFFFFFF (by decide) (by decide) (by decide)
  have e1 : weight_long 64 Driver1.SCALE_FACTOR 0 0xFFFFFF = 39850 := by
    rw [h.1.2.2.1]; decide
  have e2 : weight_long 64 Driver2.SCALE_FACTOR 0 0xFFFFFF = 39383 := by
    rw [h.2.2.2.1]; decide
  exact ⟨by rw [h.1.2.2.2.2.2.1, e1], by rw [h.2.2.2.2.2.2.1, e2], e1, e2⟩

/-- C15 (the code at the failing input): with driver 1's entry "weight1"
registered, driver 2's `hx711_init` succeeds and registers "weight2", and its
`hx711_exit` then removes "weight1" and leaves "weight2": the names end as
`["weight2"]`, not as `["weight1"]`.  From an empty set of names they end as
`["weight2"]` too.  Driver 1's init followed by exit does restore the names it
found, here `["weight2"]`. -/
theorem C15_driver2_exit_removes_wrong_entry :
    (Driver1.hx711_exit (Driver1.hx711_init (env_of_levels (frame 0) true 64)
        (State.loaded 0 ["weight2"])).2).procfs = ["weight2"]
    ∧ (Driver2.hx711_init (env_of_levels (frame 0) true 64) (State.loaded 0 ["weight1"])).1 = 0
    ∧ (Driver2.hx711_init (env_of_levels (frame 0) true 64)
        (State.loaded 0 ["weight1"])).2.procfs = ["weight2", "weight1"]
    ∧ (Driver2.hx711_exit (Driver2.hx711_init (env_of_levels (frame 0) true 64)
        (State.loaded 0 ["weight1"])).2).procfs = ["weight2"]
    ∧ (Driver2.hx711_exit (Driver2.hx711_init (env_of_levels (frame 0) true 64)
        (State.loaded 0 [])).2).procfs = ["weight2"] := by
  have a := exit_after_init_procfs_driver1 (env_of_levels (frame 0) true 64)
    (State.loaded 0 ["weight2"]) (by decide) (by decide)
  have f := Driver2.init_facts_d2 (env_of_levels (frame 0) true 64)
    (State.loaded 0 ["weight1"]) (by decide) (by decide)
  have b := exit_after_init_procfs_driver2 (env_of_levels (frame 0) true 64)
    (State.loaded 0 ["weight1"]) (by decide) (by decide)
  have d := exit_after_init_procfs_driver2 (env_of_levels (frame 0) true 64)
    (State.loaded 0 []) (by decide) (by decide)
  have e1 : "weight2" :: (State.loaded 0 ["weight1"]).procfs.erase "weight1" = ["weight2"] := by
    decide
  have e2 : "weight2" :: (State.loaded 0 []).procfs.erase "weight1" = ["weight2"] := by
    decide
  rw [e1] at b
  rw [e2] at d
  exact ⟨a, f.1, f.2.2.2.2, b, d⟩

end HX711
